import Mathlib

/-!
# webgl: a Go binding of the browser's WebGL rendering context

A shallow embedding of `webgl.go` (package `webgl`).  The Go code talks to the
browser through `syscall/js`; the browser is modelled by a `Host`, a transition
system over an arbitrary world type `σ`, and the bridge by the operations of
`js.Value` the source uses (`Get`, `Call`, `Index`, `Length`, `IsNull`, `Equal`,
`Bool`, `Int`, `String`) with their documented panics.

Go state is explicit: a `Machine` carries the host world, the trace of method
calls dispatched to the host, and the heap cells of the `Context` structs
allocated by `NewContext`.  A Go function is a function
`Machine σ → Except Panic α × Machine σ`: a panic unwinds the Go function but
the machine it leaves behind is still observable.
-/

set_option maxRecDepth 8192

namespace webgl

/-! ## JavaScript values as seen through `syscall/js` -/

/-- A JavaScript value held by a `js.Value`.  Numbers are IEEE doubles; the
binding never computes with them, so a number is kept as the exact rational it
denotes (NaN and the infinities are left out, and a Go integer is taken to
convert exactly).  Objects, arrays and functions are references into the host
world. -/
inductive js.Value where
  | undefined
  | null
  | boolean (b : Bool)
  | number (x : Rat)
  | string (s : String)
  | object (ref : Nat)
  deriving DecidableEq, Repr

/-- The Go panics the bridge can raise. -/
inductive Panic where
  /-- A `*js.ValueError`: the named method was used on a value of the wrong type. -/
  | valueError (method : String)
  /-- The panic `ValueOf: invalid value`: a Go value without JavaScript counterpart. -/
  | invalidValue
  /-- A `js.Error`: the JavaScript call threw, or the property is not a function. -/
  | jsError
  /-- A nil or dangling `*Context` was dereferenced. -/
  | nilDereference
  /-- The panic `makeslice: len out of range`. -/
  | makeSliceLen
  /-- The panic `index out of range` of a slice assignment. -/
  | indexOutOfRange
  deriving DecidableEq, Repr

/-- A Go value passed as `interface{}` to `Value.Call`.  The constructors are
the static types that occur in the signatures of the binding, `nil`, and
`[]float32`; the composite kinds `[]interface{}` and `map[string]interface{}`
are not modelled. -/
inductive GoValue where
  | jsValue (v : js.Value)
  | nil
  | bool (b : Bool)
  | int (n : Int)
  | float32 (x : Rat)
  | float64 (x : Rat)
  | string (s : String)
  | float32Slice (xs : List Rat)
  deriving DecidableEq, Repr

/-- The conversion `js.ValueOf`; `none` is its panic `ValueOf: invalid value`. -/
def js.ValueOf : GoValue → Option js.Value
  | .jsValue v => some v
  | .nil => some .null
  | .bool b => some (.boolean b)
  | .int n => some (.number n)
  | .float32 x => some (.number x)
  | .float64 x => some (.number x)
  | .string s => some (.string s)
  | .float32Slice _ => none

/-- The conversion `makeArgs` of `Value.Call`: every argument through `ValueOf`,
in order. -/
def js.makeArgs : List GoValue → Option (List js.Value)
  | [] => some []
  | a :: rest =>
    match js.ValueOf a with
    | none => none
    | some v =>
      match js.makeArgs rest with
      | none => none
      | some vs => some (v :: vs)

/-- One method call dispatched to the host: receiver, method name, converted
arguments, and what came back (`none` when the call threw). -/
structure CallEvent where
  receiver : js.Value
  method : String
  args : List js.Value
  result : Option js.Value
  deriving DecidableEq, Repr

/-- The browser.  `global` reads a property of the global object, `get` a
property of an object, `length` and `index` read an array-like object, and
`call` runs a method of an object: it returns the result (`none` when the
property is not a function or the function throws) and the next world. -/
structure Host (σ : Type) where
  global : σ → String → js.Value
  get : σ → Nat → String → js.Value
  length : σ → Nat → Int
  index : σ → Nat → Nat → js.Value
  call : σ → Nat → String → List js.Value → Option js.Value × σ
  numberToString : Rat → String

/-! ## The Go side -/

/-- The struct `ContextAttributes`. -/
structure ContextAttributes where
  Alpha : Bool
  Depth : Bool
  Stencil : Bool
  Antialias : Bool
  PremultipliedAlpha : Bool
  PreserveDrawingBuffer : Bool
  deriving DecidableEq, Repr

/-- The function `DefaultAttributes`: a fresh record of the default attributes. -/
def DefaultAttributes : ContextAttributes :=
  ⟨true, true, false, true, true, false⟩

/-- A value of the struct `Context` the way `reflect` sees it: one slot per
field, in declaration order.  Slot 0 is the embedded `js.Value`. -/
structure Context where
  slots : List js.Value
  deriving DecidableEq, Repr

/-- The embedded field `Value` of a `Context`. -/
def Context.Value (c : Context) : js.Value := c.slots[0]?.getD .undefined

/-- The Go machine: host world, calls dispatched so far, and the `Context`
cells allocated so far (a `*Context` is an index into `heap`). -/
structure Machine (σ : Type) where
  world : σ
  calls : List CallEvent
  heap : List Context

/-- A Go computation. -/
def JS (σ α : Type) : Type := Machine σ → Except Panic α × Machine σ

/-- Return a value without touching the machine. -/
def JS.pure {σ α : Type} (a : α) : JS σ α := fun m => (.ok a, m)

/-- Sequencing: a panic of the first computation skips the second. -/
def JS.bind {σ α β : Type} (x : JS σ α) (f : α → JS σ β) : JS σ β := fun m =>
  match x m with
  | (.ok a, m1) => f a m1
  | (.error e, m1) => (.error e, m1)

/-- Raise a panic. -/
def JS.panic {σ α : Type} (e : Panic) : JS σ α := fun m => (.error e, m)

/-- The method `Value.IsNull`. -/
def js.Value.IsNull : js.Value → Bool
  | .null => true
  | _ => false

/-- The method `Value.Equal`: JavaScript strict equality. -/
def js.Value.Equal (v w : js.Value) : Bool := decide (v = w)

/-- The method `Value.Get`: it panics unless the receiver is an object. -/
def js.Value.Get {σ : Type} (h : Host σ) (v : js.Value) (p : String) : JS σ js.Value := fun m =>
  match v with
  | .object r => (.ok (h.get m.world r p), m)
  | _ => (.error (.valueError "Value.Get"), m)

/-- The method `Value.Length`: it panics unless the receiver is an object. -/
def js.Value.Length {σ : Type} (h : Host σ) (v : js.Value) : JS σ Int := fun m =>
  match v with
  | .object r => (.ok (h.length m.world r), m)
  | _ => (.error (.valueError "Value.Length"), m)

/-- The method `Value.Index`: it panics unless the receiver is an object. -/
def js.Value.Index {σ : Type} (h : Host σ) (v : js.Value) (i : Nat) : JS σ js.Value := fun m =>
  match v with
  | .object r => (.ok (h.index m.world r i), m)
  | _ => (.error (.valueError "Value.Index"), m)

/-- The method `Value.Call`: the arguments are converted first, then the call
is dispatched to the host and recorded. -/
def js.Value.Call {σ : Type} (h : Host σ) (v : js.Value) (name : String) (args : List GoValue) :
    JS σ js.Value := fun m =>
  match js.makeArgs args with
  | none => (.error .invalidValue, m)
  | some vals =>
    match v with
    | .object r =>
      let out := h.call m.world r name vals
      let m1 : Machine σ :=
        { world := out.2, calls := m.calls ++ [⟨v, name, vals, out.1⟩], heap := m.heap }
      match out.1 with
      | some res => (.ok res, m1)
      | none => (.error .jsError, m1)
    | _ => (.error (.valueError "Value.Call"), m)

/-- The method `Value.Bool`: it panics unless the value is a boolean. -/
def js.Value.Bool {σ : Type} (v : js.Value) : JS σ Bool :=
  match v with
  | .boolean b => JS.pure b
  | _ => JS.panic (.valueError "Value.Bool")

/-- The method `Value.Int`: it panics unless the value is a number, and
truncates toward zero. -/
def js.Value.Int {σ : Type} (v : js.Value) : JS σ Int :=
  match v with
  | .number x => JS.pure (Int.tdiv x.num x.den)
  | _ => JS.panic (.valueError "Value.Int")

/-- The method `Value.String`: the string itself for a string, a bracketed
description of the type and value otherwise.  It never panics. -/
def js.Value.String {σ : Type} (h : Host σ) (v : js.Value) : String :=
  match v with
  | .string s => s
  | .undefined => "<undefined>"
  | .null => "<null>"
  | .boolean b => "<boolean: " ++ (if b then "true" else "false") ++ ">"
  | .number x => "<number: " ++ h.numberToString x ++ ">"
  | .object _ => "<object>"

/-- The call `js.Global().Get(name)`: the global object is always an object. -/
def js.Global.Get {σ : Type} (h : Host σ) (name : String) : JS σ js.Value := fun m =>
  (.ok (h.global m.world name), m)

/-- One field of a Go struct as `reflect` reports it: its name and the value of
the key `js` of its tag (`none` when `Tag.Lookup("js")` fails). -/
structure StructField where
  Name : String
  Tag : Option String
  deriving DecidableEq, Repr

/-- The fields of the struct `Context` in declaration order, each with the
value of the key `js` of its struct tag when it has one. -/
def contextFields : List StructField := [
  StructField.mk "Value" none,
  StructField.mk "ARRAY_BUFFER" (some "ARRAY_BUFFER"),
  StructField.mk "ARRAY_BUFFER_BINDING" (some "ARRAY_BUFFER_BINDING"),
  StructField.mk "ATTACHED_SHADERS" (some "ATTACHED_SHADERS"),
  StructField.mk "BACK" (some "BACK"),
  StructField.mk "BLEND" (some "BLEND"),
  StructField.mk "BLEND_COLOR" (some "BLEND_COLOR"),
  StructField.mk "BLEND_DST_ALPHA" (some "BLEND_DST_ALPHA"),
  StructField.mk "BLEND_DST_RGB" (some "BLEND_DST_RGB"),
  StructField.mk "BLEND_EQUATION" (some "BLEND_EQUATION"),
  StructField.mk "BLEND_EQUATION_ALPHA" (some "BLEND_EQUATION_ALPHA"),
  StructField.mk "BLEND_EQUATION_RGB" (some "BLEND_EQUATION_RGB"),
  StructField.mk "BLEND_SRC_ALPHA" (some "BLEND_SRC_ALPHA"),
  StructField.mk "BLEND_SRC_RGB" (some "BLEND_SRC_RGB"),
  StructField.mk "BLUE_BITS" (some "BLUE_BITS"),
  StructField.mk "BOOL" (some "BOOL"),
  StructField.mk "BOOL_VEC2" (some "BOOL_VEC2"),
  StructField.mk "BOOL_VEC3" (some "BOOL_VEC3"),
  StructField.mk "BOOL_VEC4" (some "BOOL_VEC4"),
  StructField.mk "BROWSER_DEFAULT_WEBGL" (some "BROWSER_DEFAULT_WEBGL"),
  StructField.mk "BUFFER_SIZE" (some "BUFFER_SIZE"),
  StructField.mk "BUFFER_USAGE" (some "BUFFER_USAGE"),
  StructField.mk "BYTE" (some "BYTE"),
  StructField.mk "CCW" (some "CCW"),
  StructField.mk "CLAMP_TO_EDGE" (some "CLAMP_TO_EDGE"),
  StructField.mk "COLOR_ATTACHMENT0" (some "COLOR_ATTACHMENT0"),
  StructField.mk "COLOR_BUFFER_BIT" (some "COLOR_BUFFER_BIT"),
  StructField.mk "COLOR_CLEAR_VALUE" (some "COLOR_CLEAR_VALUE"),
  StructField.mk "COLOR_WRITEMASK" (some "COLOR_WRITEMASK"),
  StructField.mk "COMPILE_STATUS" (some "COMPILE_STATUS"),
  StructField.mk "COMPRESSED_TEXTURE_FORMATS" (some "COMPRESSED_TEXTURE_FORMATS"),
  StructField.mk "CONSTANT_ALPHA" (some "CONSTANT_ALPHA"),
  StructField.mk "CONSTANT_COLOR" (some "CONSTANT_COLOR"),
  StructField.mk "CONTEXT_LOST_WEBGL" (some "CONTEXT_LOST_WEBGL"),
  StructField.mk "CULL_FACE" (some "CULL_FACE"),
  StructField.mk "CULL_FACE_MODE" (some "CULL_FACE_MODE"),
  StructField.mk "CURRENT_PROGRAM" (some "CURRENT_PROGRAM"),
  StructField.mk "CURRENT_VERTEX_ATTRIB" (some "CURRENT_VERTEX_ATTRIB"),
  StructField.mk "CW" (some "CW"),
  StructField.mk "DECR" (some "DECR"),
  StructField.mk "DECR_WRAP" (some "DECR_WRAP"),
  StructField.mk "DELETE_STATUS" (some "DELETE_STATUS"),
  StructField.mk "DEPTH_ATTACHMENT" (some "DEPTH_ATTACHMENT"),
  StructField.mk "DEPTH_BITS" (some "DEPTH_BITS"),
  StructField.mk "DEPTH_BUFFER_BIT" (some "DEPTH_BUFFER_BIT"),
  StructField.mk "DEPTH_CLEAR_VALUE" (some "DEPTH_CLEAR_VALUE"),
  StructField.mk "DEPTH_COMPONENT" (some "DEPTH_COMPONENT"),
  StructField.mk "DEPTH_COMPONENT16" (some "DEPTH_COMPONENT16"),
  StructField.mk "DEPTH_FUNC" (some "DEPTH_FUNC"),
  StructField.mk "DEPTH_RANGE" (some "DEPTH_RANGE"),
  StructField.mk "DEPTH_STENCIL" (some "DEPTH_STENCIL"),
  StructField.mk "DEPTH_STENCIL_ATTACHMENT" (some "DEPTH_STENCIL_ATTACHMENT"),
  StructField.mk "DEPTH_TEST" (some "DEPTH_TEST"),
  StructField.mk "DEPTH_WRITEMASK" (some "DEPTH_WRITEMASK"),
  StructField.mk "DITHER" (some "DITHER"),
  StructField.mk "DONT_CARE" (some "DONT_CARE"),
  StructField.mk "DST_ALPHA" (some "DST_ALPHA"),
  StructField.mk "DST_COLOR" (some "DST_COLOR"),
  StructField.mk "DYNAMIC_DRAW" (some "DYNAMIC_DRAW"),
  StructField.mk "ELEMENT_ARRAY_BUFFER" (some "ELEMENT_ARRAY_BUFFER"),
  StructField.mk "ELEMENT_ARRAY_BUFFER_BINDING" (some "ELEMENT_ARRAY_BUFFER_BINDING"),
  StructField.mk "EQUAL" (some "EQUAL"),
  StructField.mk "FASTEST" (some "FASTEST"),
  StructField.mk "FLOAT" (some "FLOAT"),
  StructField.mk "FLOAT_MAT2" (some "FLOAT_MAT2"),
  StructField.mk "FLOAT_MAT3" (some "FLOAT_MAT3"),
  StructField.mk "FLOAT_MAT4" (some "FLOAT_MAT4"),
  StructField.mk "FLOAT_VEC2" (some "FLOAT_VEC2"),
  StructField.mk "FLOAT_VEC3" (some "FLOAT_VEC3"),
  StructField.mk "FLOAT_VEC4" (some "FLOAT_VEC4"),
  StructField.mk "FRAGMENT_SHADER" (some "FRAGMENT_SHADER"),
  StructField.mk "FRAMEBUFFER" (some "FRAMEBUFFER"),
  StructField.mk "FRAMEBUFFER_ATTACHMENT_OBJECT_NAME" (some "FRAMEBUFFER_ATTACHMENT_OBJECT_NAME"),
  StructField.mk "FRAMEBUFFER_ATTACHMENT_OBJECT_TYPE" (some "FRAMEBUFFER_ATTACHMENT_OBJECT_TYPE"),
  StructField.mk "FRAMEBUFFER_ATTACHMENT_TEXTURE_CUBE_MAP_FACE" (some "FRAMEBUFFER_ATTACHMENT_TEXTURE_CUBE_MAP_FACE"),
  StructField.mk "FRAMEBUFFER_ATTACHMENT_TEXTURE_LEVEL" (some "FRAMEBUFFER_ATTACHMENT_TEXTURE_LEVEL"),
  StructField.mk "FRAMEBUFFER_BINDING" (some "FRAMEBUFFER_BINDING"),
  StructField.mk "FRAMEBUFFER_COMPLETE" (some "FRAMEBUFFER_COMPLETE"),
  StructField.mk "FRAMEBUFFER_INCOMPLETE_ATTACHMENT" (some "FRAMEBUFFER_INCOMPLETE_ATTACHMENT"),
  StructField.mk "FRAMEBUFFER_INCOMPLETE_DIMENSIONS" (some "FRAMEBUFFER_INCOMPLETE_DIMENSIONS"),
  StructField.mk "FRAMEBUFFER_INCOMPLETE_MISSING_ATTACHMENT" (some "FRAMEBUFFER_INCOMPLETE_MISSING_ATTACHMENT"),
  StructField.mk "FRAMEBUFFER_UNSUPPORTED" (some "FRAMEBUFFER_UNSUPPORTED"),
  StructField.mk "FRONT" (some "FRONT"),
  StructField.mk "FRONT_AND_BACK" (some "FRONT_AND_BACK"),
  StructField.mk "FRONT_FACE" (some "FRONT_FACE"),
  StructField.mk "FUNC_ADD" (some "FUNC_ADD"),
  StructField.mk "FUNC_REVERSE_SUBTRACT" (some "FUNC_REVERSE_SUBTRACT"),
  StructField.mk "FUNC_SUBTRACT" (some "FUNC_SUBTRACT"),
  StructField.mk "GENERATE_MIPMAP_HINT" (some "GENERATE_MIPMAP_HINT"),
  StructField.mk "GEQUAL" (some "GEQUAL"),
  StructField.mk "GREATER" (some "GREATER"),
  StructField.mk "GREEN_BITS" (some "GREEN_BITS"),
  StructField.mk "HIGH_FLOAT" (some "HIGH_FLOAT"),
  StructField.mk "HIGH_INT" (some "HIGH_INT"),
  StructField.mk "INCR" (some "INCR"),
  StructField.mk "INCR_WRAP" (some "INCR_WRAP"),
  StructField.mk "INFO_LOG_LENGTH" (some "INFO_LOG_LENGTH"),
  StructField.mk "INT" (some "INT"),
  StructField.mk "INT_VEC2" (some "INT_VEC2"),
  StructField.mk "INT_VEC3" (some "INT_VEC3"),
  StructField.mk "INT_VEC4" (some "INT_VEC4"),
  StructField.mk "INVALID_ENUM" (some "INVALID_ENUM"),
  StructField.mk "INVALID_FRAMEBUFFER_OPERATION" (some "INVALID_FRAMEBUFFER_OPERATION"),
  StructField.mk "INVALID_OPERATION" (some "INVALID_OPERATION"),
  StructField.mk "INVALID_VALUE" (some "INVALID_VALUE"),
  StructField.mk "INVERT" (some "INVERT"),
  StructField.mk "KEEP" (some "KEEP"),
  StructField.mk "LEQUAL" (some "LEQUAL"),
  StructField.mk "LESS" (some "LESS"),
  StructField.mk "LINEAR" (some "LINEAR"),
  StructField.mk "LINEAR_MIPMAP_LINEAR" (some "LINEAR_MIPMAP_LINEAR"),
  StructField.mk "LINEAR_MIPMAP_NEAREST" (some "LINEAR_MIPMAP_NEAREST"),
  StructField.mk "LINES" (some "LINES"),
  StructField.mk "LINE_LOOP" (some "LINE_LOOP"),
  StructField.mk "LINE_STRIP" (some "LINE_STRIP"),
  StructField.mk "LINE_WIDTH" (some "LINE_WIDTH"),
  StructField.mk "LINK_STATUS" (some "LINK_STATUS"),
  StructField.mk "LOW_FLOAT" (some "LOW_FLOAT"),
  StructField.mk "LOW_INT" (some "LOW_INT"),
  StructField.mk "LUMINANCE" (some "LUMINANCE"),
  StructField.mk "LUMINANCE_ALPHA" (some "LUMINANCE_ALPHA"),
  StructField.mk "MAX_COMBINED_TEXTURE_IMAGE_UNITS" (some "MAX_COMBINED_TEXTURE_IMAGE_UNITS"),
  StructField.mk "MAX_CUBE_MAP_TEXTURE_SIZE" (some "MAX_CUBE_MAP_TEXTURE_SIZE"),
  StructField.mk "MAX_FRAGMENT_UNIFORM_VECTORS" (some "MAX_FRAGMENT_UNIFORM_VECTORS"),
  StructField.mk "MAX_RENDERBUFFER_SIZE" (some "MAX_RENDERBUFFER_SIZE"),
  StructField.mk "MAX_TEXTURE_IMAGE_UNITS" (some "MAX_TEXTURE_IMAGE_UNITS"),
  StructField.mk "MAX_TEXTURE_SIZE" (some "MAX_TEXTURE_SIZE"),
  StructField.mk "MAX_VARYING_VECTORS" (some "MAX_VARYING_VECTORS"),
  StructField.mk "MAX_VERTEX_ATTRIBS" (some "MAX_VERTEX_ATTRIBS"),
  StructField.mk "MAX_VERTEX_TEXTURE_IMAGE_UNITS" (some "MAX_VERTEX_TEXTURE_IMAGE_UNITS"),
  StructField.mk "MAX_VERTEX_UNIFORM_VECTORS" (some "MAX_VERTEX_UNIFORM_VECTORS"),
  StructField.mk "MAX_VIEWPORT_DIMS" (some "MAX_VIEWPORT_DIMS"),
  StructField.mk "MEDIUM_FLOAT" (some "MEDIUM_FLOAT"),
  StructField.mk "MEDIUM_INT" (some "MEDIUM_INT"),
  StructField.mk "MIRRORED_REPEAT" (some "MIRRORED_REPEAT"),
  StructField.mk "NEAREST" (some "NEAREST"),
  StructField.mk "NEAREST_MIPMAP_LINEAR" (some "NEAREST_MIPMAP_LINEAR"),
  StructField.mk "NEAREST_MIPMAP_NEAREST" (some "NEAREST_MIPMAP_NEAREST"),
  StructField.mk "NEVER" (some "NEVER"),
  StructField.mk "NICEST" (some "NICEST"),
  StructField.mk "NONE" (some "NONE"),
  StructField.mk "NOTEQUAL" (some "NOTEQUAL"),
  StructField.mk "NO_ERROR" (some "NO_ERROR"),
  StructField.mk "NUM_COMPRESSED_TEXTURE_FORMATS" (some "NUM_COMPRESSED_TEXTURE_FORMATS"),
  StructField.mk "ONE" (some "ONE"),
  StructField.mk "ONE_MINUS_CONSTANT_ALPHA" (some "ONE_MINUS_CONSTANT_ALPHA"),
  StructField.mk "ONE_MINUS_CONSTANT_COLOR" (some "ONE_MINUS_CONSTANT_COLOR"),
  StructField.mk "ONE_MINUS_DST_ALPHA" (some "ONE_MINUS_DST_ALPHA"),
  StructField.mk "ONE_MINUS_DST_COLOR" (some "ONE_MINUS_DST_COLOR"),
  StructField.mk "ONE_MINUS_SRC_ALPHA" (some "ONE_MINUS_SRC_ALPHA"),
  StructField.mk "ONE_MINUS_SRC_COLOR" (some "ONE_MINUS_SRC_COLOR"),
  StructField.mk "OUT_OF_MEMORY" (some "OUT_OF_MEMORY"),
  StructField.mk "PACK_ALIGNMENT" (some "PACK_ALIGNMENT"),
  StructField.mk "POINTS" (some "POINTS"),
  StructField.mk "POLYGON_OFFSET_FACTOR" (some "POLYGON_OFFSET_FACTOR"),
  StructField.mk "POLYGON_OFFSET_FILL" (some "POLYGON_OFFSET_FILL"),
  StructField.mk "POLYGON_OFFSET_UNITS" (some "POLYGON_OFFSET_UNITS"),
  StructField.mk "RED_BITS" (some "RED_BITS"),
  StructField.mk "RENDERBUFFER" (some "RENDERBUFFER"),
  StructField.mk "RENDERBUFFER_ALPHA_SIZE" (some "RENDERBUFFER_ALPHA_SIZE"),
  StructField.mk "RENDERBUFFER_BINDING" (some "RENDERBUFFER_BINDING"),
  StructField.mk "RENDERBUFFER_BLUE_SIZE" (some "RENDERBUFFER_BLUE_SIZE"),
  StructField.mk "RENDERBUFFER_DEPTH_SIZE" (some "RENDERBUFFER_DEPTH_SIZE"),
  StructField.mk "RENDERBUFFER_GREEN_SIZE" (some "RENDERBUFFER_GREEN_SIZE"),
  StructField.mk "RENDERBUFFER_HEIGHT" (some "RENDERBUFFER_HEIGHT"),
  StructField.mk "RENDERBUFFER_INTERNAL_FORMAT" (some "RENDERBUFFER_INTERNAL_FORMAT"),
  StructField.mk "RENDERBUFFER_RED_SIZE" (some "RENDERBUFFER_RED_SIZE"),
  StructField.mk "RENDERBUFFER_STENCIL_SIZE" (some "RENDERBUFFER_STENCIL_SIZE"),
  StructField.mk "RENDERBUFFER_WIDTH" (some "RENDERBUFFER_WIDTH"),
  StructField.mk "RENDERER" (some "RENDERER"),
  StructField.mk "REPEAT" (some "REPEAT"),
  StructField.mk "REPLACE" (some "REPLACE"),
  StructField.mk "RGB" (some "RGB"),
  StructField.mk "RGB5_A1" (some "RGB5_A1"),
  StructField.mk "RGB565" (some "RGB565"),
  StructField.mk "RGBA" (some "RGBA"),
  StructField.mk "RGBA4" (some "RGBA4"),
  StructField.mk "SAMPLER_2D" (some "SAMPLER_2D"),
  StructField.mk "SAMPLER_CUBE" (some "SAMPLER_CUBE"),
  StructField.mk "SAMPLES" (some "SAMPLES"),
  StructField.mk "SAMPLE_ALPHA_TO_COVERAGE" (some "SAMPLE_ALPHA_TO_COVERAGE"),
  StructField.mk "SAMPLE_BUFFERS" (some "SAMPLE_BUFFERS"),
  StructField.mk "SAMPLE_COVERAGE" (some "SAMPLE_COVERAGE"),
  StructField.mk "SAMPLE_COVERAGE_INVERT" (some "SAMPLE_COVERAGE_INVERT"),
  StructField.mk "SAMPLE_COVERAGE_VALUE" (some "SAMPLE_COVERAGE_VALUE"),
  StructField.mk "SCISSOR_BOX" (some "SCISSOR_BOX"),
  StructField.mk "SCISSOR_TEST" (some "SCISSOR_TEST"),
  StructField.mk "SHADER_COMPILER" (some "SHADER_COMPILER"),
  StructField.mk "SHADER_SOURCE_LENGTH" (some "SHADER_SOURCE_LENGTH"),
  StructField.mk "SHADER_TYPE" (some "SHADER_TYPE"),
  StructField.mk "SHADING_LANGUAGE_VERSION" (some "SHADING_LANGUAGE_VERSION"),
  StructField.mk "SHORT" (some "SHORT"),
  StructField.mk "SRC_ALPHA" (some "SRC_ALPHA"),
  StructField.mk "SRC_ALPHA_SATURATE" (some "SRC_ALPHA_SATURATE"),
  StructField.mk "SRC_COLOR" (some "SRC_COLOR"),
  StructField.mk "STATIC_DRAW" (some "STATIC_DRAW"),
  StructField.mk "STENCIL_ATTACHMENT" (some "STENCIL_ATTACHMENT"),
  StructField.mk "STENCIL_BACK_FAIL" (some "STENCIL_BACK_FAIL"),
  StructField.mk "STENCIL_BACK_FUNC" (some "STENCIL_BACK_FUNC"),
  StructField.mk "STENCIL_BACK_PASS_DEPTH_FAIL" (some "STENCIL_BACK_PASS_DEPTH_FAIL"),
  StructField.mk "STENCIL_BACK_PASS_DEPTH_PASS" (some "STENCIL_BACK_PASS_DEPTH_PASS"),
  StructField.mk "STENCIL_BACK_REF" (some "STENCIL_BACK_REF"),
  StructField.mk "STENCIL_BACK_VALUE_MASK" (some "STENCIL_BACK_VALUE_MASK"),
  StructField.mk "STENCIL_BACK_WRITEMASK" (some "STENCIL_BACK_WRITEMASK"),
  StructField.mk "STENCIL_BITS" (some "STENCIL_BITS"),
  StructField.mk "STENCIL_BUFFER_BIT" (some "STENCIL_BUFFER_BIT"),
  StructField.mk "STENCIL_CLEAR_VALUE" (some "STENCIL_CLEAR_VALUE"),
  StructField.mk "STENCIL_FAIL" (some "STENCIL_FAIL"),
  StructField.mk "STENCIL_FUNC" (some "STENCIL_FUNC"),
  StructField.mk "STENCIL_INDEX" (some "STENCIL_INDEX"),
  StructField.mk "STENCIL_INDEX8" (some "STENCIL_INDEX8"),
  StructField.mk "STENCIL_PASS_DEPTH_FAIL" (some "STENCIL_PASS_DEPTH_FAIL"),
  StructField.mk "STENCIL_PASS_DEPTH_PASS" (some "STENCIL_PASS_DEPTH_PASS"),
  StructField.mk "STENCIL_REF" (some "STENCIL_REF"),
  StructField.mk "STENCIL_TEST" (some "STENCIL_TEST"),
  StructField.mk "STENCIL_VALUE_MASK" (some "STENCIL_VALUE_MASK"),
  StructField.mk "STENCIL_WRITEMASK" (some "STENCIL_WRITEMASK"),
  StructField.mk "STREAM_DRAW" (some "STREAM_DRAW"),
  StructField.mk "SUBPIXEL_BITS" (some "SUBPIXEL_BITS"),
  StructField.mk "TEXTURE" (some "TEXTURE"),
  StructField.mk "TEXTURE0" (some "TEXTURE0"),
  StructField.mk "TEXTURE1" (some "TEXTURE1"),
  StructField.mk "TEXTURE2" (some "TEXTURE2"),
  StructField.mk "TEXTURE3" (some "TEXTURE3"),
  StructField.mk "TEXTURE4" (some "TEXTURE4"),
  StructField.mk "TEXTURE5" (some "TEXTURE5"),
  StructField.mk "TEXTURE6" (some "TEXTURE6"),
  StructField.mk "TEXTURE7" (some "TEXTURE7"),
  StructField.mk "TEXTURE8" (some "TEXTURE8"),
  StructField.mk "TEXTURE9" (some "TEXTURE9"),
  StructField.mk "TEXTURE10" (some "TEXTURE10"),
  StructField.mk "TEXTURE11" (some "TEXTURE11"),
  StructField.mk "TEXTURE12" (some "TEXTURE12"),
  StructField.mk "TEXTURE13" (some "TEXTURE13"),
  StructField.mk "TEXTURE14" (some "TEXTURE14"),
  StructField.mk "TEXTURE15" (some "TEXTURE15"),
  StructField.mk "TEXTURE16" (some "TEXTURE16"),
  StructField.mk "TEXTURE17" (some "TEXTURE17"),
  StructField.mk "TEXTURE18" (some "TEXTURE18"),
  StructField.mk "TEXTURE19" (some "TEXTURE19"),
  StructField.mk "TEXTURE20" (some "TEXTURE20"),
  StructField.mk "TEXTURE21" (some "TEXTURE21"),
  StructField.mk "TEXTURE22" (some "TEXTURE22"),
  StructField.mk "TEXTURE23" (some "TEXTURE23"),
  StructField.mk "TEXTURE24" (some "TEXTURE24"),
  StructField.mk "TEXTURE25" (some "TEXTURE25"),
  StructField.mk "TEXTURE26" (some "TEXTURE26"),
  StructField.mk "TEXTURE27" (some "TEXTURE27"),
  StructField.mk "TEXTURE28" (some "TEXTURE28"),
  StructField.mk "TEXTURE29" (some "TEXTURE29"),
  StructField.mk "TEXTURE30" (some "TEXTURE30"),
  StructField.mk "TEXTURE31" (some "TEXTURE31"),
  StructField.mk "TEXTURE_2D" (some "TEXTURE_2D"),
  StructField.mk "TEXTURE_BINDING_2D" (some "TEXTURE_BINDING_2D"),
  StructField.mk "TEXTURE_BINDING_CUBE_MAP" (some "TEXTURE_BINDING_CUBE_MAP"),
  StructField.mk "TEXTURE_CUBE_MAP" (some "TEXTURE_CUBE_MAP"),
  StructField.mk "TEXTURE_CUBE_MAP_NEGATIVE_X" (some "TEXTURE_CUBE_MAP_NEGATIVE_X"),
  StructField.mk "TEXTURE_CUBE_MAP_NEGATIVE_Y" (some "TEXTURE_CUBE_MAP_NEGATIVE_Y"),
  StructField.mk "TEXTURE_CUBE_MAP_NEGATIVE_Z" (some "TEXTURE_CUBE_MAP_NEGATIVE_Z"),
  StructField.mk "TEXTURE_CUBE_MAP_POSITIVE_X" (some "TEXTURE_CUBE_MAP_POSITIVE_X"),
  StructField.mk "TEXTURE_CUBE_MAP_POSITIVE_Y" (some "TEXTURE_CUBE_MAP_POSITIVE_Y"),
  StructField.mk "TEXTURE_CUBE_MAP_POSITIVE_Z" (some "TEXTURE_CUBE_MAP_POSITIVE_Z"),
  StructField.mk "TEXTURE_MAG_FILTER" (some "TEXTURE_MAG_FILTER"),
  StructField.mk "TEXTURE_MIN_FILTER" (some "TEXTURE_MIN_FILTER"),
  StructField.mk "TEXTURE_WRAP_S" (some "TEXTURE_WRAP_S"),
  StructField.mk "TEXTURE_WRAP_T" (some "TEXTURE_WRAP_T"),
  StructField.mk "TRIANGLES" (some "TRIANGLES"),
  StructField.mk "TRIANGLE_FAN" (some "TRIANGLE_FAN"),
  StructField.mk "TRIANGLE_STRIP" (some "TRIANGLE_STRIP"),
  StructField.mk "UNPACK_ALIGNMENT" (some "UNPACK_ALIGNMENT"),
  StructField.mk "UNPACK_COLORSPACE_CONVERSION_WEBGL" (some "UNPACK_COLORSPACE_CONVERSION_WEBGL"),
  StructField.mk "UNPACK_FLIP_Y_WEBGL" (some "UNPACK_FLIP_Y_WEBGL"),
  StructField.mk "UNPACK_PREMULTIPLY_ALPHA_WEBGL" (some "UNPACK_PREMULTIPLY_ALPHA_WEBGL"),
  StructField.mk "UNSIGNED_BYTE" (some "UNSIGNED_BYTE"),
  StructField.mk "UNSIGNED_INT" (some "UNSIGNED_INT"),
  StructField.mk "UNSIGNED_SHORT" (some "UNSIGNED_SHORT"),
  StructField.mk "UNSIGNED_SHORT_4_4_4_4" (some "UNSIGNED_SHORT_4_4_4_4"),
  StructField.mk "UNSIGNED_SHORT_5_5_5_1" (some "UNSIGNED_SHORT_5_5_5_1"),
  StructField.mk "UNSIGNED_SHORT_5_6_5" (some "UNSIGNED_SHORT_5_6_5"),
  StructField.mk "VALIDATE_STATUS" (some "VALIDATE_STATUS"),
  StructField.mk "VENDOR" (some "VENDOR"),
  StructField.mk "VERSION" (some "VERSION"),
  StructField.mk "VERTEX_ATTRIB_ARRAY_BUFFER_BINDING" (some "VERTEX_ATTRIB_ARRAY_BUFFER_BINDING"),
  StructField.mk "VERTEX_ATTRIB_ARRAY_ENABLED" (some "VERTEX_ATTRIB_ARRAY_ENABLED"),
  StructField.mk "VERTEX_ATTRIB_ARRAY_NORMALIZED" (some "VERTEX_ATTRIB_ARRAY_NORMALIZED"),
  StructField.mk "VERTEX_ATTRIB_ARRAY_POINTER" (some "VERTEX_ATTRIB_ARRAY_POINTER"),
  StructField.mk "VERTEX_ATTRIB_ARRAY_SIZE" (some "VERTEX_ATTRIB_ARRAY_SIZE"),
  StructField.mk "VERTEX_ATTRIB_ARRAY_STRIDE" (some "VERTEX_ATTRIB_ARRAY_STRIDE"),
  StructField.mk "VERTEX_ATTRIB_ARRAY_TYPE" (some "VERTEX_ATTRIB_ARRAY_TYPE"),
  StructField.mk "VERTEX_SHADER" (some "VERTEX_SHADER"),
  StructField.mk "VIEWPORT" (some "VIEWPORT"),
  StructField.mk "ZERO" (some "ZERO")]

/-- The zero value of `Context`: every field is the zero `js.Value`, which is
`undefined`. -/
def Context.zero : Context := ⟨List.replicate contextFields.length .undefined⟩

/-- The allocation `new(Context)`: a fresh zero cell, and the pointer to it. -/
def newContext {σ : Type} : JS σ Nat := fun m =>
  (.ok m.heap.length, { m with heap := m.heap ++ [Context.zero] })

/-- Read the cell behind a `*Context`; a nil or dangling pointer panics. -/
def load {σ : Type} (c : Option Nat) : JS σ Context := fun m =>
  match c with
  | none => (.error .nilDereference, m)
  | some p =>
    match m.heap[p]? with
    | some ctx => (.ok ctx, m)
    | none => (.error .nilDereference, m)

/-- Assign field `i` of the cell behind the pointer `p`, the way
`reflect.ValueOf(ctx).Elem().Field(i).Set` does. -/
def storeField {σ : Type} (p i : Nat) (v : js.Value) : JS σ Unit := fun m =>
  match m.heap[p]? with
  | some ctx => (.ok (), { m with heap := m.heap.set p ⟨ctx.slots.set i v⟩ })
  | none => (.error .nilDereference, m)

/-- The loop of `NewContext` over the fields of `Context`, from field `i` on:
a field with a `js` tag is assigned the property of `gl` that the tag names. -/
def NewContext.populate {σ : Type} (h : Host σ) (p : Nat) (gl : js.Value) :
    List StructField → Nat → JS σ Unit
  | [], _ => JS.pure ()
  | field :: rest, i =>
    match field.Tag with
    | some tag =>
      JS.bind (gl.Get h tag) fun val =>
      JS.bind (storeField p i val) fun _ =>
      NewContext.populate h p gl rest (i + 1)
    | none => NewContext.populate h p gl rest (i + 1)

/-- The tail of `NewContext` once a context `gl` has been obtained: allocate
the `Context`, wrap `gl`, fill in the constants, return it with a nil error. -/
def NewContext.wrap {σ : Type} (h : Host σ) (gl : js.Value) : JS σ (Option Nat × Option String) :=
  JS.bind newContext fun ctx =>
  JS.bind (storeField ctx 0 gl) fun _ =>
  JS.bind (NewContext.populate h ctx gl contextFields 0) fun _ =>
  JS.pure (some ctx, none)

/-- The function `NewContext`.  The result is the pair of the `*Context`
(`none` is nil) and the error (`none` is nil, `some msg` is `errors.New(msg)`). -/
def NewContext {σ : Type} (h : Host σ) (canvas : js.Value) : JS σ (Option Nat × Option String) :=
  JS.bind (js.Global.Get h "WebGLRenderingContext") fun wgl =>
  if wgl.Equal .undefined then
    JS.pure (none, some "Your browser doesn't appear to support webgl.")
  else
    JS.bind (canvas.Call h "getContext" [.string "webgl"]) fun gl =>
    if gl.IsNull then
      JS.bind (canvas.Call h "getContext" [.string "experimental-webgl"]) fun gl =>
      if gl.IsNull then
        JS.pure (none, some "Creating a webgl context has failed.")
      else NewContext.wrap h gl
    else NewContext.wrap h gl

/-- The promoted method `c.Call` of a `*Context`: `Call` on the embedded
`js.Value`. -/
def Context.Call {σ : Type} (h : Host σ) (c : Option Nat) (name : String) (args : List GoValue) :
    JS σ js.Value :=
  JS.bind (load c) fun ctx => ctx.Value.Call h name args

/-- The method `Context.GetContextAttributes`. -/
def Context.GetContextAttributes {σ : Type} (h : Host σ) (c : Option Nat) :
    JS σ ContextAttributes :=
  JS.bind (Context.Call h c "getContextAttributes" []) fun ca =>
  JS.bind (ca.Get h "alpha") fun v1 => JS.bind v1.Bool fun alpha =>
  JS.bind (ca.Get h "depth") fun v2 => JS.bind v2.Bool fun depth =>
  JS.bind (ca.Get h "stencil") fun v3 => JS.bind v3.Bool fun stencil =>
  JS.bind (ca.Get h "antialias") fun v4 => JS.bind v4.Bool fun antialias =>
  JS.bind (ca.Get h "premultipliedAlpha") fun v5 => JS.bind v5.Bool fun premultipliedAlpha =>
  JS.bind (ca.Get h "preservedDrawingBuffer") fun v6 => JS.bind v6.Bool fun preserved =>
  JS.pure ⟨alpha, depth, stencil, antialias, premultipliedAlpha, preserved⟩

/-- The builtin `make([]T, n)`: a slice of `n` zero values; a negative length
panics. -/
def makeSlice {σ α : Type} (zero : α) (n : Int) : JS σ (List α) :=
  if n < 0 then JS.panic .makeSliceLen else JS.pure (List.replicate n.toNat zero)

/-- The slice assignment `xs[i] = x`: an index past the end panics. -/
def setIndex {σ α : Type} (xs : List α) (i : Nat) (x : α) : JS σ (List α) :=
  if i < xs.length then JS.pure (xs.set i x) else JS.panic .indexOutOfRange

/-- The loop of `GetAttachedShaders` from index `i` on.  Every round reads
`objs.Length()` again; `fuel` bounds the number of rounds. -/
def Context.GetAttachedShaders.loop {σ : Type} (h : Host σ) (objs : js.Value) :
    Nat → Nat → List js.Value → JS σ (List js.Value)
  | 0, _, shaders => JS.pure shaders
  | fuel + 1, i, shaders =>
    JS.bind (objs.Length h) fun n =>
    if (i : Int) < n then
      JS.bind (objs.Index h i) fun v =>
      JS.bind (setIndex shaders i v) fun shaders1 =>
      Context.GetAttachedShaders.loop h objs fuel (i + 1) shaders1
    else JS.pure shaders

/-- The method `Context.GetAttachedShaders`.  The loop gets one round more than
the length read at entry, so that its last round is the failing bound check. -/
def Context.GetAttachedShaders {σ : Type} (h : Host σ) (c : Option Nat) (program : js.Value) :
    JS σ (List js.Value) :=
  JS.bind (Context.Call h c "getAttachedShaders" [GoValue.jsValue program]) fun objs =>
  JS.bind (objs.Length h) fun n =>
  JS.bind (makeSlice js.Value.undefined n) fun shaders =>
  Context.GetAttachedShaders.loop h objs (n.toNat + 1) 0 shaders

/-- The loop of `GetSupportedExtensions` from index `i` on.  Every round reads
`ext.Length()` again; `fuel` bounds the number of rounds. -/
def Context.GetSupportedExtensions.loop {σ : Type} (h : Host σ) (ext : js.Value) :
    Nat → Nat → List String → JS σ (List String)
  | 0, _, extensions => JS.pure extensions
  | fuel + 1, i, extensions =>
    JS.bind (ext.Length h) fun n =>
    if (i : Int) < n then
      JS.bind (ext.Index h i) fun v =>
      JS.bind (setIndex extensions i (v.String h)) fun extensions1 =>
      Context.GetSupportedExtensions.loop h ext fuel (i + 1) extensions1
    else JS.pure extensions

/-- The method `Context.GetSupportedExtensions`.  The loop gets one round more
than the length read at entry, so that its last round is the failing bound
check. -/
def Context.GetSupportedExtensions {σ : Type} (h : Host σ) (c : Option Nat) :
    JS σ (List String) :=
  JS.bind (Context.Call h c "getSupportedExtensions" []) fun ext =>
  JS.bind (ext.Length h) fun n =>
  JS.bind (makeSlice "" n) fun extensions =>
  Context.GetSupportedExtensions.loop h ext (n.toNat + 1) 0 extensions

/-! ## The forwarding methods

One definition per method of `Context`, in the order of the source.  The
receiver `c` is the `*Context`; the Go parameter `fun` of `DepthFunc` is written
`fn`. -/

/-- The method `Context.ActiveTexture`. -/
def Context.ActiveTexture {σ : Type} (host : Host σ) (c : Option Nat) (texture : Int)
    : JS σ Unit :=
  JS.bind (Context.Call host c "activeTexture" [.int texture]) fun _ => JS.pure ()

/-- The method `Context.AttachShader`. -/
def Context.AttachShader {σ : Type} (host : Host σ) (c : Option Nat) (program : js.Value)
    (shader : js.Value) : JS σ Unit :=
  JS.bind (Context.Call host c "attachShader" [.jsValue program, .jsValue shader])
    fun _ => JS.pure ()

/-- The method `Context.BindAttribLocation`. -/
def Context.BindAttribLocation {σ : Type} (host : Host σ) (c : Option Nat) (program : js.Value)
    (index : Int) (name : String) : JS σ Unit :=
  JS.bind (Context.Call host c "bindAttribLocation" [.jsValue program, .int index, .string name])
    fun _ => JS.pure ()

/-- The method `Context.BindBuffer`. -/
def Context.BindBuffer {σ : Type} (host : Host σ) (c : Option Nat) (target : Int)
    (buffer : js.Value) : JS σ Unit :=
  JS.bind (Context.Call host c "bindBuffer" [.int target, .jsValue buffer]) fun _ => JS.pure ()

/-- The method `Context.BindFramebuffer`. -/
def Context.BindFramebuffer {σ : Type} (host : Host σ) (c : Option Nat) (target : Int)
    (framebuffer : js.Value) : JS σ Unit :=
  JS.bind (Context.Call host c "bindFramebuffer" [.int target, .jsValue framebuffer])
    fun _ => JS.pure ()

/-- The method `Context.BindRenderbuffer`. -/
def Context.BindRenderbuffer {σ : Type} (host : Host σ) (c : Option Nat) (target : Int)
    (renderbuffer : js.Value) : JS σ Unit :=
  JS.bind (Context.Call host c "bindRenderbuffer" [.int target, .jsValue renderbuffer])
    fun _ => JS.pure ()

/-- The method `Context.BindTexture`. -/
def Context.BindTexture {σ : Type} (host : Host σ) (c : Option Nat) (target : Int)
    (texture : js.Value) : JS σ Unit :=
  JS.bind (Context.Call host c "bindTexture" [.int target, .jsValue texture]) fun _ => JS.pure ()

/-- The method `Context.BlendColor`. -/
def Context.BlendColor {σ : Type} (host : Host σ) (c : Option Nat) (r g b a : Rat) : JS σ Unit :=
  JS.bind (Context.Call host c "blendColor" [.float64 r, .float64 g, .float64 b, .float64 a])
    fun _ => JS.pure ()

/-- The method `Context.BlendEquation`. -/
def Context.BlendEquation {σ : Type} (host : Host σ) (c : Option Nat) (mode : Int) : JS σ Unit :=
  JS.bind (Context.Call host c "blendEquation" [.int mode]) fun _ => JS.pure ()

/-- The method `Context.BlendEquationSeparate`. -/
def Context.BlendEquationSeparate {σ : Type} (host : Host σ) (c : Option Nat)
    (modeRGB modeAlpha : Int) : JS σ Unit :=
  JS.bind (Context.Call host c "blendEquationSeparate" [.int modeRGB, .int modeAlpha])
    fun _ => JS.pure ()

/-- The method `Context.BlendFunc`. -/
def Context.BlendFunc {σ : Type} (host : Host σ) (c : Option Nat) (sfactor dfactor : Int)
    : JS σ Unit :=
  JS.bind (Context.Call host c "blendFunc" [.int sfactor, .int dfactor]) fun _ => JS.pure ()

/-- The method `Context.BlendFuncSeparate`. -/
def Context.BlendFuncSeparate {σ : Type} (host : Host σ) (c : Option Nat)
    (srcRGB dstRGB srcAlpha dstAlpha : Int) : JS σ Unit :=
  JS.bind (Context.Call host c "blendFuncSeparate" [.int srcRGB, .int dstRGB, .int srcAlpha, .int dstAlpha])
    fun _ => JS.pure ()

/-- The method `Context.BufferData`. -/
def Context.BufferData {σ : Type} (host : Host σ) (c : Option Nat) (target : Int) (data : GoValue)
    (usage : Int) : JS σ Unit :=
  JS.bind (Context.Call host c "bufferData" [.int target, data, .int usage]) fun _ => JS.pure ()

/-- The method `Context.BufferSubData`. -/
def Context.BufferSubData {σ : Type} (host : Host σ) (c : Option Nat) (target : Int)
    (offset : Int) (data : GoValue) : JS σ Unit :=
  JS.bind (Context.Call host c "bufferSubData" [.int target, .int offset, data]) fun _ => JS.pure ()

/-- The method `Context.CheckFramebufferStatus`. -/
def Context.CheckFramebufferStatus {σ : Type} (host : Host σ) (c : Option Nat) (target : Int)
    : JS σ Int :=
  JS.bind (Context.Call host c "checkFramebufferStatus" [.int target]) fun r => r.Int

/-- The method `Context.Clear`. -/
def Context.Clear {σ : Type} (host : Host σ) (c : Option Nat) (flags : js.Value) : JS σ Unit :=
  JS.bind (Context.Call host c "clear" [.jsValue flags]) fun _ => JS.pure ()

/-- The method `Context.ClearColor`. -/
def Context.ClearColor {σ : Type} (host : Host σ) (c : Option Nat) (r g b a : Rat) : JS σ Unit :=
  JS.bind (Context.Call host c "clearColor" [.float32 r, .float32 g, .float32 b, .float32 a])
    fun _ => JS.pure ()

/-- The method `Context.ClearDepth`. -/
def Context.ClearDepth {σ : Type} (host : Host σ) (c : Option Nat) (depth : Rat) : JS σ Unit :=
  JS.bind (Context.Call host c "clearDepth" [.float64 depth]) fun _ => JS.pure ()

/-- The method `Context.ClearStencil`. -/
def Context.ClearStencil {σ : Type} (host : Host σ) (c : Option Nat) (s : Int) : JS σ Unit :=
  JS.bind (Context.Call host c "clearStencil" [.int s]) fun _ => JS.pure ()

/-- The method `Context.ColorMask`. -/
def Context.ColorMask {σ : Type} (host : Host σ) (c : Option Nat) (r g b a : Bool) : JS σ Unit :=
  JS.bind (Context.Call host c "colorMask" [.bool r, .bool g, .bool b, .bool a]) fun _ => JS.pure ()

/-- The method `Context.CompileShader`. -/
def Context.CompileShader {σ : Type} (host : Host σ) (c : Option Nat) (shader : js.Value)
    : JS σ Unit :=
  JS.bind (Context.Call host c "compileShader" [.jsValue shader]) fun _ => JS.pure ()

/-- The method `Context.CopyTexImage2D`. -/
def Context.CopyTexImage2D {σ : Type} (host : Host σ) (c : Option Nat)
    (target level internal x y w h border : Int) : JS σ Unit :=
  JS.bind (Context.Call host c "copyTexImage2D" [.int target, .int level, .int internal, .int x, .int y,
      .int w, .int h, .int border])
    fun _ => JS.pure ()

/-- The method `Context.CopyTexSubImage2D`. -/
def Context.CopyTexSubImage2D {σ : Type} (host : Host σ) (c : Option Nat)
    (target level xoffset yoffset x y w h : Int) : JS σ Unit :=
  JS.bind (Context.Call host c "copyTexSubImage2D" [.int target, .int level, .int xoffset, .int yoffset,
      .int x, .int y, .int w, .int h])
    fun _ => JS.pure ()

/-- The method `Context.CreateBuffer`. -/
def Context.CreateBuffer {σ : Type} (host : Host σ) (c : Option Nat) : JS σ js.Value :=
  Context.Call host c "createBuffer" []

/-- The method `Context.CreateFramebuffer`. -/
def Context.CreateFramebuffer {σ : Type} (host : Host σ) (c : Option Nat) : JS σ js.Value :=
  Context.Call host c "createFramebuffer" []

/-- The method `Context.CreateProgram`. -/
def Context.CreateProgram {σ : Type} (host : Host σ) (c : Option Nat) : JS σ js.Value :=
  Context.Call host c "createProgram" []

/-- The method `Context.CreateRenderbuffer`. -/
def Context.CreateRenderbuffer {σ : Type} (host : Host σ) (c : Option Nat) : JS σ js.Value :=
  Context.Call host c "createRenderbuffer" []

/-- The method `Context.CreateShader`. -/
def Context.CreateShader {σ : Type} (host : Host σ) (c : Option Nat) (typ : Int)
    : JS σ js.Value :=
  Context.Call host c "createShader" [.int typ]

/-- The method `Context.CreateTexture`. -/
def Context.CreateTexture {σ : Type} (host : Host σ) (c : Option Nat) : JS σ js.Value :=
  Context.Call host c "createTexture" []

/-- The method `Context.CullFace`. -/
def Context.CullFace {σ : Type} (host : Host σ) (c : Option Nat) (mode : Int) : JS σ Unit :=
  JS.bind (Context.Call host c "cullFace" [.int mode]) fun _ => JS.pure ()

/-- The method `Context.DeleteBuffer`. -/
def Context.DeleteBuffer {σ : Type} (host : Host σ) (c : Option Nat) (buffer : js.Value)
    : JS σ Unit :=
  JS.bind (Context.Call host c "deleteBuffer" [.jsValue buffer]) fun _ => JS.pure ()

/-- The method `Context.DeleteFramebuffer`. -/
def Context.DeleteFramebuffer {σ : Type} (host : Host σ) (c : Option Nat) (framebuffer : js.Value)
    : JS σ Unit :=
  JS.bind (Context.Call host c "deleteFramebuffer" [.jsValue framebuffer]) fun _ => JS.pure ()

/-- The method `Context.DeleteProgram`. -/
def Context.DeleteProgram {σ : Type} (host : Host σ) (c : Option Nat) (program : js.Value)
    : JS σ Unit :=
  JS.bind (Context.Call host c "deleteProgram" [.jsValue program]) fun _ => JS.pure ()

/-- The method `Context.DeleteRenderbuffer`. -/
def Context.DeleteRenderbuffer {σ : Type} (host : Host σ) (c : Option Nat)
    (renderbuffer : js.Value) : JS σ Unit :=
  JS.bind (Context.Call host c "deleteRenderbuffer" [.jsValue renderbuffer]) fun _ => JS.pure ()

/-- The method `Context.DeleteShader`. -/
def Context.DeleteShader {σ : Type} (host : Host σ) (c : Option Nat) (shader : js.Value)
    : JS σ Unit :=
  JS.bind (Context.Call host c "deleteShader" [.jsValue shader]) fun _ => JS.pure ()

/-- The method `Context.DeleteTexture`. -/
def Context.DeleteTexture {σ : Type} (host : Host σ) (c : Option Nat) (texture : js.Value)
    : JS σ Unit :=
  JS.bind (Context.Call host c "deleteTexture" [.jsValue texture]) fun _ => JS.pure ()

/-- The method `Context.DepthFunc`. -/
def Context.DepthFunc {σ : Type} (host : Host σ) (c : Option Nat) (fn : Int) : JS σ Unit :=
  JS.bind (Context.Call host c "depthFunc" [.int fn]) fun _ => JS.pure ()

/-- The method `Context.DepthMask`. -/
def Context.DepthMask {σ : Type} (host : Host σ) (c : Option Nat) (flag : Bool) : JS σ Unit :=
  JS.bind (Context.Call host c "depthMask" [.bool flag]) fun _ => JS.pure ()

/-- The method `Context.DepthRange`. -/
def Context.DepthRange {σ : Type} (host : Host σ) (c : Option Nat) (zNear zFar : Rat)
    : JS σ Unit :=
  JS.bind (Context.Call host c "depthRange" [.float64 zNear, .float64 zFar]) fun _ => JS.pure ()

/-- The method `Context.DetachShader`. -/
def Context.DetachShader {σ : Type} (host : Host σ) (c : Option Nat) (program shader : js.Value)
    : JS σ Unit :=
  JS.bind (Context.Call host c "detachShader" [.jsValue program, .jsValue shader])
    fun _ => JS.pure ()

/-- The method `Context.Disable`. -/
def Context.Disable {σ : Type} (host : Host σ) (c : Option Nat) (cap : Int) : JS σ Unit :=
  JS.bind (Context.Call host c "disable" [.int cap]) fun _ => JS.pure ()

/-- The method `Context.DisableVertexAttribArray`. -/
def Context.DisableVertexAttribArray {σ : Type} (host : Host σ) (c : Option Nat) (index : Int)
    : JS σ Unit :=
  JS.bind (Context.Call host c "disableVertexAttribArray" [.int index]) fun _ => JS.pure ()

/-- The method `Context.DrawArrays`. -/
def Context.DrawArrays {σ : Type} (host : Host σ) (c : Option Nat) (mode first count : Int)
    : JS σ Unit :=
  JS.bind (Context.Call host c "drawArrays" [.int mode, .int first, .int count]) fun _ => JS.pure ()

/-- The method `Context.DrawElements`. -/
def Context.DrawElements {σ : Type} (host : Host σ) (c : Option Nat) (mode count typ offset : Int)
    : JS σ Unit :=
  JS.bind (Context.Call host c "drawElements" [.int mode, .int count, .int typ, .int offset])
    fun _ => JS.pure ()

/-- The method `Context.Enable`. -/
def Context.Enable {σ : Type} (host : Host σ) (c : Option Nat) (cap : Int) : JS σ Unit :=
  JS.bind (Context.Call host c "enable" [.int cap]) fun _ => JS.pure ()

/-- The method `Context.EnableVertexAttribArray`. -/
def Context.EnableVertexAttribArray {σ : Type} (host : Host σ) (c : Option Nat) (index : Int)
    : JS σ Unit :=
  JS.bind (Context.Call host c "enableVertexAttribArray" [.int index]) fun _ => JS.pure ()

/-- The method `Context.Finish`. -/
def Context.Finish {σ : Type} (host : Host σ) (c : Option Nat) : JS σ Unit :=
  JS.bind (Context.Call host c "finish" []) fun _ => JS.pure ()

/-- The method `Context.Flush`. -/
def Context.Flush {σ : Type} (host : Host σ) (c : Option Nat) : JS σ Unit :=
  JS.bind (Context.Call host c "flush" []) fun _ => JS.pure ()

/-- The method `Context.FrameBufferRenderBuffer`. -/
def Context.FrameBufferRenderBuffer {σ : Type} (host : Host σ) (c : Option Nat)
    (target attachment renderbufferTarget : Int) (renderbuffer : js.Value) : JS σ Unit :=
  JS.bind (Context.Call host c "framebufferRenderBuffer" [.int target, .int attachment,
      .int renderbufferTarget, .jsValue renderbuffer]) fun _ => JS.pure ()

/-- The method `Context.FramebufferTexture2D`. -/
def Context.FramebufferTexture2D {σ : Type} (host : Host σ) (c : Option Nat)
    (target attachment textarget : Int) (texture : js.Value) (level : Int) : JS σ Unit :=
  JS.bind (Context.Call host c "framebufferTexture2D" [.int target, .int attachment, .int textarget,
      .jsValue texture, .int level]) fun _ => JS.pure ()

/-- The method `Context.FrontFace`. -/
def Context.FrontFace {σ : Type} (host : Host σ) (c : Option Nat) (mode : Int) : JS σ Unit :=
  JS.bind (Context.Call host c "frontFace" [.int mode]) fun _ => JS.pure ()

/-- The method `Context.GenerateMipmap`. -/
def Context.GenerateMipmap {σ : Type} (host : Host σ) (c : Option Nat) (target : Int)
    : JS σ Unit :=
  JS.bind (Context.Call host c "generateMipmap" [.int target]) fun _ => JS.pure ()

/-- The method `Context.GetActiveAttrib`. -/
def Context.GetActiveAttrib {σ : Type} (host : Host σ) (c : Option Nat) (program : js.Value)
    (index : Int) : JS σ js.Value :=
  Context.Call host c "getActiveAttrib" [.jsValue program, .int index]

/-- The method `Context.GetActiveUniform`. -/
def Context.GetActiveUniform {σ : Type} (host : Host σ) (c : Option Nat) (program : js.Value)
    (index : Int) : JS σ js.Value :=
  Context.Call host c "getActiveUniform" [.jsValue program, .int index]

/-- The method `Context.GetAttribLocation`. -/
def Context.GetAttribLocation {σ : Type} (host : Host σ) (c : Option Nat) (program : js.Value)
    (name : String) : JS σ Int :=
  JS.bind (Context.Call host c "getAttribLocation" [.jsValue program, .string name]) fun r => r.Int

/-- The method `Context.GetBufferParameter`. -/
def Context.GetBufferParameter {σ : Type} (host : Host σ) (c : Option Nat) (target pname : Int)
    : JS σ js.Value :=
  Context.Call host c "getBufferParameter" [.int target, .int pname]

/-- The method `Context.GetParameter`. -/
def Context.GetParameter {σ : Type} (host : Host σ) (c : Option Nat) (pname : Int)
    : JS σ js.Value :=
  Context.Call host c "getParameter" [.int pname]

/-- The method `Context.GetError`. -/
def Context.GetError {σ : Type} (host : Host σ) (c : Option Nat) : JS σ Int :=
  JS.bind (Context.Call host c "getError" []) fun r => r.Int

/-- The method `Context.GetExtension`. -/
def Context.GetExtension {σ : Type} (host : Host σ) (c : Option Nat) (name : String)
    : JS σ js.Value :=
  Context.Call host c "getExtension" [.string name]

/-- The method `Context.GetFramebufferAttachmentParameter`. -/
def Context.GetFramebufferAttachmentParameter {σ : Type} (host : Host σ) (c : Option Nat)
    (target attachment pname : Int) : JS σ js.Value :=
  Context.Call host c "getFramebufferAttachmentParameter" [.int target, .int attachment, .int pname]

/-- The method `Context.GetProgramParameteri`. -/
def Context.GetProgramParameteri {σ : Type} (host : Host σ) (c : Option Nat) (program : js.Value)
    (pname : Int) : JS σ Int :=
  JS.bind (Context.Call host c "getProgramParameter" [.jsValue program, .int pname]) fun r => r.Int

/-- The method `Context.GetProgramParameterb`. -/
def Context.GetProgramParameterb {σ : Type} (host : Host σ) (c : Option Nat) (program : js.Value)
    (pname : Int) : JS σ Bool :=
  JS.bind (Context.Call host c "getProgramParameter" [.jsValue program, .int pname]) fun r => r.Bool

/-- The method `Context.GetProgramInfoLog`. -/
def Context.GetProgramInfoLog {σ : Type} (host : Host σ) (c : Option Nat) (program : js.Value)
    : JS σ String :=
  JS.bind (Context.Call host c "getProgramInfoLog" [.jsValue program])
    fun r => JS.pure (r.String host)

/-- The method `Context.GetRenderbufferParameter`. -/
def Context.GetRenderbufferParameter {σ : Type} (host : Host σ) (c : Option Nat)
    (target pname : Int) : JS σ js.Value :=
  Context.Call host c "getRenderbufferParameter" [.int target, .int pname]

/-- The method `Context.GetShaderParameter`. -/
def Context.GetShaderParameter {σ : Type} (host : Host σ) (c : Option Nat) (shader : js.Value)
    (pname : Int) : JS σ js.Value :=
  Context.Call host c "getShaderParameter" [.jsValue shader, .int pname]

/-- The method `Context.GetShaderParameterb`. -/
def Context.GetShaderParameterb {σ : Type} (host : Host σ) (c : Option Nat) (shader : js.Value)
    (pname : Int) : JS σ Bool :=
  JS.bind (Context.Call host c "getShaderParameter" [.jsValue shader, .int pname]) fun r => r.Bool

/-- The method `Context.GetShaderInfoLog`. -/
def Context.GetShaderInfoLog {σ : Type} (host : Host σ) (c : Option Nat) (shader : js.Value)
    : JS σ String :=
  JS.bind (Context.Call host c "getShaderInfoLog" [.jsValue shader])
    fun r => JS.pure (r.String host)

/-- The method `Context.GetShaderSource`. -/
def Context.GetShaderSource {σ : Type} (host : Host σ) (c : Option Nat) (shader : js.Value)
    : JS σ String :=
  JS.bind (Context.Call host c "getShaderSource" [.jsValue shader]) fun r => JS.pure (r.String host)

/-- The method `Context.GetTexParameter`. -/
def Context.GetTexParameter {σ : Type} (host : Host σ) (c : Option Nat) (target pname : Int)
    : JS σ js.Value :=
  Context.Call host c "getTexParameter" [.int target, .int pname]

/-- The method `Context.GetUniform`. -/
def Context.GetUniform {σ : Type} (host : Host σ) (c : Option Nat) (program location : js.Value)
    : JS σ js.Value :=
  Context.Call host c "getUniform" [.jsValue program, .jsValue location]

/-- The method `Context.GetUniformLocation`. -/
def Context.GetUniformLocation {σ : Type} (host : Host σ) (c : Option Nat) (program : js.Value)
    (name : String) : JS σ js.Value :=
  Context.Call host c "getUniformLocation" [.jsValue program, .string name]

/-- The method `Context.GetVertexAttrib`. -/
def Context.GetVertexAttrib {σ : Type} (host : Host σ) (c : Option Nat) (index pname : Int)
    : JS σ js.Value :=
  Context.Call host c "getVertexAttrib" [.int index, .int pname]

/-- The method `Context.GetVertexAttribOffset`. -/
def Context.GetVertexAttribOffset {σ : Type} (host : Host σ) (c : Option Nat) (index pname : Int)
    : JS σ Int :=
  JS.bind (Context.Call host c "getVertexAttribOffset" [.int index, .int pname]) fun r => r.Int

/-- The method `Context.IsBuffer`. -/
def Context.IsBuffer {σ : Type} (host : Host σ) (c : Option Nat) (buffer : js.Value)
    : JS σ Bool :=
  JS.bind (Context.Call host c "isBuffer" [.jsValue buffer]) fun r => r.Bool

/-- The method `Context.IsContextLost`. -/
def Context.IsContextLost {σ : Type} (host : Host σ) (c : Option Nat) : JS σ Bool :=
  JS.bind (Context.Call host c "isContextLost" []) fun r => r.Bool

/-- The method `Context.IsFramebuffer`. -/
def Context.IsFramebuffer {σ : Type} (host : Host σ) (c : Option Nat) (framebuffer : js.Value)
    : JS σ Bool :=
  JS.bind (Context.Call host c "isFramebuffer" [.jsValue framebuffer]) fun r => r.Bool

/-- The method `Context.IsProgram`. -/
def Context.IsProgram {σ : Type} (host : Host σ) (c : Option Nat) (program : js.Value)
    : JS σ Bool :=
  JS.bind (Context.Call host c "isProgram" [.jsValue program]) fun r => r.Bool

/-- The method `Context.IsRenderbuffer`. -/
def Context.IsRenderbuffer {σ : Type} (host : Host σ) (c : Option Nat) (renderbuffer : js.Value)
    : JS σ Bool :=
  JS.bind (Context.Call host c "isRenderbuffer" [.jsValue renderbuffer]) fun r => r.Bool

/-- The method `Context.IsShader`. -/
def Context.IsShader {σ : Type} (host : Host σ) (c : Option Nat) (shader : js.Value)
    : JS σ Bool :=
  JS.bind (Context.Call host c "isShader" [.jsValue shader]) fun r => r.Bool

/-- The method `Context.IsTexture`. -/
def Context.IsTexture {σ : Type} (host : Host σ) (c : Option Nat) (texture : js.Value)
    : JS σ Bool :=
  JS.bind (Context.Call host c "isTexture" [.jsValue texture]) fun r => r.Bool

/-- The method `Context.IsEnabled`. -/
def Context.IsEnabled {σ : Type} (host : Host σ) (c : Option Nat) (capability : Int)
    : JS σ Bool :=
  JS.bind (Context.Call host c "isEnabled" [.int capability]) fun r => r.Bool

/-- The method `Context.LineWidth`. -/
def Context.LineWidth {σ : Type} (host : Host σ) (c : Option Nat) (width : Rat) : JS σ Unit :=
  JS.bind (Context.Call host c "lineWidth" [.float64 width]) fun _ => JS.pure ()

/-- The method `Context.LinkProgram`. -/
def Context.LinkProgram {σ : Type} (host : Host σ) (c : Option Nat) (program : js.Value)
    : JS σ Unit :=
  JS.bind (Context.Call host c "linkProgram" [.jsValue program]) fun _ => JS.pure ()

/-- The method `Context.PixelStorei`. -/
def Context.PixelStorei {σ : Type} (host : Host σ) (c : Option Nat) (pname param : Int)
    : JS σ Unit :=
  JS.bind (Context.Call host c "pixelStorei" [.int pname, .int param]) fun _ => JS.pure ()

/-- The method `Context.PolygonOffset`. -/
def Context.PolygonOffset {σ : Type} (host : Host σ) (c : Option Nat) (factor units : Rat)
    : JS σ Unit :=
  JS.bind (Context.Call host c "polygonOffset" [.float64 factor, .float64 units])
    fun _ => JS.pure ()

/-- The method `Context.ReadPixels`. -/
def Context.ReadPixels {σ : Type} (host : Host σ) (c : Option Nat)
    (x y width height format typ : Int) (pixels : js.Value) : JS σ Unit :=
  JS.bind (Context.Call host c "readPixels" [.int x, .int y, .int width, .int height, .int format, .int typ,
      .jsValue pixels])
    fun _ => JS.pure ()

/-- The method `Context.RenderbufferStorage`. -/
def Context.RenderbufferStorage {σ : Type} (host : Host σ) (c : Option Nat)
    (target internalFormat width height : Int) : JS σ Unit :=
  JS.bind (Context.Call host c "renderbufferStorage" [.int target, .int internalFormat, .int width,
      .int height]) fun _ => JS.pure ()

/-- The method `Context.Scissor`. -/
def Context.Scissor {σ : Type} (host : Host σ) (c : Option Nat) (x y width height : Int)
    : JS σ Unit :=
  JS.bind (Context.Call host c "scissor" [.int x, .int y, .int width, .int height])
    fun _ => JS.pure ()

/-- The method `Context.ShaderSource`. -/
def Context.ShaderSource {σ : Type} (host : Host σ) (c : Option Nat) (shader : js.Value)
    (source : String) : JS σ Unit :=
  JS.bind (Context.Call host c "shaderSource" [.jsValue shader, .string source]) fun _ => JS.pure ()

/-- The method `Context.TexImage2D`. -/
def Context.TexImage2D {σ : Type} (host : Host σ) (c : Option Nat)
    (target level internalFormat format kind : Int) (image : js.Value) : JS σ Unit :=
  JS.bind (Context.Call host c "texImage2D" [.int target, .int level, .int internalFormat, .int format,
      .int kind, .jsValue image])
    fun _ => JS.pure ()

/-- The method `Context.TexParameteri`. -/
def Context.TexParameteri {σ : Type} (host : Host σ) (c : Option Nat) (target : Int) (pname : Int)
    (param : Int) : JS σ Unit :=
  JS.bind (Context.Call host c "texParameteri" [.int target, .int pname, .int param])
    fun _ => JS.pure ()

/-- The method `Context.TexSubImage2D`. -/
def Context.TexSubImage2D {σ : Type} (host : Host σ) (c : Option Nat)
    (target level xoffset yoffset format typ : Int) (image : js.Value) : JS σ Unit :=
  JS.bind (Context.Call host c "texSubImage2D" [.int target, .int level, .int xoffset, .int yoffset,
      .int format, .int typ, .jsValue image]) fun _ => JS.pure ()

/-- The method `Context.Uniform1f`. -/
def Context.Uniform1f {σ : Type} (host : Host σ) (c : Option Nat) (location : js.Value) (x : Rat)
    : JS σ Unit :=
  JS.bind (Context.Call host c "uniform1f" [.jsValue location, .float32 x]) fun _ => JS.pure ()

/-- The method `Context.Uniform1i`. -/
def Context.Uniform1i {σ : Type} (host : Host σ) (c : Option Nat) (location : js.Value) (x : Int)
    : JS σ Unit :=
  JS.bind (Context.Call host c "uniform1i" [.jsValue location, .int x]) fun _ => JS.pure ()

/-- The method `Context.Uniform2f`. -/
def Context.Uniform2f {σ : Type} (host : Host σ) (c : Option Nat) (location : js.Value)
    (x y : Rat) : JS σ Unit :=
  JS.bind (Context.Call host c "uniform2f" [.jsValue location, .float32 x, .float32 y])
    fun _ => JS.pure ()

/-- The method `Context.Uniform2i`. -/
def Context.Uniform2i {σ : Type} (host : Host σ) (c : Option Nat) (location : js.Value)
    (x y : Int) : JS σ Unit :=
  JS.bind (Context.Call host c "uniform2i" [.jsValue location, .int x, .int y]) fun _ => JS.pure ()

/-- The method `Context.Uniform3f`. -/
def Context.Uniform3f {σ : Type} (host : Host σ) (c : Option Nat) (location : js.Value)
    (x y z : Rat) : JS σ Unit :=
  JS.bind (Context.Call host c "uniform3f" [.jsValue location, .float32 x, .float32 y, .float32 z])
    fun _ => JS.pure ()

/-- The method `Context.Uniform3i`. -/
def Context.Uniform3i {σ : Type} (host : Host σ) (c : Option Nat) (location : js.Value)
    (x y z : Int) : JS σ Unit :=
  JS.bind (Context.Call host c "uniform3i" [.jsValue location, .int x, .int y, .int z])
    fun _ => JS.pure ()

/-- The method `Context.Uniform4f`. -/
def Context.Uniform4f {σ : Type} (host : Host σ) (c : Option Nat) (location : js.Value)
    (x y z w : Rat) : JS σ Unit :=
  JS.bind (Context.Call host c "uniform4f" [.jsValue location, .float32 x, .float32 y, .float32 z,
      .float32 w]) fun _ => JS.pure ()

/-- The method `Context.Uniform4i`. -/
def Context.Uniform4i {σ : Type} (host : Host σ) (c : Option Nat) (location : js.Value)
    (x y z w : Int) : JS σ Unit :=
  JS.bind (Context.Call host c "uniform4i" [.jsValue location, .int x, .int y, .int z, .int w])
    fun _ => JS.pure ()

/-- The method `Context.UniformMatrix2fv`. -/
def Context.UniformMatrix2fv {σ : Type} (host : Host σ) (c : Option Nat) (location : js.Value)
    (transpose : Bool) (value : List Rat) : JS σ Unit :=
  JS.bind (Context.Call host c "uniformMatrix2fv" [.jsValue location, .bool transpose, .float32Slice value])
    fun _ => JS.pure ()

/-- The method `Context.UniformMatrix3fv`. -/
def Context.UniformMatrix3fv {σ : Type} (host : Host σ) (c : Option Nat) (location : js.Value)
    (transpose : Bool) (value : List Rat) : JS σ Unit :=
  JS.bind (Context.Call host c "uniformMatrix3fv" [.jsValue location, .bool transpose, .float32Slice value])
    fun _ => JS.pure ()

/-- The method `Context.UniformMatrix4fv`. -/
def Context.UniformMatrix4fv {σ : Type} (host : Host σ) (c : Option Nat) (location : js.Value)
    (transpose : Bool) (value : List Rat) : JS σ Unit :=
  JS.bind (Context.Call host c "uniformMatrix4fv" [.jsValue location, .bool transpose, .float32Slice value])
    fun _ => JS.pure ()

/-- The method `Context.UseProgram`. -/
def Context.UseProgram {σ : Type} (host : Host σ) (c : Option Nat) (program : js.Value)
    : JS σ Unit :=
  JS.bind (Context.Call host c "useProgram" [.jsValue program]) fun _ => JS.pure ()

/-- The method `Context.ValidateProgram`. -/
def Context.ValidateProgram {σ : Type} (host : Host σ) (c : Option Nat) (program : js.Value)
    : JS σ Unit :=
  JS.bind (Context.Call host c "validateProgram" [.jsValue program]) fun _ => JS.pure ()

/-- The method `Context.VertexAttribPointer`. -/
def Context.VertexAttribPointer {σ : Type} (host : Host σ) (c : Option Nat) (index size typ : Int)
    (normal : Bool) (stride : Int) (offset : Int) : JS σ Unit :=
  JS.bind (Context.Call host c "vertexAttribPointer" [.int index, .int size, .int typ, .bool normal,
      .int stride, .int offset]) fun _ => JS.pure ()

/-- The method `Context.Viewport`. -/
def Context.Viewport {σ : Type} (host : Host σ) (c : Option Nat) (x y width height : Int)
    : JS σ Unit :=
  JS.bind (Context.Call host c "viewport" [.int x, .int y, .int width, .int height])
    fun _ => JS.pure ()

/-- What a method of `Context` returns. -/
inductive Ret where
  | unit
  | int (n : Int)
  | bool (b : Bool)
  | string (s : String)
  | value (v : js.Value)
  | values (vs : List js.Value)
  | strings (ss : List String)
  | attributes (a : ContextAttributes)
  deriving DecidableEq, Repr

/-- One invocation of a method of `Context` other than construction: the
method and its arguments. -/
inductive Invocation where
  | GetContextAttributes
  | ActiveTexture (texture : Int)
  | AttachShader (program : js.Value) (shader : js.Value)
  | BindAttribLocation (program : js.Value) (index : Int) (name : String)
  | BindBuffer (target : Int) (buffer : js.Value)
  | BindFramebuffer (target : Int) (framebuffer : js.Value)
  | BindRenderbuffer (target : Int) (renderbuffer : js.Value)
  | BindTexture (target : Int) (texture : js.Value)
  | BlendColor (r g b a : Rat)
  | BlendEquation (mode : Int)
  | BlendEquationSeparate (modeRGB modeAlpha : Int)
  | BlendFunc (sfactor dfactor : Int)
  | BlendFuncSeparate (srcRGB dstRGB srcAlpha dstAlpha : Int)
  | BufferData (target : Int) (data : GoValue) (usage : Int)
  | BufferSubData (target : Int) (offset : Int) (data : GoValue)
  | CheckFramebufferStatus (target : Int)
  | Clear (flags : js.Value)
  | ClearColor (r g b a : Rat)
  | ClearDepth (depth : Rat)
  | ClearStencil (s : Int)
  | ColorMask (r g b a : Bool)
  | CompileShader (shader : js.Value)
  | CopyTexImage2D (target level internal x y w h border : Int)
  | CopyTexSubImage2D (target level xoffset yoffset x y w h : Int)
  | CreateBuffer
  | CreateFramebuffer
  | CreateProgram
  | CreateRenderbuffer
  | CreateShader (typ : Int)
  | CreateTexture
  | CullFace (mode : Int)
  | DeleteBuffer (buffer : js.Value)
  | DeleteFramebuffer (framebuffer : js.Value)
  | DeleteProgram (program : js.Value)
  | DeleteRenderbuffer (renderbuffer : js.Value)
  | DeleteShader (shader : js.Value)
  | DeleteTexture (texture : js.Value)
  | DepthFunc (fn : Int)
  | DepthMask (flag : Bool)
  | DepthRange (zNear zFar : Rat)
  | DetachShader (program shader : js.Value)
  | Disable (cap : Int)
  | DisableVertexAttribArray (index : Int)
  | DrawArrays (mode first count : Int)
  | DrawElements (mode count typ offset : Int)
  | Enable (cap : Int)
  | EnableVertexAttribArray (index : Int)
  | Finish
  | Flush
  | FrameBufferRenderBuffer (target attachment renderbufferTarget : Int) (renderbuffer : js.Value)
  | FramebufferTexture2D (target attachment textarget : Int) (texture : js.Value) (level : Int)
  | FrontFace (mode : Int)
  | GenerateMipmap (target : Int)
  | GetActiveAttrib (program : js.Value) (index : Int)
  | GetActiveUniform (program : js.Value) (index : Int)
  | GetAttachedShaders (program : js.Value)
  | GetAttribLocation (program : js.Value) (name : String)
  | GetBufferParameter (target pname : Int)
  | GetParameter (pname : Int)
  | GetError
  | GetExtension (name : String)
  | GetFramebufferAttachmentParameter (target attachment pname : Int)
  | GetProgramParameteri (program : js.Value) (pname : Int)
  | GetProgramParameterb (program : js.Value) (pname : Int)
  | GetProgramInfoLog (program : js.Value)
  | GetRenderbufferParameter (target pname : Int)
  | GetShaderParameter (shader : js.Value) (pname : Int)
  | GetShaderParameterb (shader : js.Value) (pname : Int)
  | GetShaderInfoLog (shader : js.Value)
  | GetShaderSource (shader : js.Value)
  | GetSupportedExtensions
  | GetTexParameter (target pname : Int)
  | GetUniform (program location : js.Value)
  | GetUniformLocation (program : js.Value) (name : String)
  | GetVertexAttrib (index pname : Int)
  | GetVertexAttribOffset (index pname : Int)
  | IsBuffer (buffer : js.Value)
  | IsContextLost
  | IsFramebuffer (framebuffer : js.Value)
  | IsProgram (program : js.Value)
  | IsRenderbuffer (renderbuffer : js.Value)
  | IsShader (shader : js.Value)
  | IsTexture (texture : js.Value)
  | IsEnabled (capability : Int)
  | LineWidth (width : Rat)
  | LinkProgram (program : js.Value)
  | PixelStorei (pname param : Int)
  | PolygonOffset (factor units : Rat)
  | ReadPixels (x y width height format typ : Int) (pixels : js.Value)
  | RenderbufferStorage (target internalFormat width height : Int)
  | Scissor (x y width height : Int)
  | ShaderSource (shader : js.Value) (source : String)
  | TexImage2D (target level internalFormat format kind : Int) (image : js.Value)
  | TexParameteri (target : Int) (pname : Int) (param : Int)
  | TexSubImage2D (target level xoffset yoffset format typ : Int) (image : js.Value)
  | Uniform1f (location : js.Value) (x : Rat)
  | Uniform1i (location : js.Value) (x : Int)
  | Uniform2f (location : js.Value) (x y : Rat)
  | Uniform2i (location : js.Value) (x y : Int)
  | Uniform3f (location : js.Value) (x y z : Rat)
  | Uniform3i (location : js.Value) (x y z : Int)
  | Uniform4f (location : js.Value) (x y z w : Rat)
  | Uniform4i (location : js.Value) (x y z w : Int)
  | UniformMatrix2fv (location : js.Value) (transpose : Bool) (value : List Rat)
  | UniformMatrix3fv (location : js.Value) (transpose : Bool) (value : List Rat)
  | UniformMatrix4fv (location : js.Value) (transpose : Bool) (value : List Rat)
  | UseProgram (program : js.Value)
  | ValidateProgram (program : js.Value)
  | VertexAttribPointer (index size typ : Int) (normal : Bool) (stride : Int) (offset : Int)
  | Viewport (x y width height : Int)

/-- The Go name of the invoked method. -/
def Invocation.name : Invocation → String
  | .GetContextAttributes => "GetContextAttributes"
  | .ActiveTexture _ => "ActiveTexture"
  | .AttachShader _ _ => "AttachShader"
  | .BindAttribLocation _ _ _ => "BindAttribLocation"
  | .BindBuffer _ _ => "BindBuffer"
  | .BindFramebuffer _ _ => "BindFramebuffer"
  | .BindRenderbuffer _ _ => "BindRenderbuffer"
  | .BindTexture _ _ => "BindTexture"
  | .BlendColor _ _ _ _ => "BlendColor"
  | .BlendEquation _ => "BlendEquation"
  | .BlendEquationSeparate _ _ => "BlendEquationSeparate"
  | .BlendFunc _ _ => "BlendFunc"
  | .BlendFuncSeparate _ _ _ _ => "BlendFuncSeparate"
  | .BufferData _ _ _ => "BufferData"
  | .BufferSubData _ _ _ => "BufferSubData"
  | .CheckFramebufferStatus _ => "CheckFramebufferStatus"
  | .Clear _ => "Clear"
  | .ClearColor _ _ _ _ => "ClearColor"
  | .ClearDepth _ => "ClearDepth"
  | .ClearStencil _ => "ClearStencil"
  | .ColorMask _ _ _ _ => "ColorMask"
  | .CompileShader _ => "CompileShader"
  | .CopyTexImage2D _ _ _ _ _ _ _ _ => "CopyTexImage2D"
  | .CopyTexSubImage2D _ _ _ _ _ _ _ _ => "CopyTexSubImage2D"
  | .CreateBuffer => "CreateBuffer"
  | .CreateFramebuffer => "CreateFramebuffer"
  | .CreateProgram => "CreateProgram"
  | .CreateRenderbuffer => "CreateRenderbuffer"
  | .CreateShader _ => "CreateShader"
  | .CreateTexture => "CreateTexture"
  | .CullFace _ => "CullFace"
  | .DeleteBuffer _ => "DeleteBuffer"
  | .DeleteFramebuffer _ => "DeleteFramebuffer"
  | .DeleteProgram _ => "DeleteProgram"
  | .DeleteRenderbuffer _ => "DeleteRenderbuffer"
  | .DeleteShader _ => "DeleteShader"
  | .DeleteTexture _ => "DeleteTexture"
  | .DepthFunc _ => "DepthFunc"
  | .DepthMask _ => "DepthMask"
  | .DepthRange _ _ => "DepthRange"
  | .DetachShader _ _ => "DetachShader"
  | .Disable _ => "Disable"
  | .DisableVertexAttribArray _ => "DisableVertexAttribArray"
  | .DrawArrays _ _ _ => "DrawArrays"
  | .DrawElements _ _ _ _ => "DrawElements"
  | .Enable _ => "Enable"
  | .EnableVertexAttribArray _ => "EnableVertexAttribArray"
  | .Finish => "Finish"
  | .Flush => "Flush"
  | .FrameBufferRenderBuffer _ _ _ _ => "FrameBufferRenderBuffer"
  | .FramebufferTexture2D _ _ _ _ _ => "FramebufferTexture2D"
  | .FrontFace _ => "FrontFace"
  | .GenerateMipmap _ => "GenerateMipmap"
  | .GetActiveAttrib _ _ => "GetActiveAttrib"
  | .GetActiveUniform _ _ => "GetActiveUniform"
  | .GetAttachedShaders _ => "GetAttachedShaders"
  | .GetAttribLocation _ _ => "GetAttribLocation"
  | .GetBufferParameter _ _ => "GetBufferParameter"
  | .GetParameter _ => "GetParameter"
  | .GetError => "GetError"
  | .GetExtension _ => "GetExtension"
  | .GetFramebufferAttachmentParameter _ _ _ => "GetFramebufferAttachmentParameter"
  | .GetProgramParameteri _ _ => "GetProgramParameteri"
  | .GetProgramParameterb _ _ => "GetProgramParameterb"
  | .GetProgramInfoLog _ => "GetProgramInfoLog"
  | .GetRenderbufferParameter _ _ => "GetRenderbufferParameter"
  | .GetShaderParameter _ _ => "GetShaderParameter"
  | .GetShaderParameterb _ _ => "GetShaderParameterb"
  | .GetShaderInfoLog _ => "GetShaderInfoLog"
  | .GetShaderSource _ => "GetShaderSource"
  | .GetSupportedExtensions => "GetSupportedExtensions"
  | .GetTexParameter _ _ => "GetTexParameter"
  | .GetUniform _ _ => "GetUniform"
  | .GetUniformLocation _ _ => "GetUniformLocation"
  | .GetVertexAttrib _ _ => "GetVertexAttrib"
  | .GetVertexAttribOffset _ _ => "GetVertexAttribOffset"
  | .IsBuffer _ => "IsBuffer"
  | .IsContextLost => "IsContextLost"
  | .IsFramebuffer _ => "IsFramebuffer"
  | .IsProgram _ => "IsProgram"
  | .IsRenderbuffer _ => "IsRenderbuffer"
  | .IsShader _ => "IsShader"
  | .IsTexture _ => "IsTexture"
  | .IsEnabled _ => "IsEnabled"
  | .LineWidth _ => "LineWidth"
  | .LinkProgram _ => "LinkProgram"
  | .PixelStorei _ _ => "PixelStorei"
  | .PolygonOffset _ _ => "PolygonOffset"
  | .ReadPixels _ _ _ _ _ _ _ => "ReadPixels"
  | .RenderbufferStorage _ _ _ _ => "RenderbufferStorage"
  | .Scissor _ _ _ _ => "Scissor"
  | .ShaderSource _ _ => "ShaderSource"
  | .TexImage2D _ _ _ _ _ _ => "TexImage2D"
  | .TexParameteri _ _ _ => "TexParameteri"
  | .TexSubImage2D _ _ _ _ _ _ _ => "TexSubImage2D"
  | .Uniform1f _ _ => "Uniform1f"
  | .Uniform1i _ _ => "Uniform1i"
  | .Uniform2f _ _ _ => "Uniform2f"
  | .Uniform2i _ _ _ => "Uniform2i"
  | .Uniform3f _ _ _ _ => "Uniform3f"
  | .Uniform3i _ _ _ _ => "Uniform3i"
  | .Uniform4f _ _ _ _ _ => "Uniform4f"
  | .Uniform4i _ _ _ _ _ => "Uniform4i"
  | .UniformMatrix2fv _ _ _ => "UniformMatrix2fv"
  | .UniformMatrix3fv _ _ _ => "UniformMatrix3fv"
  | .UniformMatrix4fv _ _ _ => "UniformMatrix4fv"
  | .UseProgram _ => "UseProgram"
  | .ValidateProgram _ => "ValidateProgram"
  | .VertexAttribPointer _ _ _ _ _ _ => "VertexAttribPointer"
  | .Viewport _ _ _ _ => "Viewport"

/-- The arguments of the invocation as Go values, in declaration order. -/
def Invocation.args : Invocation → List GoValue
  | .GetContextAttributes => []
  | .ActiveTexture texture => [.int texture]
  | .AttachShader program shader => [.jsValue program, .jsValue shader]
  | .BindAttribLocation program index name => [.jsValue program, .int index, .string name]
  | .BindBuffer target buffer => [.int target, .jsValue buffer]
  | .BindFramebuffer target framebuffer => [.int target, .jsValue framebuffer]
  | .BindRenderbuffer target renderbuffer => [.int target, .jsValue renderbuffer]
  | .BindTexture target texture => [.int target, .jsValue texture]
  | .BlendColor r g b a => [.float64 r, .float64 g, .float64 b, .float64 a]
  | .BlendEquation mode => [.int mode]
  | .BlendEquationSeparate modeRGB modeAlpha => [.int modeRGB, .int modeAlpha]
  | .BlendFunc sfactor dfactor => [.int sfactor, .int dfactor]
  | .BlendFuncSeparate srcRGB dstRGB srcAlpha dstAlpha => [.int srcRGB, .int dstRGB,
      .int srcAlpha, .int dstAlpha]
  | .BufferData target data usage => [.int target, data, .int usage]
  | .BufferSubData target offset data => [.int target, .int offset, data]
  | .CheckFramebufferStatus target => [.int target]
  | .Clear flags => [.jsValue flags]
  | .ClearColor r g b a => [.float32 r, .float32 g, .float32 b, .float32 a]
  | .ClearDepth depth => [.float64 depth]
  | .ClearStencil s => [.int s]
  | .ColorMask r g b a => [.bool r, .bool g, .bool b, .bool a]
  | .CompileShader shader => [.jsValue shader]
  | .CopyTexImage2D target level internal x y w h border => [.int target, .int level,
      .int internal, .int x, .int y, .int w, .int h, .int border]
  | .CopyTexSubImage2D target level xoffset yoffset x y w h => [.int target, .int level,
      .int xoffset, .int yoffset, .int x, .int y, .int w, .int h]
  | .CreateBuffer => []
  | .CreateFramebuffer => []
  | .CreateProgram => []
  | .CreateRenderbuffer => []
  | .CreateShader typ => [.int typ]
  | .CreateTexture => []
  | .CullFace mode => [.int mode]
  | .DeleteBuffer buffer => [.jsValue buffer]
  | .DeleteFramebuffer framebuffer => [.jsValue framebuffer]
  | .DeleteProgram program => [.jsValue program]
  | .DeleteRenderbuffer renderbuffer => [.jsValue renderbuffer]
  | .DeleteShader shader => [.jsValue shader]
  | .DeleteTexture texture => [.jsValue texture]
  | .DepthFunc fn => [.int fn]
  | .DepthMask flag => [.bool flag]
  | .DepthRange zNear zFar => [.float64 zNear, .float64 zFar]
  | .DetachShader program shader => [.jsValue program, .jsValue shader]
  | .Disable cap => [.int cap]
  | .DisableVertexAttribArray index => [.int index]
  | .DrawArrays mode first count => [.int mode, .int first, .int count]
  | .DrawElements mode count typ offset => [.int mode, .int count, .int typ, .int offset]
  | .Enable cap => [.int cap]
  | .EnableVertexAttribArray index => [.int index]
  | .Finish => []
  | .Flush => []
  | .FrameBufferRenderBuffer target attachment renderbufferTarget renderbuffer => [.int target,
      .int attachment, .int renderbufferTarget, .jsValue renderbuffer]
  | .FramebufferTexture2D target attachment textarget texture level => [.int target,
      .int attachment, .int textarget, .jsValue texture, .int level]
  | .FrontFace mode => [.int mode]
  | .GenerateMipmap target => [.int target]
  | .GetActiveAttrib program index => [.jsValue program, .int index]
  | .GetActiveUniform program index => [.jsValue program, .int index]
  | .GetAttachedShaders program => [.jsValue program]
  | .GetAttribLocation program name => [.jsValue program, .string name]
  | .GetBufferParameter target pname => [.int target, .int pname]
  | .GetParameter pname => [.int pname]
  | .GetError => []
  | .GetExtension name => [.string name]
  | .GetFramebufferAttachmentParameter target attachment pname => [.int target, .int attachment,
      .int pname]
  | .GetProgramParameteri program pname => [.jsValue program, .int pname]
  | .GetProgramParameterb program pname => [.jsValue program, .int pname]
  | .GetProgramInfoLog program => [.jsValue program]
  | .GetRenderbufferParameter target pname => [.int target, .int pname]
  | .GetShaderParameter shader pname => [.jsValue shader, .int pname]
  | .GetShaderParameterb shader pname => [.jsValue shader, .int pname]
  | .GetShaderInfoLog shader => [.jsValue shader]
  | .GetShaderSource shader => [.jsValue shader]
  | .GetSupportedExtensions => []
  | .GetTexParameter target pname => [.int target, .int pname]
  | .GetUniform program location => [.jsValue program, .jsValue location]
  | .GetUniformLocation program name => [.jsValue program, .string name]
  | .GetVertexAttrib index pname => [.int index, .int pname]
  | .GetVertexAttribOffset index pname => [.int index, .int pname]
  | .IsBuffer buffer => [.jsValue buffer]
  | .IsContextLost => []
  | .IsFramebuffer framebuffer => [.jsValue framebuffer]
  | .IsProgram program => [.jsValue program]
  | .IsRenderbuffer renderbuffer => [.jsValue renderbuffer]
  | .IsShader shader => [.jsValue shader]
  | .IsTexture texture => [.jsValue texture]
  | .IsEnabled capability => [.int capability]
  | .LineWidth width => [.float64 width]
  | .LinkProgram program => [.jsValue program]
  | .PixelStorei pname param => [.int pname, .int param]
  | .PolygonOffset factor units => [.float64 factor, .float64 units]
  | .ReadPixels x y width height format typ pixels => [.int x, .int y, .int width, .int height,
      .int format, .int typ, .jsValue pixels]
  | .RenderbufferStorage target internalFormat width height => [.int target, .int internalFormat,
      .int width, .int height]
  | .Scissor x y width height => [.int x, .int y, .int width, .int height]
  | .ShaderSource shader source => [.jsValue shader, .string source]
  | .TexImage2D target level internalFormat format kind image => [.int target, .int level,
      .int internalFormat, .int format, .int kind, .jsValue image]
  | .TexParameteri target pname param => [.int target, .int pname, .int param]
  | .TexSubImage2D target level xoffset yoffset format typ image => [.int target, .int level,
      .int xoffset, .int yoffset, .int format, .int typ, .jsValue image]
  | .Uniform1f location x => [.jsValue location, .float32 x]
  | .Uniform1i location x => [.jsValue location, .int x]
  | .Uniform2f location x y => [.jsValue location, .float32 x, .float32 y]
  | .Uniform2i location x y => [.jsValue location, .int x, .int y]
  | .Uniform3f location x y z => [.jsValue location, .float32 x, .float32 y, .float32 z]
  | .Uniform3i location x y z => [.jsValue location, .int x, .int y, .int z]
  | .Uniform4f location x y z w => [.jsValue location, .float32 x, .float32 y, .float32 z,
      .float32 w]
  | .Uniform4i location x y z w => [.jsValue location, .int x, .int y, .int z, .int w]
  | .UniformMatrix2fv location transpose value => [.jsValue location, .bool transpose,
      .float32Slice value]
  | .UniformMatrix3fv location transpose value => [.jsValue location, .bool transpose,
      .float32Slice value]
  | .UniformMatrix4fv location transpose value => [.jsValue location, .bool transpose,
      .float32Slice value]
  | .UseProgram program => [.jsValue program]
  | .ValidateProgram program => [.jsValue program]
  | .VertexAttribPointer index size typ normal stride offset => [.int index, .int size, .int typ,
      .bool normal, .int stride, .int offset]
  | .Viewport x y width height => [.int x, .int y, .int width, .int height]

/-- Run an invocation on the context behind the pointer `c`. -/
def Context.invoke {σ : Type} (host : Host σ) (c : Option Nat) : Invocation → JS σ Ret
  | .GetContextAttributes =>
    JS.bind (Context.GetContextAttributes host c)
      fun r => JS.pure (Ret.attributes r)
  | .ActiveTexture texture =>
    JS.bind (Context.ActiveTexture host c texture)
      fun _ => JS.pure Ret.unit
  | .AttachShader program shader =>
    JS.bind (Context.AttachShader host c program shader)
      fun _ => JS.pure Ret.unit
  | .BindAttribLocation program index name =>
    JS.bind (Context.BindAttribLocation host c program index name)
      fun _ => JS.pure Ret.unit
  | .BindBuffer target buffer =>
    JS.bind (Context.BindBuffer host c target buffer)
      fun _ => JS.pure Ret.unit
  | .BindFramebuffer target framebuffer =>
    JS.bind (Context.BindFramebuffer host c target framebuffer)
      fun _ => JS.pure Ret.unit
  | .BindRenderbuffer target renderbuffer =>
    JS.bind (Context.BindRenderbuffer host c target renderbuffer)
      fun _ => JS.pure Ret.unit
  | .BindTexture target texture =>
    JS.bind (Context.BindTexture host c target texture)
      fun _ => JS.pure Ret.unit
  | .BlendColor r g b a => JS.bind (Context.BlendColor host c r g b a) fun _ => JS.pure Ret.unit
  | .BlendEquation mode => JS.bind (Context.BlendEquation host c mode) fun _ => JS.pure Ret.unit
  | .BlendEquationSeparate modeRGB modeAlpha =>
    JS.bind (Context.BlendEquationSeparate host c modeRGB modeAlpha)
      fun _ => JS.pure Ret.unit
  | .BlendFunc sfactor dfactor =>
    JS.bind (Context.BlendFunc host c sfactor dfactor)
      fun _ => JS.pure Ret.unit
  | .BlendFuncSeparate srcRGB dstRGB srcAlpha dstAlpha =>
    JS.bind (Context.BlendFuncSeparate host c srcRGB dstRGB srcAlpha dstAlpha)
      fun _ => JS.pure Ret.unit
  | .BufferData target data usage =>
    JS.bind (Context.BufferData host c target data usage)
      fun _ => JS.pure Ret.unit
  | .BufferSubData target offset data =>
    JS.bind (Context.BufferSubData host c target offset data)
      fun _ => JS.pure Ret.unit
  | .CheckFramebufferStatus target =>
    JS.bind (Context.CheckFramebufferStatus host c target)
      fun r => JS.pure (Ret.int r)
  | .Clear flags => JS.bind (Context.Clear host c flags) fun _ => JS.pure Ret.unit
  | .ClearColor r g b a => JS.bind (Context.ClearColor host c r g b a) fun _ => JS.pure Ret.unit
  | .ClearDepth depth => JS.bind (Context.ClearDepth host c depth) fun _ => JS.pure Ret.unit
  | .ClearStencil s => JS.bind (Context.ClearStencil host c s) fun _ => JS.pure Ret.unit
  | .ColorMask r g b a => JS.bind (Context.ColorMask host c r g b a) fun _ => JS.pure Ret.unit
  | .CompileShader shader => JS.bind (Context.CompileShader host c shader) fun _ => JS.pure Ret.unit
  | .CopyTexImage2D target level internal x y w h border =>
    JS.bind (Context.CopyTexImage2D host c target level internal x y w h border)
      fun _ => JS.pure Ret.unit
  | .CopyTexSubImage2D target level xoffset yoffset x y w h =>
    JS.bind (Context.CopyTexSubImage2D host c target level xoffset yoffset x y w h)
      fun _ => JS.pure Ret.unit
  | .CreateBuffer => JS.bind (Context.CreateBuffer host c) fun r => JS.pure (Ret.value r)
  | .CreateFramebuffer => JS.bind (Context.CreateFramebuffer host c) fun r => JS.pure (Ret.value r)
  | .CreateProgram => JS.bind (Context.CreateProgram host c) fun r => JS.pure (Ret.value r)
  | .CreateRenderbuffer =>
    JS.bind (Context.CreateRenderbuffer host c)
      fun r => JS.pure (Ret.value r)
  | .CreateShader typ => JS.bind (Context.CreateShader host c typ) fun r => JS.pure (Ret.value r)
  | .CreateTexture => JS.bind (Context.CreateTexture host c) fun r => JS.pure (Ret.value r)
  | .CullFace mode => JS.bind (Context.CullFace host c mode) fun _ => JS.pure Ret.unit
  | .DeleteBuffer buffer => JS.bind (Context.DeleteBuffer host c buffer) fun _ => JS.pure Ret.unit
  | .DeleteFramebuffer framebuffer =>
    JS.bind (Context.DeleteFramebuffer host c framebuffer)
      fun _ => JS.pure Ret.unit
  | .DeleteProgram program =>
    JS.bind (Context.DeleteProgram host c program)
      fun _ => JS.pure Ret.unit
  | .DeleteRenderbuffer renderbuffer =>
    JS.bind (Context.DeleteRenderbuffer host c renderbuffer)
      fun _ => JS.pure Ret.unit
  | .DeleteShader shader => JS.bind (Context.DeleteShader host c shader) fun _ => JS.pure Ret.unit
  | .DeleteTexture texture =>
    JS.bind (Context.DeleteTexture host c texture)
      fun _ => JS.pure Ret.unit
  | .DepthFunc fn => JS.bind (Context.DepthFunc host c fn) fun _ => JS.pure Ret.unit
  | .DepthMask flag => JS.bind (Context.DepthMask host c flag) fun _ => JS.pure Ret.unit
  | .DepthRange zNear zFar =>
    JS.bind (Context.DepthRange host c zNear zFar)
      fun _ => JS.pure Ret.unit
  | .DetachShader program shader =>
    JS.bind (Context.DetachShader host c program shader)
      fun _ => JS.pure Ret.unit
  | .Disable cap => JS.bind (Context.Disable host c cap) fun _ => JS.pure Ret.unit
  | .DisableVertexAttribArray index =>
    JS.bind (Context.DisableVertexAttribArray host c index)
      fun _ => JS.pure Ret.unit
  | .DrawArrays mode first count =>
    JS.bind (Context.DrawArrays host c mode first count)
      fun _ => JS.pure Ret.unit
  | .DrawElements mode count typ offset =>
    JS.bind (Context.DrawElements host c mode count typ offset)
      fun _ => JS.pure Ret.unit
  | .Enable cap => JS.bind (Context.Enable host c cap) fun _ => JS.pure Ret.unit
  | .EnableVertexAttribArray index =>
    JS.bind (Context.EnableVertexAttribArray host c index)
      fun _ => JS.pure Ret.unit
  | .Finish => JS.bind (Context.Finish host c) fun _ => JS.pure Ret.unit
  | .Flush => JS.bind (Context.Flush host c) fun _ => JS.pure Ret.unit
  | .FrameBufferRenderBuffer target attachment renderbufferTarget renderbuffer =>
    JS.bind
      (Context.FrameBufferRenderBuffer host c target attachment renderbufferTarget renderbuffer)
      fun _ => JS.pure Ret.unit
  | .FramebufferTexture2D target attachment textarget texture level =>
    JS.bind (Context.FramebufferTexture2D host c target attachment textarget texture level)
      fun _ => JS.pure Ret.unit
  | .FrontFace mode => JS.bind (Context.FrontFace host c mode) fun _ => JS.pure Ret.unit
  | .GenerateMipmap target =>
    JS.bind (Context.GenerateMipmap host c target)
      fun _ => JS.pure Ret.unit
  | .GetActiveAttrib program index =>
    JS.bind (Context.GetActiveAttrib host c program index)
      fun r => JS.pure (Ret.value r)
  | .GetActiveUniform program index =>
    JS.bind (Context.GetActiveUniform host c program index)
      fun r => JS.pure (Ret.value r)
  | .GetAttachedShaders program =>
    JS.bind (Context.GetAttachedShaders host c program)
      fun r => JS.pure (Ret.values r)
  | .GetAttribLocation program name =>
    JS.bind (Context.GetAttribLocation host c program name)
      fun r => JS.pure (Ret.int r)
  | .GetBufferParameter target pname =>
    JS.bind (Context.GetBufferParameter host c target pname)
      fun r => JS.pure (Ret.value r)
  | .GetParameter pname =>
    JS.bind (Context.GetParameter host c pname)
      fun r => JS.pure (Ret.value r)
  | .GetError => JS.bind (Context.GetError host c) fun r => JS.pure (Ret.int r)
  | .GetExtension name => JS.bind (Context.GetExtension host c name) fun r => JS.pure (Ret.value r)
  | .GetFramebufferAttachmentParameter target attachment pname =>
    JS.bind (Context.GetFramebufferAttachmentParameter host c target attachment pname)
      fun r => JS.pure (Ret.value r)
  | .GetProgramParameteri program pname =>
    JS.bind (Context.GetProgramParameteri host c program pname)
      fun r => JS.pure (Ret.int r)
  | .GetProgramParameterb program pname =>
    JS.bind (Context.GetProgramParameterb host c program pname)
      fun r => JS.pure (Ret.bool r)
  | .GetProgramInfoLog program =>
    JS.bind (Context.GetProgramInfoLog host c program)
      fun r => JS.pure (Ret.string r)
  | .GetRenderbufferParameter target pname =>
    JS.bind (Context.GetRenderbufferParameter host c target pname)
      fun r => JS.pure (Ret.value r)
  | .GetShaderParameter shader pname =>
    JS.bind (Context.GetShaderParameter host c shader pname)
      fun r => JS.pure (Ret.value r)
  | .GetShaderParameterb shader pname =>
    JS.bind (Context.GetShaderParameterb host c shader pname)
      fun r => JS.pure (Ret.bool r)
  | .GetShaderInfoLog shader =>
    JS.bind (Context.GetShaderInfoLog host c shader)
      fun r => JS.pure (Ret.string r)
  | .GetShaderSource shader =>
    JS.bind (Context.GetShaderSource host c shader)
      fun r => JS.pure (Ret.string r)
  | .GetSupportedExtensions =>
    JS.bind (Context.GetSupportedExtensions host c)
      fun r => JS.pure (Ret.strings r)
  | .GetTexParameter target pname =>
    JS.bind (Context.GetTexParameter host c target pname)
      fun r => JS.pure (Ret.value r)
  | .GetUniform program location =>
    JS.bind (Context.GetUniform host c program location)
      fun r => JS.pure (Ret.value r)
  | .GetUniformLocation program name =>
    JS.bind (Context.GetUniformLocation host c program name)
      fun r => JS.pure (Ret.value r)
  | .GetVertexAttrib index pname =>
    JS.bind (Context.GetVertexAttrib host c index pname)
      fun r => JS.pure (Ret.value r)
  | .GetVertexAttribOffset index pname =>
    JS.bind (Context.GetVertexAttribOffset host c index pname)
      fun r => JS.pure (Ret.int r)
  | .IsBuffer buffer => JS.bind (Context.IsBuffer host c buffer) fun r => JS.pure (Ret.bool r)
  | .IsContextLost => JS.bind (Context.IsContextLost host c) fun r => JS.pure (Ret.bool r)
  | .IsFramebuffer framebuffer =>
    JS.bind (Context.IsFramebuffer host c framebuffer)
      fun r => JS.pure (Ret.bool r)
  | .IsProgram program => JS.bind (Context.IsProgram host c program) fun r => JS.pure (Ret.bool r)
  | .IsRenderbuffer renderbuffer =>
    JS.bind (Context.IsRenderbuffer host c renderbuffer)
      fun r => JS.pure (Ret.bool r)
  | .IsShader shader => JS.bind (Context.IsShader host c shader) fun r => JS.pure (Ret.bool r)
  | .IsTexture texture => JS.bind (Context.IsTexture host c texture) fun r => JS.pure (Ret.bool r)
  | .IsEnabled capability =>
    JS.bind (Context.IsEnabled host c capability)
      fun r => JS.pure (Ret.bool r)
  | .LineWidth width => JS.bind (Context.LineWidth host c width) fun _ => JS.pure Ret.unit
  | .LinkProgram program => JS.bind (Context.LinkProgram host c program) fun _ => JS.pure Ret.unit
  | .PixelStorei pname param =>
    JS.bind (Context.PixelStorei host c pname param)
      fun _ => JS.pure Ret.unit
  | .PolygonOffset factor units =>
    JS.bind (Context.PolygonOffset host c factor units)
      fun _ => JS.pure Ret.unit
  | .ReadPixels x y width height format typ pixels =>
    JS.bind (Context.ReadPixels host c x y width height format typ pixels)
      fun _ => JS.pure Ret.unit
  | .RenderbufferStorage target internalFormat width height =>
    JS.bind (Context.RenderbufferStorage host c target internalFormat width height)
      fun _ => JS.pure Ret.unit
  | .Scissor x y width height =>
    JS.bind (Context.Scissor host c x y width height)
      fun _ => JS.pure Ret.unit
  | .ShaderSource shader source =>
    JS.bind (Context.ShaderSource host c shader source)
      fun _ => JS.pure Ret.unit
  | .TexImage2D target level internalFormat format kind image =>
    JS.bind (Context.TexImage2D host c target level internalFormat format kind image)
      fun _ => JS.pure Ret.unit
  | .TexParameteri target pname param =>
    JS.bind (Context.TexParameteri host c target pname param)
      fun _ => JS.pure Ret.unit
  | .TexSubImage2D target level xoffset yoffset format typ image =>
    JS.bind (Context.TexSubImage2D host c target level xoffset yoffset format typ image)
      fun _ => JS.pure Ret.unit
  | .Uniform1f location x => JS.bind (Context.Uniform1f host c location x) fun _ => JS.pure Ret.unit
  | .Uniform1i location x => JS.bind (Context.Uniform1i host c location x) fun _ => JS.pure Ret.unit
  | .Uniform2f location x y =>
    JS.bind (Context.Uniform2f host c location x y)
      fun _ => JS.pure Ret.unit
  | .Uniform2i location x y =>
    JS.bind (Context.Uniform2i host c location x y)
      fun _ => JS.pure Ret.unit
  | .Uniform3f location x y z =>
    JS.bind (Context.Uniform3f host c location x y z)
      fun _ => JS.pure Ret.unit
  | .Uniform3i location x y z =>
    JS.bind (Context.Uniform3i host c location x y z)
      fun _ => JS.pure Ret.unit
  | .Uniform4f location x y z w =>
    JS.bind (Context.Uniform4f host c location x y z w)
      fun _ => JS.pure Ret.unit
  | .Uniform4i location x y z w =>
    JS.bind (Context.Uniform4i host c location x y z w)
      fun _ => JS.pure Ret.unit
  | .UniformMatrix2fv location transpose value =>
    JS.bind (Context.UniformMatrix2fv host c location transpose value)
      fun _ => JS.pure Ret.unit
  | .UniformMatrix3fv location transpose value =>
    JS.bind (Context.UniformMatrix3fv host c location transpose value)
      fun _ => JS.pure Ret.unit
  | .UniformMatrix4fv location transpose value =>
    JS.bind (Context.UniformMatrix4fv host c location transpose value)
      fun _ => JS.pure Ret.unit
  | .UseProgram program => JS.bind (Context.UseProgram host c program) fun _ => JS.pure Ret.unit
  | .ValidateProgram program =>
    JS.bind (Context.ValidateProgram host c program)
      fun _ => JS.pure Ret.unit
  | .VertexAttribPointer index size typ normal stride offset =>
    JS.bind (Context.VertexAttribPointer host c index size typ normal stride offset)
      fun _ => JS.pure Ret.unit
  | .Viewport x y width height =>
    JS.bind (Context.Viewport host c x y width height)
      fun _ => JS.pure Ret.unit

/-- The name of the JavaScript method that the Go method passes to `c.Call`. -/
def Invocation.operation : Invocation → String
  | .GetContextAttributes => "getContextAttributes"
  | .ActiveTexture _ => "activeTexture"
  | .AttachShader _ _ => "attachShader"
  | .BindAttribLocation _ _ _ => "bindAttribLocation"
  | .BindBuffer _ _ => "bindBuffer"
  | .BindFramebuffer _ _ => "bindFramebuffer"
  | .BindRenderbuffer _ _ => "bindRenderbuffer"
  | .BindTexture _ _ => "bindTexture"
  | .BlendColor _ _ _ _ => "blendColor"
  | .BlendEquation _ => "blendEquation"
  | .BlendEquationSeparate _ _ => "blendEquationSeparate"
  | .BlendFunc _ _ => "blendFunc"
  | .BlendFuncSeparate _ _ _ _ => "blendFuncSeparate"
  | .BufferData _ _ _ => "bufferData"
  | .BufferSubData _ _ _ => "bufferSubData"
  | .CheckFramebufferStatus _ => "checkFramebufferStatus"
  | .Clear _ => "clear"
  | .ClearColor _ _ _ _ => "clearColor"
  | .ClearDepth _ => "clearDepth"
  | .ClearStencil _ => "clearStencil"
  | .ColorMask _ _ _ _ => "colorMask"
  | .CompileShader _ => "compileShader"
  | .CopyTexImage2D _ _ _ _ _ _ _ _ => "copyTexImage2D"
  | .CopyTexSubImage2D _ _ _ _ _ _ _ _ => "copyTexSubImage2D"
  | .CreateBuffer => "createBuffer"
  | .CreateFramebuffer => "createFramebuffer"
  | .CreateProgram => "createProgram"
  | .CreateRenderbuffer => "createRenderbuffer"
  | .CreateShader _ => "createShader"
  | .CreateTexture => "createTexture"
  | .CullFace _ => "cullFace"
  | .DeleteBuffer _ => "deleteBuffer"
  | .DeleteFramebuffer _ => "deleteFramebuffer"
  | .DeleteProgram _ => "deleteProgram"
  | .DeleteRenderbuffer _ => "deleteRenderbuffer"
  | .DeleteShader _ => "deleteShader"
  | .DeleteTexture _ => "deleteTexture"
  | .DepthFunc _ => "depthFunc"
  | .DepthMask _ => "depthMask"
  | .DepthRange _ _ => "depthRange"
  | .DetachShader _ _ => "detachShader"
  | .Disable _ => "disable"
  | .DisableVertexAttribArray _ => "disableVertexAttribArray"
  | .DrawArrays _ _ _ => "drawArrays"
  | .DrawElements _ _ _ _ => "drawElements"
  | .Enable _ => "enable"
  | .EnableVertexAttribArray _ => "enableVertexAttribArray"
  | .Finish => "finish"
  | .Flush => "flush"
  | .FrameBufferRenderBuffer _ _ _ _ => "framebufferRenderBuffer"
  | .FramebufferTexture2D _ _ _ _ _ => "framebufferTexture2D"
  | .FrontFace _ => "frontFace"
  | .GenerateMipmap _ => "generateMipmap"
  | .GetActiveAttrib _ _ => "getActiveAttrib"
  | .GetActiveUniform _ _ => "getActiveUniform"
  | .GetAttachedShaders _ => "getAttachedShaders"
  | .GetAttribLocation _ _ => "getAttribLocation"
  | .GetBufferParameter _ _ => "getBufferParameter"
  | .GetParameter _ => "getParameter"
  | .GetError => "getError"
  | .GetExtension _ => "getExtension"
  | .GetFramebufferAttachmentParameter _ _ _ => "getFramebufferAttachmentParameter"
  | .GetProgramParameteri _ _ => "getProgramParameter"
  | .GetProgramParameterb _ _ => "getProgramParameter"
  | .GetProgramInfoLog _ => "getProgramInfoLog"
  | .GetRenderbufferParameter _ _ => "getRenderbufferParameter"
  | .GetShaderParameter _ _ => "getShaderParameter"
  | .GetShaderParameterb _ _ => "getShaderParameter"
  | .GetShaderInfoLog _ => "getShaderInfoLog"
  | .GetShaderSource _ => "getShaderSource"
  | .GetSupportedExtensions => "getSupportedExtensions"
  | .GetTexParameter _ _ => "getTexParameter"
  | .GetUniform _ _ => "getUniform"
  | .GetUniformLocation _ _ => "getUniformLocation"
  | .GetVertexAttrib _ _ => "getVertexAttrib"
  | .GetVertexAttribOffset _ _ => "getVertexAttribOffset"
  | .IsBuffer _ => "isBuffer"
  | .IsContextLost => "isContextLost"
  | .IsFramebuffer _ => "isFramebuffer"
  | .IsProgram _ => "isProgram"
  | .IsRenderbuffer _ => "isRenderbuffer"
  | .IsShader _ => "isShader"
  | .IsTexture _ => "isTexture"
  | .IsEnabled _ => "isEnabled"
  | .LineWidth _ => "lineWidth"
  | .LinkProgram _ => "linkProgram"
  | .PixelStorei _ _ => "pixelStorei"
  | .PolygonOffset _ _ => "polygonOffset"
  | .ReadPixels _ _ _ _ _ _ _ => "readPixels"
  | .RenderbufferStorage _ _ _ _ => "renderbufferStorage"
  | .Scissor _ _ _ _ => "scissor"
  | .ShaderSource _ _ => "shaderSource"
  | .TexImage2D _ _ _ _ _ _ => "texImage2D"
  | .TexParameteri _ _ _ => "texParameteri"
  | .TexSubImage2D _ _ _ _ _ _ _ => "texSubImage2D"
  | .Uniform1f _ _ => "uniform1f"
  | .Uniform1i _ _ => "uniform1i"
  | .Uniform2f _ _ _ => "uniform2f"
  | .Uniform2i _ _ _ => "uniform2i"
  | .Uniform3f _ _ _ _ => "uniform3f"
  | .Uniform3i _ _ _ _ => "uniform3i"
  | .Uniform4f _ _ _ _ _ => "uniform4f"
  | .Uniform4i _ _ _ _ _ => "uniform4i"
  | .UniformMatrix2fv _ _ _ => "uniformMatrix2fv"
  | .UniformMatrix3fv _ _ _ => "uniformMatrix3fv"
  | .UniformMatrix4fv _ _ _ => "uniformMatrix4fv"
  | .UseProgram _ => "useProgram"
  | .ValidateProgram _ => "validateProgram"
  | .VertexAttribPointer _ _ _ _ _ _ => "vertexAttribPointer"
  | .Viewport _ _ _ _ => "viewport"

/-! ## Specification-side definitions -/

/-- What the field loop of `NewContext` does to the slots of the new `Context`
when `gl` is the object `r` and the host world is `w`: from field `i` on, every
tagged field receives the property its tag names. -/
def filledSlots {σ : Type} (h : Host σ) (w : σ) (r : Nat) :
    List StructField → Nat → List js.Value → List js.Value
  | [], _, slots => slots
  | field :: rest, i, slots =>
    match field.Tag with
    | some tag => filledSlots h w r rest (i + 1) (slots.set i (h.get w r tag))
    | none => filledSlots h w r rest (i + 1) slots

/-- The name of a method with its first letter in lower case. -/
def lowerFirst (s : String) : String :=
  match s.data with
  | [] => ""
  | ch :: rest => String.mk (ch.toLower :: rest)

/-- The request `canvas.Call("getContext", kind)` as the host answers it in the
world `w`: the answer (`none` when the call throws) and the next world. -/
def getContextRequest {σ : Type} (h : Host σ) (cr : Nat) (w : σ) (kind : String) :
    Option js.Value × σ :=
  h.call w cr "getContext" [.string kind]

/-- The trace entry of the request `canvas.Call("getContext", kind)` made in the
world `w`. -/
def getContextEvent {σ : Type} (h : Host σ) (cr : Nat) (w : σ) (kind : String) : CallEvent :=
  ⟨.object cr, "getContext", [.string kind], (getContextRequest h cr w kind).1⟩

/-- A small browser for concrete runs.  Object 0 is a canvas whose `getContext`
answers `primary` to "webgl" and `fallback` to "experimental-webgl"; object 1 is
a rendering context whose constants read as the length of their name and whose
`getProgramParameter` answers a boolean for LINK_STATUS (35714) and a number
otherwise; object 2 is its attribute record, with the standard property names;
objects 3 and 4 are the arrays of extension names and of attached shaders.  The
world counts the calls made so far. -/
def demoHost (supported : Bool) (primary fallback : js.Value) : Host Nat where
  global := fun _ name =>
    if supported && name == "WebGLRenderingContext" then .object 9 else .undefined
  get := fun _ r p =>
    if r = 1 then .number p.length
    else if r = 2 then
      (if p ∈ ["alpha", "depth", "antialias", "premultipliedAlpha", "preserveDrawingBuffer"]
        then .boolean true
        else if p = "stencil" then .boolean false else .undefined)
    else .undefined
  length := fun _ r => if r = 3 ∨ r = 4 then 2 else 0
  index := fun _ r i =>
    if r = 3 then (if i = 0 then .string "OES_texture_float"
      else if i = 1 then .string "WEBGL_lose_context" else .undefined)
    else if r = 4 then (if i < 2 then .object (20 + i) else .undefined)
    else .undefined
  call := fun w r name args =>
    if r = 0 then
      (if name = "getContext" ∧ args = [.string "webgl"] then (some primary, w + 1)
        else if name = "getContext" ∧ args = [.string "experimental-webgl"] then
          (some fallback, w + 1)
        else (none, w + 1))
    else if r = 1 then
      (if name = "getContextAttributes" then (some (.object 2), w + 1)
        else if name = "getSupportedExtensions" then (some (.object 3), w + 1)
        else if name = "getAttachedShaders" then (some (.object 4), w + 1)
        else if name = "getError" then (some (.number 0), w + 1)
        else if name = "getProgramParameter" then
          (if args.getLast? = some (.number 35714) then (some (.boolean true), w + 1)
            else (some (.number 2), w + 1))
        else if name = "framebufferRenderBuffer" then (none, w + 1)
        else (some .undefined, w + 1))
    else (none, w + 1)
  numberToString := fun x => toString x.num

/-- The machine before anything has run: no call made, nothing allocated. -/
def Machine.start : Machine Nat := ⟨0, [], []⟩

/-- A computation is quiet when it never changes the machine: no call, no
allocation, no store. -/
def JS.Quiet {σ α : Type} (x : JS σ α) : Prop := ∀ m, (x m).2 = m

/-- The foreign operation the specification expects behind a Go method: the
method name with its first letter in lower case, except for the typed getters,
which share the operation of the untyped getter. -/
def expectedOperation (name : String) : String :=
  if name = "GetProgramParameteri" ∨ name = "GetProgramParameterb" then "getProgramParameter"
  else if name = "GetShaderParameterb" then "getShaderParameter"
  else lowerFirst name

/-- The machine that the demonstration browser leaves behind after
`NewContext`. -/
def demoMachine : Machine Nat :=
  { world := 1,
    calls := [⟨.object 0, "getContext", [.string "webgl"], some (.object 1)⟩],
    heap := [⟨filledSlots (demoHost true (.object 1) .null) 1 1 contextFields 0
      (Context.zero.slots.set 0 (.object 1))⟩] }

/-- The demonstration browser with one constant missing: its rendering context
has no property "UNPACK_COLORSPACE_CONVERSION_WEBGL". -/
def sparseHost : Host Nat :=
  { demoHost true (.object 1) .null with
    get := fun w r p =>
      if r = 1 ∧ p = "UNPACK_COLORSPACE_CONVERSION_WEBGL" then .undefined
      else (demoHost true (.object 1) .null).get w r p }

/-- A number that determines a tag: its characters read as digits in base 256. -/
def tagKey (s : String) : Nat := s.data.foldl (fun acc ch => acc * 256 + ch.toNat) 0

/-- The WebGL 1.0 operations that occur in `webgl.go` only inside comments: the
stencil configuration, the vector uniforms, the `vertexAttrib` setters, `hint`
and `sampleCoverage`. -/
def absentOperations : List String :=
  ["stencilFunc", "stencilFuncSeparate", "stencilMask", "stencilMaskSeparate", "stencilOp",
    "stencilOpSeparate", "uniform1fv", "uniform2fv", "uniform3fv", "uniform4fv", "uniform1iv",
    "uniform2iv", "uniform3iv", "uniform4iv", "vertexAttrib1f", "vertexAttrib2f",
    "vertexAttrib3f", "vertexAttrib4f", "vertexAttrib1fv", "vertexAttrib2fv",
    "vertexAttrib3fv", "vertexAttrib4fv", "hint", "sampleCoverage"]

/-- The machine after one call of the method `name` on the object `r` with the
arguments `vals`: the host has moved on and the call is recorded. -/
def afterCall {σ : Type} (h : Host σ) (m : Machine σ) (r : Nat) (name : String)
    (vals : List js.Value) : Machine σ :=
  { world := (h.call m.world r name vals).2,
    calls := m.calls ++ [⟨.object r, name, vals, (h.call m.world r name vals).1⟩],
    heap := m.heap }

/-- The scenario of the buffer round trip: create a buffer, bind it, upload
`data`, then query the parameter `pname` of the bound buffer. -/
def bufferRoundTrip {σ : Type} (h : Host σ) (c : Option Nat) (target : Int) (data : GoValue)
    (usage pname : Int) : JS σ js.Value :=
  JS.bind (Context.CreateBuffer h c) fun buffer =>
  JS.bind (Context.BindBuffer h c target buffer) fun _ =>
  JS.bind (Context.BufferData h c target data usage) fun _ =>
  Context.GetBufferParameter h c target pname

/-- The demonstration browser with a buffer of 64 bytes: its rendering context
answers 64 to `getBufferParameter`. -/
def bufferHost : Host Nat :=
  { demoHost true (.object 1) .null with
    call := fun w r name args =>
      if r = 1 ∧ name = "getBufferParameter" then (some (.number 64), w + 1)
      else (demoHost true (.object 1) .null).call w r name args }

/-- A computation fails within `S` when every panic it can raise is in `S`. -/
def JS.FailsWithin {σ α : Type} (S : List Panic) (x : JS σ α) : Prop :=
  ∀ m e, (x m).1 = .error e → e ∈ S

/-- The panics that the accessors of `js.Value` and the making and filling of a
slice can raise on the answer of a call. -/
def accessorPanics : List Panic :=
  [.valueError "Value.Int", .valueError "Value.Bool", .valueError "Value.Get",
    .valueError "Value.Length", .valueError "Value.Index", .makeSliceLen, .indexOutOfRange]

/-- What `Int()` makes of a value: the number truncated toward zero, or the
panic of `Int` on a value that is not a number. -/
def intCoercion : js.Value → Except Panic Int
  | .number x => .ok (Int.tdiv x.num x.den)
  | _ => .error (.valueError "Value.Int")

/-- The comparison functions of the standard vocabulary other than ALWAYS. -/
def comparisonFunctions : List String :=
  ["NEVER", "LESS", "EQUAL", "LEQUAL", "GREATER", "NOTEQUAL", "GEQUAL"]

/-- The texture unit identifiers TEXTURE0 to TEXTURE31. -/
def textureUnits : List String :=
  ["TEXTURE0", "TEXTURE1", "TEXTURE2", "TEXTURE3", "TEXTURE4", "TEXTURE5", "TEXTURE6",
    "TEXTURE7", "TEXTURE8", "TEXTURE9", "TEXTURE10", "TEXTURE11", "TEXTURE12", "TEXTURE13",
    "TEXTURE14", "TEXTURE15", "TEXTURE16", "TEXTURE17", "TEXTURE18", "TEXTURE19",
    "TEXTURE20", "TEXTURE21", "TEXTURE22", "TEXTURE23", "TEXTURE24", "TEXTURE25",
    "TEXTURE26", "TEXTURE27", "TEXTURE28", "TEXTURE29", "TEXTURE30", "TEXTURE31"]

/-! ## Lemmas on lists and on the field loop -/

theorem set_of_getElem? {α : Type} (l : List α) (p : Nat) (a : α) (hp : l[p]? = some a) :
    l.set p a = l := by
  induction l generalizing p with
  | nil => simp
  | cons x xs ih =>
    cases p with
    | zero => simp at hp; simp [hp]
    | succ n => simp at hp; simp [ih n hp]

theorem filledSlots_length {σ : Type} (h : Host σ) (w : σ) (r : Nat) (fs : List StructField) :
    ∀ (i : Nat) (slots : List js.Value), (filledSlots h w r fs i slots).length = slots.length := by
  induction fs with
  | nil => intro i slots; rfl
  | cons f rest ih =>
    intro i slots
    cases hf : f.Tag with
    | none => simp [filledSlots, hf, ih]
    | some tag => simp [filledSlots, hf, ih]

/-- A slot below the start index is not touched by the loop. -/
theorem filledSlots_below {σ : Type} (h : Host σ) (w : σ) (r : Nat) (fs : List StructField) :
    ∀ (i : Nat) (slots : List js.Value) (j : Nat), j < i →
      (filledSlots h w r fs i slots)[j]? = slots[j]? := by
  induction fs with
  | nil => intro i slots j _; rfl
  | cons f rest ih =>
    intro i slots j hj
    cases hf : f.Tag with
    | none =>
      simp only [filledSlots, hf]
      exact ih (i + 1) slots j (by omega)
    | some tag =>
      simp only [filledSlots, hf]
      rw [ih (i + 1) _ j (by omega), List.getElem?_set]
      have : i ≠ j := by omega
      simp [this]

/-- The slot of a tagged field holds the property the tag names. -/
theorem filledSlots_tagged {σ : Type} (h : Host σ) (w : σ) (r : Nat) (fs : List StructField) :
    ∀ (i : Nat) (slots : List js.Value) (k : Nat) (field : StructField) (tag : String),
      fs[k]? = some field → field.Tag = some tag → i + k < slots.length →
      (filledSlots h w r fs i slots)[i + k]? = some (h.get w r tag) := by
  induction fs with
  | nil => intro i slots k field tag hk; simp at hk
  | cons f rest ih =>
    intro i slots k field tag hk htag hlen
    cases k with
    | zero =>
      simp at hk
      subst hk
      simp only [filledSlots, htag, Nat.add_zero]
      rw [filledSlots_below h w r rest (i + 1) _ i (by omega), List.getElem?_set]
      simp at hlen
      simp [hlen]
    | succ n =>
      simp at hk
      have hidx : i + (n + 1) = (i + 1) + n := by omega
      cases hf : f.Tag with
      | none =>
        simp only [filledSlots, hf]
        rw [hidx]
        exact ih (i + 1) slots n field tag hk htag (by omega)
      | some t =>
        simp only [filledSlots, hf]
        rw [hidx]
        exact ih (i + 1) _ n field tag hk htag (by simp; omega)

/-- The slot of an untagged field is not touched by the loop. -/
theorem filledSlots_untagged {σ : Type} (h : Host σ) (w : σ) (r : Nat) (fs : List StructField) :
    ∀ (i : Nat) (slots : List js.Value) (k : Nat) (field : StructField),
      fs[k]? = some field → field.Tag = none →
      (filledSlots h w r fs i slots)[i + k]? = slots[i + k]? := by
  induction fs with
  | nil => intro i slots k field hk; simp at hk
  | cons f rest ih =>
    intro i slots k field hk htag
    cases k with
    | zero =>
      simp at hk
      subst hk
      simp only [filledSlots, htag, Nat.add_zero]
      exact filledSlots_below h w r rest (i + 1) _ i (by omega)
    | succ n =>
      simp at hk
      have hidx : i + (n + 1) = (i + 1) + n := by omega
      cases hf : f.Tag with
      | none =>
        simp only [filledSlots, hf]
        rw [hidx]
        exact ih (i + 1) slots n field hk htag
      | some t =>
        simp only [filledSlots, hf]
        rw [hidx, ih (i + 1) _ n field hk htag, List.getElem?_set]
        have : i ≠ i + 1 + n := by omega
        simp [this]

/-- The field loop on an object `gl`: it never panics, makes no call, leaves the
host world alone, and rewrites the cell behind `p` as `filledSlots` says. -/
theorem populate_object {σ : Type} (h : Host σ) (p r : Nat) (fs : List StructField) :
    ∀ (i : Nat) (m : Machine σ) (ctx : Context), m.heap[p]? = some ctx →
      NewContext.populate h p (.object r) fs i m =
        (.ok (), { m with heap := m.heap.set p ⟨filledSlots h m.world r fs i ctx.slots⟩ }) := by
  induction fs with
  | nil =>
    intro i m ctx hp
    have : m.heap.set p ⟨ctx.slots⟩ = m.heap := set_of_getElem? _ _ _ hp
    simp [NewContext.populate, filledSlots, JS.pure, this]
  | cons f rest ih =>
    intro i m ctx hp
    cases hf : f.Tag with
    | none =>
      simp only [NewContext.populate, filledSlots, hf]
      exact ih (i + 1) m ctx hp
    | some tag =>
      have hlt : p < m.heap.length := by
        rcases List.getElem?_eq_some.mp hp with ⟨hlt, _⟩
        exact hlt
      simp only [NewContext.populate, filledSlots, hf, JS.bind, js.Value.Get, storeField, hp]
      rw [ih (i + 1) _ ⟨ctx.slots.set i (h.get m.world r tag)⟩ (by simp [hlt])]
      simp

/-- On a value `gl` that is not an object the field loop panics at the first
tagged field, before it has changed anything. -/
theorem populate_not_object {σ : Type} (h : Host σ) (p : Nat) (gl : js.Value)
    (hgl : ∀ r, gl ≠ .object r) (fs : List StructField) :
    ∀ (i : Nat) (m : Machine σ), (∃ f ∈ fs, f.Tag ≠ none) →
      NewContext.populate h p gl fs i m = (.error (.valueError "Value.Get"), m) := by
  induction fs with
  | nil => intro i m hex; simp at hex
  | cons f rest ih =>
    intro i m hex
    cases hf : f.Tag with
    | none =>
      simp only [NewContext.populate, hf]
      apply ih
      rcases hex with ⟨g, hg, hne⟩
      simp at hg
      rcases hg with rfl | hg
      · exact absurd hf hne
      · exact ⟨g, hg, hne⟩
    | some tag =>
      cases gl with
      | object r => exact absurd rfl (hgl r)
      | _ => simp only [NewContext.populate, hf, JS.bind, js.Value.Get]

/-! ## Construction -/

/-- Wrapping an object: the new cell is appended to the heap with the handle in
slot 0 and the constants filled in; no call is made and the world is kept. -/
theorem wrap_object {σ : Type} (h : Host σ) (r : Nat) (m : Machine σ) :
    NewContext.wrap h (.object r) m =
      (.ok (some m.heap.length, none),
        { m with heap := m.heap ++
            [⟨filledSlots h m.world r contextFields 0 (Context.zero.slots.set 0 (.object r))⟩] }) := by
  have hget : (m.heap ++ [Context.zero])[m.heap.length]? = some Context.zero := by simp
  simp only [NewContext.wrap, JS.bind, newContext, storeField, hget, JS.pure]
  rw [populate_object h m.heap.length r contextFields 0 _
    ⟨Context.zero.slots.set 0 (.object r)⟩ (by simp)]
  simp

/-- The cell that `NewContext.wrap` builds for an object: slot 0 holds the
handle and the slot of every tagged field the property its tag names. -/
theorem wrapped_cell {σ : Type} (h : Host σ) (w : σ) (r : Nat) :
    (Context.mk (filledSlots h w r contextFields 0
        (Context.zero.slots.set 0 (.object r)))).Value = .object r ∧
      ∀ (i : Nat) (field : StructField) (tag : String),
        contextFields[i]? = some field → field.Tag = some tag →
        (filledSlots h w r contextFields 0 (Context.zero.slots.set 0 (.object r)))[i]? =
          some (h.get w r tag) := by
  constructor
  · have h0 := filledSlots_untagged h w r contextFields 0
      (Context.zero.slots.set 0 (.object r)) 0 ⟨"Value", none⟩ rfl rfl
    simp only [Nat.add_zero] at h0
    simp only [Context.Value, h0]
    rfl
  · intro i field tag hi htag
    have hlt : i < contextFields.length := by
      rcases List.getElem?_eq_some.mp hi with ⟨hlt, _⟩
      exact hlt
    have := filledSlots_tagged h w r contextFields 0
      (Context.zero.slots.set 0 (.object r)) i field tag hi htag
      (by simp [Context.zero]; omega)
    simpa using this

/-- Wrapping a value that is not an object panics in the field loop, after the
cell has been allocated; no call is made and the world is kept. -/
theorem wrap_not_object {σ : Type} (h : Host σ) (gl : js.Value) (hgl : ∀ r, gl ≠ .object r)
    (m : Machine σ) :
    NewContext.wrap h gl m =
      (.error (.valueError "Value.Get"),
        { m with heap :=
            (m.heap ++ [Context.zero]).set m.heap.length (Context.mk (Context.zero.slots.set 0 gl)) })
      := by
  have hget : (m.heap ++ [Context.zero])[m.heap.length]? = some Context.zero := by simp
  have hex : ∃ f ∈ contextFields, f.Tag ≠ none :=
    ⟨⟨"ARRAY_BUFFER", some "ARRAY_BUFFER"⟩, List.mem_iff_getElem?.mpr ⟨1, rfl⟩, by simp⟩
  simp only [NewContext.wrap, JS.bind, newContext, storeField, hget]
  rw [populate_not_object h m.heap.length gl hgl contextFields 0 _ hex]

/-- Wrapping makes no call, whatever the value. -/
theorem wrap_calls {σ : Type} (h : Host σ) (gl : js.Value) (m : Machine σ) :
    (NewContext.wrap h gl m).2.calls = m.calls := by
  by_cases hobj : ∃ r, gl = .object r
  · obtain ⟨r, rfl⟩ := hobj
    rw [wrap_object]
  · rw [wrap_not_object h gl (fun r hr => hobj ⟨r, hr⟩) m]

/-- A successful wrapping wrapped an object, and the cell behind the returned
pointer holds that object in slot 0. -/
theorem wrap_ok_value {σ : Type} (h : Host σ) (gl : js.Value) (m : Machine σ) (p : Nat)
    (hok : (NewContext.wrap h gl m).1 = .ok (some p, none)) :
    ∃ ctx, (NewContext.wrap h gl m).2.heap[p]? = some ctx ∧ ctx.Value = gl := by
  by_cases hobj : ∃ r, gl = .object r
  · obtain ⟨r, rfl⟩ := hobj
    rw [wrap_object] at hok ⊢
    simp only [Except.ok.injEq, Prod.mk.injEq, Option.some.injEq, and_true] at hok
    subst hok
    have hcell := wrapped_cell h m.world r
    generalize filledSlots h m.world r contextFields 0
      (Context.zero.slots.set 0 (.object r)) = slots at hcell ⊢
    exact ⟨⟨slots⟩, List.getElem?_concat_length _ _, hcell.1⟩
  · rw [wrap_not_object h gl (fun r hr => hobj ⟨r, hr⟩) m] at hok
    simp at hok

theorem JS.bind_apply {σ α β : Type} (x : JS σ α) (f : α → JS σ β) (m : Machine σ) :
    JS.bind x f m =
      match x m with
      | (.ok a, m1) => f a m1
      | (.error e, m1) => (.error e, m1) := rfl

/-- The heap is not touched by `Value.Call`. -/
theorem Call_heap {σ : Type} (h : Host σ) (v : js.Value) (name : String) (args : List GoValue)
    (m : Machine σ) : (js.Value.Call h v name args m).2.heap = m.heap := by
  unfold js.Value.Call
  cases js.makeArgs args with
  | none => rfl
  | some vals =>
    cases v with
    | object r =>
      simp only
      cases (h.call m.world r name vals).1 <;> rfl
    | _ => rfl

/-- A call on an object whose arguments convert is dispatched to the host and
appended to the trace. -/
theorem Call_object {σ : Type} (h : Host σ) (r : Nat) (name : String) (args : List GoValue)
    (vals : List js.Value) (hargs : js.makeArgs args = some vals) (m : Machine σ) :
    js.Value.Call h (.object r) name args m =
      ((match (h.call m.world r name vals).1 with
        | some res => .ok res
        | none => .error .jsError),
       { world := (h.call m.world r name vals).2,
         calls := m.calls ++ [⟨.object r, name, vals, (h.call m.world r name vals).1⟩],
         heap := m.heap }) := by
  unfold js.Value.Call
  simp only [hargs]
  cases (h.call m.world r name vals).1 <;> rfl

/-- On a host without `WebGLRenderingContext`, `NewContext` returns at once. -/
theorem NewContext_returns_unsupported {σ : Type} (h : Host σ) (canvas : js.Value) (m : Machine σ)
    (hun : h.global m.world "WebGLRenderingContext" = .undefined) :
    NewContext h canvas m =
      (.ok (none, some "Your browser doesn't appear to support webgl."), m) := by
  simp [NewContext, JS.bind, js.Global.Get, hun, js.Value.Equal, JS.pure]

/-- On a host with `WebGLRenderingContext`, `NewContext` is the cascade of the
two `getContext` requests followed by the wrapping of the first answer that is
not null. -/
theorem NewContext_supported {σ : Type} (h : Host σ) (canvas : js.Value) (m : Machine σ)
    (hsup : h.global m.world "WebGLRenderingContext" ≠ .undefined) :
    NewContext h canvas m =
      match js.Value.Call h canvas "getContext" [.string "webgl"] m with
      | (.error e, m1) => (.error e, m1)
      | (.ok gl1, m1) =>
        if gl1.IsNull then
          match js.Value.Call h canvas "getContext" [.string "experimental-webgl"] m1 with
          | (.error e, m2) => (.error e, m2)
          | (.ok gl2, m2) =>
            if gl2.IsNull then (.ok (none, some "Creating a webgl context has failed."), m2)
            else NewContext.wrap h gl2 m2
        else NewContext.wrap h gl1 m1 := by
  simp only [NewContext, JS.bind_apply, js.Global.Get, js.Value.Equal, hsup, decide_False,
    Bool.false_eq_true, if_false]
  cases js.Value.Call h canvas "getContext" [.string "webgl"] m with
  | mk out1 m1 =>
    cases out1 with
    | error e => rfl
    | ok gl1 =>
      simp only
      by_cases hn1 : gl1.IsNull = true
      · simp only [hn1, if_true, JS.bind_apply]
        cases js.Value.Call h canvas "getContext" [.string "experimental-webgl"] m1 with
        | mk out2 m2 =>
          cases out2 with
          | error e => rfl
          | ok gl2 =>
            simp only
            by_cases hn2 : gl2.IsNull = true
            · simp only [hn2, if_true]; rfl
            · simp only [hn2]; rfl
      · simp only [hn1]; rfl

theorem IsNull_iff (v : js.Value) : v.IsNull = true ↔ v = .null := by
  cases v <;> simp [js.Value.IsNull]

/-- Every run of `NewContext` that reaches its last line is a run of
`NewContext.wrap` on a non-null answer of the canvas, from a machine whose heap
is the initial one. -/
theorem NewContext_ok_wrap {σ : Type} (h : Host σ) (canvas : js.Value) (m : Machine σ)
    (p : Option Nat) (hok : (NewContext h canvas m).1 = .ok (p, none)) :
    ∃ (gl : js.Value) (m1 : Machine σ), NewContext h canvas m = NewContext.wrap h gl m1 ∧
      m1.heap = m.heap ∧ gl ≠ .null := by
  by_cases hun : h.global m.world "WebGLRenderingContext" = .undefined
  · rw [NewContext_returns_unsupported h canvas m hun] at hok
    simp at hok
  · rw [NewContext_supported h canvas m hun] at hok ⊢
    have hheap1 := Call_heap h canvas "getContext" [.string "webgl"] m
    revert hok hheap1
    cases js.Value.Call h canvas "getContext" [.string "webgl"] m with
    | mk out1 m1 =>
      cases out1 with
      | error e => intro hok; simp at hok
      | ok gl1 =>
        simp only
        by_cases hn1 : gl1.IsNull = true
        · simp only [hn1, if_true]
          have hheap2 := Call_heap h canvas "getContext" [.string "experimental-webgl"] m1
          revert hheap2
          cases js.Value.Call h canvas "getContext" [.string "experimental-webgl"] m1 with
          | mk out2 m2 =>
            cases out2 with
            | error e => intro _ hok; simp at hok
            | ok gl2 =>
              simp only
              by_cases hn2 : gl2.IsNull = true
              · simp only [hn2, if_true]
                intro _ hok
                simp at hok
              · simp only [hn2]
                intro hheap2 _ hheap1
                exact ⟨gl2, m2, rfl, by rw [hheap2, hheap1],
                  fun hnull => hn2 ((IsNull_iff gl2).mpr hnull)⟩
        · simp only [hn1]
          intro _ hheap1
          exact ⟨gl1, m1, rfl, hheap1, fun hnull => hn1 ((IsNull_iff gl1).mpr hnull)⟩

/-- When the canvas answers the request for "webgl" with an object, `NewContext`
makes that one call and returns the pointer to a new cell wrapping the object. -/
theorem NewContext_primary_object {σ : Type} (h : Host σ) (cr r : Nat) (m : Machine σ)
    (hsup : h.global m.world "WebGLRenderingContext" ≠ .undefined)
    (h1 : (h.call m.world cr "getContext" [.string "webgl"]).1 = some (.object r)) :
    NewContext h (.object cr) m =
      (.ok (some m.heap.length, none),
        { world := (h.call m.world cr "getContext" [.string "webgl"]).2,
          calls := m.calls ++ [⟨.object cr, "getContext", [.string "webgl"], some (.object r)⟩],
          heap := m.heap ++
            [⟨filledSlots h (h.call m.world cr "getContext" [.string "webgl"]).2 r
              contextFields 0 (Context.zero.slots.set 0 (.object r))⟩] }) := by
  rw [NewContext_supported h (.object cr) m hsup,
    Call_object h cr "getContext" [.string "webgl"] [.string "webgl"] rfl m]
  simp only [h1, js.Value.IsNull, Bool.false_eq_true, if_false]
  rw [wrap_object]

/-- The run of `NewContext` on the demonstration browser. -/
theorem demo_NewContext :
    NewContext (demoHost true (.object 1) .null) (.object 0) Machine.start =
      (.ok (some 0, none), demoMachine) :=
  NewContext_primary_object (demoHost true (.object 1) .null) 0 1 Machine.start
    (by decide) (by decide)

/-- C1: whenever `NewContext` succeeds, the returned pointer leads to a cell in
which the slot of every field carrying a `js` tag holds exactly the value that
`Get(tag)` on the wrapped handle reports in the final machine. -/
theorem NewContext_constants {σ : Type} (h : Host σ) (canvas : js.Value) (m : Machine σ)
    (p : Nat) (hok : (NewContext h canvas m).1 = .ok (some p, none)) :
    ∃ ctx, (NewContext h canvas m).2.heap[p]? = some ctx ∧
      ∀ (i : Nat) (field : StructField) (tag : String),
        contextFields[i]? = some field → field.Tag = some tag →
        ∃ v, ctx.slots[i]? = some v ∧
          (ctx.Value.Get h tag (NewContext h canvas m).2).1 = .ok v := by
  obtain ⟨gl, m1, heq, _, _⟩ := NewContext_ok_wrap h canvas m (some p) hok
  rw [heq] at hok ⊢
  by_cases hobj : ∃ r, gl = .object r
  · obtain ⟨r, rfl⟩ := hobj
    rw [wrap_object] at hok ⊢
    simp only [Except.ok.injEq, Prod.mk.injEq, Option.some.injEq, and_true] at hok
    subst hok
    have hcell := wrapped_cell h m1.world r
    generalize filledSlots h m1.world r contextFields 0
      (Context.zero.slots.set 0 (.object r)) = slots at hcell ⊢
    obtain ⟨hval, hslots⟩ := hcell
    refine ⟨⟨slots⟩, List.getElem?_concat_length _ _, ?_⟩
    intro i field tag hi htag
    refine ⟨h.get m1.world r tag, hslots i field tag hi htag, ?_⟩
    rw [hval]
    rfl
  · have hgl : ∀ r, gl ≠ .object r := fun r hr => hobj ⟨r, hr⟩
    rw [wrap_not_object h gl hgl m1] at hok
    simp at hok

theorem NewContext_constants_witness :
    (NewContext (demoHost true (.object 1) .null) (.object 0) Machine.start).1 =
        .ok (some 0, none) ∧
      ∃ ctx, (NewContext (demoHost true (.object 1) .null) (.object 0) Machine.start).2.heap[0]? =
          some ctx ∧
        ∀ (i : Nat) (field : StructField) (tag : String),
          contextFields[i]? = some field → field.Tag = some tag →
          ∃ v, ctx.slots[i]? = some v ∧
            (ctx.Value.Get (demoHost true (.object 1) .null) tag
              (NewContext (demoHost true (.object 1) .null) (.object 0) Machine.start).2).1 =
              .ok v :=
  ⟨by rw [demo_NewContext],
    NewContext_constants (demoHost true (.object 1) .null) (.object 0) Machine.start 0
      (by rw [demo_NewContext])⟩

/-- C2: whatever the canvas, when the global `WebGLRenderingContext` is
undefined `NewContext` returns a nil `*Context` and the error with the message
"Your browser doesn't appear to support webgl.". -/
theorem NewContext_unsupported_error {σ : Type} (h : Host σ) (canvas : js.Value)
    (m : Machine σ) (hun : h.global m.world "WebGLRenderingContext" = .undefined) :
    (NewContext h canvas m).1 =
      .ok (none, some "Your browser doesn't appear to support webgl.") := by
  rw [NewContext_returns_unsupported h canvas m hun]

theorem NewContext_unsupported_error_witness :
    (demoHost false (.object 1) .null).global Machine.start.world "WebGLRenderingContext" =
        .undefined ∧
      (NewContext (demoHost false (.object 1) .null) (.object 0) Machine.start).1 =
        .ok (none, some "Your browser doesn't appear to support webgl.") :=
  ⟨by rfl, NewContext_unsupported_error (demoHost false (.object 1) .null) (.object 0)
    Machine.start (by rfl)⟩

/-- C3: on a supported host, when the canvas answers null both to the request
for "webgl" and to the following request for "experimental-webgl", `NewContext`
returns a nil `*Context` and the error with the message
"Creating a webgl context has failed.". -/
theorem NewContext_creation_failed {σ : Type} (h : Host σ) (cr : Nat) (m : Machine σ)
    (hsup : h.global m.world "WebGLRenderingContext" ≠ .undefined)
    (h1 : (h.call m.world cr "getContext" [.string "webgl"]).1 = some .null)
    (h2 : (h.call (h.call m.world cr "getContext" [.string "webgl"]).2 cr "getContext"
      [.string "experimental-webgl"]).1 = some .null) :
    (NewContext h (.object cr) m).1 =
      .ok (none, some "Creating a webgl context has failed.") := by
  rw [NewContext_supported h (.object cr) m hsup,
    Call_object h cr "getContext" [.string "webgl"] [.string "webgl"] rfl m]
  simp only [h1, js.Value.IsNull, if_true]
  rw [Call_object h cr "getContext" [.string "experimental-webgl"]
    [.string "experimental-webgl"] rfl]
  simp only [h2, js.Value.IsNull, if_true]

theorem NewContext_creation_failed_witness :
    (demoHost true .null .null).global Machine.start.world "WebGLRenderingContext" ≠
        .undefined ∧
      (NewContext (demoHost true .null .null) (.object 0) Machine.start).1 =
        .ok (none, some "Creating a webgl context has failed.") :=
  ⟨by decide, NewContext_creation_failed (demoHost true .null .null) 0 Machine.start
    (by decide) (by rfl) (by rfl)⟩

/-- C5: `DefaultAttributes` is the record with Alpha, Depth, Antialias and
PremultipliedAlpha set and Stencil and PreserveDrawingBuffer cleared; it takes
no argument and reads no host state. -/
theorem DefaultAttributes_value :
    DefaultAttributes =
      { Alpha := true, Depth := true, Stencil := false, Antialias := true,
        PremultipliedAlpha := true, PreserveDrawingBuffer := false } := rfl

/-- C4: on a supported host `NewContext` asks the canvas for "webgl" first.
When the answer is not null that is the only request; when it is null the one
further request is for "experimental-webgl".  When `NewContext` succeeds, the
handle in the returned cell, read after the field loop has run, is the first
answer that is not null. -/
theorem NewContext_requests {σ : Type} (h : Host σ) (cr : Nat) (m : Machine σ)
    (hsup : h.global m.world "WebGLRenderingContext" ≠ .undefined) :
    ((getContextRequest h cr m.world "webgl").1 ≠ some .null →
        (NewContext h (.object cr) m).2.calls =
          m.calls ++ [getContextEvent h cr m.world "webgl"]) ∧
      ((getContextRequest h cr m.world "webgl").1 = some .null →
        (NewContext h (.object cr) m).2.calls =
          m.calls ++ [getContextEvent h cr m.world "webgl",
            getContextEvent h cr (getContextRequest h cr m.world "webgl").2
              "experimental-webgl"]) ∧
      ∀ p, (NewContext h (.object cr) m).1 = .ok (some p, none) →
        ∃ ctx, (NewContext h (.object cr) m).2.heap[p]? = some ctx ∧ ctx.Value ≠ .null ∧
          ((getContextRequest h cr m.world "webgl").1 = some ctx.Value ∨
            ((getContextRequest h cr m.world "webgl").1 = some .null ∧
              (getContextRequest h cr (getContextRequest h cr m.world "webgl").2
                "experimental-webgl").1 = some ctx.Value)) := by
  have hN := NewContext_supported h (.object cr) m hsup
  rw [Call_object h cr "getContext" [.string "webgl"] [.string "webgl"] rfl m] at hN
  unfold getContextEvent getContextRequest
  cases h1 : (h.call m.world cr "getContext" [.string "webgl"]).1 with
  | none =>
    rw [h1] at hN
    simp only at hN
    rw [hN]
    exact ⟨fun _ => rfl, fun hc => by simp at hc, fun p hp => by simp at hp⟩
  | some gl1 =>
    rw [h1] at hN
    simp only at hN
    by_cases hn1 : gl1 = .null
    · subst hn1
      simp only [js.Value.IsNull, if_true] at hN
      rw [Call_object h cr "getContext" [.string "experimental-webgl"]
        [.string "experimental-webgl"] rfl] at hN
      cases h2 : (h.call (h.call m.world cr "getContext" [.string "webgl"]).2 cr
        "getContext" [.string "experimental-webgl"]).1 with
      | none =>
        rw [h2] at hN
        simp only at hN
        rw [hN]
        exact ⟨fun hc => absurd rfl hc, fun _ => by simp, fun p hp => by simp at hp⟩
      | some gl2 =>
        rw [h2] at hN
        simp only at hN
        by_cases hn2 : gl2 = .null
        · subst hn2
          simp only [js.Value.IsNull, if_true] at hN
          rw [hN]
          exact ⟨fun hc => absurd rfl hc, fun _ => by simp, fun p hp => by simp at hp⟩
        · have hnn2 : ¬ gl2.IsNull = true := fun hc => hn2 ((IsNull_iff gl2).mp hc)
          simp only [hnn2, Bool.false_eq_true, if_false] at hN
          rw [hN]
          refine ⟨fun hc => absurd rfl hc, fun _ => by rw [wrap_calls]; simp, fun p hp => ?_⟩
          obtain ⟨ctx, hctx, hval⟩ := wrap_ok_value h gl2 _ p hp
          exact ⟨ctx, hctx, by rw [hval]; exact hn2, Or.inr ⟨rfl, by rw [hval]⟩⟩
    · have hnn1 : ¬ gl1.IsNull = true := fun hc => hn1 ((IsNull_iff gl1).mp hc)
      simp only [hnn1, Bool.false_eq_true, if_false] at hN
      rw [hN]
      refine ⟨fun _ => by rw [wrap_calls], fun hc => absurd (Option.some.inj hc) hn1,
        fun p hp => ?_⟩
      obtain ⟨ctx, hctx, hval⟩ := wrap_ok_value h gl1 _ p hp
      exact ⟨ctx, hctx, by rw [hval]; exact hn1, Or.inl (by rw [hval])⟩

theorem NewContext_requests_witness :
    (NewContext (demoHost true .null (.object 1)) (.object 0) Machine.start).2.calls =
      [⟨.object 0, "getContext", [.string "webgl"], some .null⟩,
        ⟨.object 0, "getContext", [.string "experimental-webgl"], some (.object 1)⟩] :=
  (NewContext_requests (demoHost true .null (.object 1)) 0 Machine.start (by decide)).2.1
    (by decide)

/-! ## Every method makes one call and leaves the heap alone -/

theorem Quiet_pure {σ α : Type} (a : α) : JS.Quiet (JS.pure a : JS σ α) := fun _ => rfl

theorem Quiet_panic {σ α : Type} (e : Panic) : JS.Quiet (JS.panic e : JS σ α) := fun _ => rfl

theorem Quiet_bind {σ α β : Type} (x : JS σ α) (k : α → JS σ β) (hx : JS.Quiet x)
    (hk : ∀ a, JS.Quiet (k a)) : JS.Quiet (JS.bind x k) := by
  intro m
  have h1 := hx m
  rw [JS.bind_apply]
  revert h1
  cases x m with
  | mk out m1 =>
    intro h1
    simp only at h1
    subst h1
    cases out with
    | ok a => exact hk a m1
    | error e => rfl

theorem Quiet_Bool {σ : Type} (v : js.Value) : JS.Quiet (v.Bool : JS σ Bool) := by
  cases v <;> first | exact Quiet_pure _ | exact Quiet_panic _

theorem Quiet_Int {σ : Type} (v : js.Value) : JS.Quiet (v.Int : JS σ Int) := by
  cases v <;> first | exact Quiet_pure _ | exact Quiet_panic _

theorem Quiet_Get {σ : Type} (h : Host σ) (v : js.Value) (p : String) :
    JS.Quiet (v.Get h p) := by
  intro m; cases v <;> rfl

theorem Quiet_Length {σ : Type} (h : Host σ) (v : js.Value) : JS.Quiet (v.Length h) := by
  intro m; cases v <;> rfl

theorem Quiet_Index {σ : Type} (h : Host σ) (v : js.Value) (i : Nat) :
    JS.Quiet (v.Index h i) := by
  intro m; cases v <;> rfl

theorem Quiet_load {σ : Type} (c : Option Nat) : JS.Quiet (load c : JS σ Context) := by
  intro m
  cases c with
  | none => rfl
  | some p =>
    simp only [load]
    cases m.heap[p]? <;> rfl

theorem Quiet_makeSlice {σ α : Type} (zero : α) (n : Int) :
    JS.Quiet (makeSlice zero n : JS σ (List α)) := by
  unfold makeSlice
  split
  · exact Quiet_panic _
  · exact Quiet_pure _

theorem Quiet_setIndex {σ α : Type} (xs : List α) (i : Nat) (x : α) :
    JS.Quiet (setIndex xs i x : JS σ (List α)) := by
  unfold setIndex
  split
  · exact Quiet_pure _
  · exact Quiet_panic _

theorem Quiet_shaders_loop {σ : Type} (h : Host σ) (objs : js.Value) (fuel : Nat) :
    ∀ (i : Nat) (shaders : List js.Value),
      JS.Quiet (Context.GetAttachedShaders.loop h objs fuel i shaders) := by
  induction fuel with
  | zero => intro i shaders; exact Quiet_pure _
  | succ n ih =>
    intro i shaders
    unfold Context.GetAttachedShaders.loop
    refine Quiet_bind _ _ (Quiet_Length h objs) (fun len => ?_)
    split
    · exact Quiet_bind _ _ (Quiet_Index h objs i) (fun v =>
        Quiet_bind _ _ (Quiet_setIndex _ _ _) (fun s1 => ih (i + 1) s1))
    · exact Quiet_pure _

theorem Quiet_extensions_loop {σ : Type} (h : Host σ) (ext : js.Value) (fuel : Nat) :
    ∀ (i : Nat) (extensions : List String),
      JS.Quiet (Context.GetSupportedExtensions.loop h ext fuel i extensions) := by
  induction fuel with
  | zero => intro i extensions; exact Quiet_pure _
  | succ n ih =>
    intro i extensions
    unfold Context.GetSupportedExtensions.loop
    refine Quiet_bind _ _ (Quiet_Length h ext) (fun len => ?_)
    split
    · exact Quiet_bind _ _ (Quiet_Index h ext i) (fun v =>
        Quiet_bind _ _ (Quiet_setIndex _ _ _) (fun s1 => ih (i + 1) s1))
    · exact Quiet_pure _

/-- After a quiet continuation the machine is the one the first computation
left. -/
theorem snd_bind_quiet {σ α β : Type} (x : JS σ α) (k : α → JS σ β)
    (hk : ∀ a, JS.Quiet (k a)) (m : Machine σ) : (JS.bind x k m).2 = (x m).2 := by
  rw [JS.bind_apply]
  cases x m with
  | mk out m1 =>
    cases out with
    | ok a => exact hk a m1
    | error e => rfl

/-- The promoted `c.Call` on a pointer to a cell whose handle is an object: the
call is dispatched on that object. -/
theorem Context_Call_object {σ : Type} (h : Host σ) (p r : Nat) (m : Machine σ) (ctx : Context)
    (hp : m.heap[p]? = some ctx) (hv : ctx.Value = .object r) (name : String)
    (args : List GoValue) (vals : List js.Value) (hargs : js.makeArgs args = some vals) :
    Context.Call h (some p) name args m =
      ((match (h.call m.world r name vals).1 with
        | some res => .ok res
        | none => .error .jsError),
       { world := (h.call m.world r name vals).2,
         calls := m.calls ++ [⟨.object r, name, vals, (h.call m.world r name vals).1⟩],
         heap := m.heap }) := by
  simp only [Context.Call, JS.bind_apply, load, hp, hv]
  exact Call_object h r name args vals hargs m

/-- The promoted `c.Call` never touches the heap. -/
theorem Context_Call_heap {σ : Type} (h : Host σ) (c : Option Nat) (name : String)
    (args : List GoValue) (m : Machine σ) : (Context.Call h c name args m).2.heap = m.heap := by
  simp only [Context.Call, JS.bind_apply]
  have hl := @Quiet_load σ c m
  revert hl
  cases load c m with
  | mk out m1 =>
    intro hl
    simp only at hl
    subst hl
    cases out with
    | ok ctx => exact Call_heap h ctx.Value name args m1
    | error e => rfl

/-- What follows `c.Call` in `GetContextAttributes` is quiet. -/
theorem Quiet_attributes_tail {σ : Type} (h : Host σ) (ca : js.Value) :
    JS.Quiet
      (JS.bind (ca.Get h "alpha") fun v1 => JS.bind v1.Bool fun alpha =>
        JS.bind (ca.Get h "depth") fun v2 => JS.bind v2.Bool fun depth =>
        JS.bind (ca.Get h "stencil") fun v3 => JS.bind v3.Bool fun stencil =>
        JS.bind (ca.Get h "antialias") fun v4 => JS.bind v4.Bool fun antialias =>
        JS.bind (ca.Get h "premultipliedAlpha") fun v5 => JS.bind v5.Bool
          fun premultipliedAlpha =>
        JS.bind (ca.Get h "preservedDrawingBuffer") fun v6 => JS.bind v6.Bool fun preserved =>
        (JS.pure ⟨alpha, depth, stencil, antialias, premultipliedAlpha, preserved⟩ :
          JS σ ContextAttributes)) := by
  refine Quiet_bind _ _ (Quiet_Get _ _ _) fun _ => Quiet_bind _ _ (Quiet_Bool _) fun _ => ?_
  refine Quiet_bind _ _ (Quiet_Get _ _ _) fun _ => Quiet_bind _ _ (Quiet_Bool _) fun _ => ?_
  refine Quiet_bind _ _ (Quiet_Get _ _ _) fun _ => Quiet_bind _ _ (Quiet_Bool _) fun _ => ?_
  refine Quiet_bind _ _ (Quiet_Get _ _ _) fun _ => Quiet_bind _ _ (Quiet_Bool _) fun _ => ?_
  refine Quiet_bind _ _ (Quiet_Get _ _ _) fun _ => Quiet_bind _ _ (Quiet_Bool _) fun _ => ?_
  refine Quiet_bind _ _ (Quiet_Get _ _ _) fun _ => Quiet_bind _ _ (Quiet_Bool _) fun _ => ?_
  exact Quiet_pure _

/-- The machine after any method of `Context` is the machine after its one
`c.Call`: whatever follows the call is quiet. -/
theorem invoke_snd {σ : Type} (h : Host σ) (c : Option Nat) (inv : Invocation)
    (m : Machine σ) :
    (Context.invoke h c inv m).2 = (Context.Call h c inv.operation inv.args m).2 := by
  cases inv <;>
    simp only [Context.invoke, Invocation.operation, Invocation.args,
    Context.GetContextAttributes, Context.ActiveTexture, Context.AttachShader,
    Context.BindAttribLocation, Context.BindBuffer, Context.BindFramebuffer,
    Context.BindRenderbuffer, Context.BindTexture, Context.BlendColor, Context.BlendEquation,
    Context.BlendEquationSeparate, Context.BlendFunc, Context.BlendFuncSeparate,
    Context.BufferData, Context.BufferSubData, Context.CheckFramebufferStatus, Context.Clear,
    Context.ClearColor, Context.ClearDepth, Context.ClearStencil, Context.ColorMask,
    Context.CompileShader, Context.CopyTexImage2D, Context.CopyTexSubImage2D,
    Context.CreateBuffer, Context.CreateFramebuffer, Context.CreateProgram,
    Context.CreateRenderbuffer, Context.CreateShader, Context.CreateTexture, Context.CullFace,
    Context.DeleteBuffer, Context.DeleteFramebuffer, Context.DeleteProgram,
    Context.DeleteRenderbuffer, Context.DeleteShader, Context.DeleteTexture, Context.DepthFunc,
    Context.DepthMask, Context.DepthRange, Context.DetachShader, Context.Disable,
    Context.DisableVertexAttribArray, Context.DrawArrays, Context.DrawElements, Context.Enable,
    Context.EnableVertexAttribArray, Context.Finish, Context.Flush,
    Context.FrameBufferRenderBuffer, Context.FramebufferTexture2D, Context.FrontFace,
    Context.GenerateMipmap, Context.GetActiveAttrib, Context.GetActiveUniform,
    Context.GetAttachedShaders, Context.GetAttribLocation, Context.GetBufferParameter,
    Context.GetParameter, Context.GetError, Context.GetExtension,
    Context.GetFramebufferAttachmentParameter, Context.GetProgramParameteri,
    Context.GetProgramParameterb, Context.GetProgramInfoLog, Context.GetRenderbufferParameter,
    Context.GetShaderParameter, Context.GetShaderParameterb, Context.GetShaderInfoLog,
    Context.GetShaderSource, Context.GetSupportedExtensions, Context.GetTexParameter,
    Context.GetUniform, Context.GetUniformLocation, Context.GetVertexAttrib,
    Context.GetVertexAttribOffset, Context.IsBuffer, Context.IsContextLost,
    Context.IsFramebuffer, Context.IsProgram, Context.IsRenderbuffer, Context.IsShader,
    Context.IsTexture, Context.IsEnabled, Context.LineWidth, Context.LinkProgram,
    Context.PixelStorei, Context.PolygonOffset, Context.ReadPixels, Context.RenderbufferStorage,
    Context.Scissor, Context.ShaderSource, Context.TexImage2D, Context.TexParameteri,
    Context.TexSubImage2D, Context.Uniform1f, Context.Uniform1i, Context.Uniform2f,
    Context.Uniform2i, Context.Uniform3f, Context.Uniform3i, Context.Uniform4f,
    Context.Uniform4i, Context.UniformMatrix2fv, Context.UniformMatrix3fv,
    Context.UniformMatrix4fv, Context.UseProgram, Context.ValidateProgram,
    Context.VertexAttribPointer, Context.Viewport]
      <;>
    first
    | exact snd_bind_quiet _ _ (fun _ => Quiet_pure _) m
    | (rw [snd_bind_quiet _ _ (fun _ => Quiet_pure _) m];
       first
       | exact snd_bind_quiet _ _ (fun _ => Quiet_pure _) m
       | exact snd_bind_quiet _ _ (fun _ => Quiet_Int _) m
       | exact snd_bind_quiet _ _ (fun _ => Quiet_Bool _) m
       | exact snd_bind_quiet _ _ (fun r => Quiet_attributes_tail h r) m
       | exact snd_bind_quiet _ _ (fun objs => Quiet_bind _ _ (Quiet_Length h objs) fun n =>
           Quiet_bind _ _ (Quiet_makeSlice _ n) fun s0 => Quiet_shaders_loop h objs _ 0 s0) m
       | exact snd_bind_quiet _ _ (fun ext => Quiet_bind _ _ (Quiet_Length h ext) fun n =>
           Quiet_bind _ _ (Quiet_makeSlice _ n) fun s0 => Quiet_extensions_loop h ext _ 0 s0) m)

/-- No method of `Context` touches the heap. -/
theorem invoke_heap {σ : Type} (h : Host σ) (c : Option Nat) (inv : Invocation)
    (m : Machine σ) : (Context.invoke h c inv m).2.heap = m.heap := by
  rw [invoke_snd]
  exact Context_Call_heap h c inv.operation inv.args m

/-- Apart from `FrameBufferRenderBuffer`, the operation a method calls is the one
the specification expects. -/
theorem operation_expected (inv : Invocation) (hfb : inv.name ≠ "FrameBufferRenderBuffer") :
    inv.operation = expectedOperation inv.name := by
  cases inv <;> first | rfl | exact absurd rfl hfb

/-- The cell of the demonstration machine wraps the object 1. -/
theorem demoMachine_cell : ∃ ctx, demoMachine.heap[0]? = some ctx ∧ ctx.Value = .object 1 := by
  have hcell := wrapped_cell (demoHost true (.object 1) .null) 1 1
  unfold demoMachine
  generalize filledSlots (demoHost true (.object 1) .null) 1 1 contextFields 0
    (Context.zero.slots.set 0 (.object 1)) = slots at hcell ⊢
  exact ⟨⟨slots⟩, rfl, hcell.1⟩

/-- C6, as amended: a method of `Context` other than `FrameBufferRenderBuffer`,
invoked on a context whose handle is an object with arguments that `js.ValueOf`
converts, appends exactly one call to the trace: on the handle, with the
converted arguments in declaration order, and to the operation named like the
method with a lower-case first letter, or to the untyped getter for
`GetProgramParameteri`, `GetProgramParameterb` and `GetShaderParameterb`. -/
theorem forwarding_one_call {σ : Type} (h : Host σ) (p r : Nat) (m : Machine σ)
    (ctx : Context) (inv : Invocation) (vals : List js.Value)
    (hp : m.heap[p]? = some ctx) (hv : ctx.Value = .object r)
    (hargs : js.makeArgs inv.args = some vals)
    (hfb : inv.name ≠ "FrameBufferRenderBuffer") :
    (Context.invoke h (some p) inv m).2.calls =
      m.calls ++ [⟨.object r, expectedOperation inv.name, vals,
        (h.call m.world r (expectedOperation inv.name) vals).1⟩] := by
  rw [invoke_snd, Context_Call_object h p r m ctx hp hv inv.operation inv.args vals hargs,
    operation_expected inv hfb]

theorem forwarding_one_call_witness :
    (Context.invoke (demoHost true (.object 1) .null) (some 0) (.DrawElements 4 6 5123 0)
        demoMachine).2.calls =
      demoMachine.calls ++
        [⟨.object 1, "drawElements", [.number 4, .number 6, .number 5123, .number 0],
          some .undefined⟩] := by
  obtain ⟨ctx, hp, hv⟩ := demoMachine_cell
  exact forwarding_one_call (demoHost true (.object 1) .null) 0 1 demoMachine ctx
    (.DrawElements 4 6 5123 0) [.number 4, .number 6, .number 5123, .number 0] hp hv
    (by simp [Invocation.args, js.makeArgs, js.ValueOf]) (by decide)

/-- C6, as stated, fails for `GetProgramParameteri`: its one call is not to the
operation named like the method with a lower-case first letter, whatever the
result of that call. -/
theorem forwarding_name_counterexample :
    ¬ ∃ res, (Context.invoke (demoHost true (.object 1) .null) (some 0)
        (.GetProgramParameteri (.object 5) 35717) demoMachine).2.calls =
      demoMachine.calls ++
        [⟨.object 1, lowerFirst "GetProgramParameteri", [.object 5, .number 35717], res⟩] := by
  obtain ⟨ctx, hp, hv⟩ := demoMachine_cell
  rintro ⟨res, hres⟩
  rw [invoke_snd, Context_Call_object (demoHost true (.object 1) .null) 0 1 demoMachine ctx hp hv
    _ _ [.object 5, .number 35717] (by simp [Invocation.args, js.makeArgs, js.ValueOf])] at hres
  have hev := List.append_cancel_left hres
  simp only [List.cons.injEq, CallEvent.mk.injEq, and_true, true_and] at hev
  exact absurd hev.1 (by decide)

/-- C10: a method of `Context` other than construction, whatever its arguments
and whatever the machine it runs on, leaves the heap as it found it: every cell
allocated by `NewContext`, its constant slots and its handle, is unchanged. -/
theorem invoke_preserves_contexts {σ : Type} (h : Host σ) (c : Option Nat)
    (inv : Invocation) (m : Machine σ) :
    (Context.invoke h c inv m).2.heap = m.heap ∧
      ∀ (p : Nat) (ctx : Context), m.heap[p]? = some ctx →
        (Context.invoke h c inv m).2.heap[p]? = some ctx := by
  have hh := invoke_heap h c inv m
  exact ⟨hh, fun p ctx hp => by rw [hh]; exact hp⟩

/-! ## Queries that read the answer of the call -/

/-- C7, the code at a standard browser: the attribute record of the
demonstration browser carries the six standard property names, all of them
booleans, and `GetContextAttributes` panics in `Bool` because the property it
reads for the sixth flag, "preservedDrawingBuffer", is undefined. -/
theorem GetContextAttributes_standard_record_panics :
    (demoHost true (.object 1) .null).get 2 2 "preserveDrawingBuffer" = .boolean true ∧
      (Context.GetContextAttributes (demoHost true (.object 1) .null) (some 0)
        demoMachine).1 = .error (.valueError "Value.Bool") := by
  obtain ⟨ctx, hp, hv⟩ := demoMachine_cell
  refine ⟨by decide, ?_⟩
  unfold Context.GetContextAttributes
  rw [JS.bind_apply, Context_Call_object (demoHost true (.object 1) .null) 0 1 demoMachine ctx
    hp hv "getContextAttributes" [] [] rfl]
  rfl

/-- The loop of `GetAttachedShaders` on an array of length `n`, entered at
index `i` with a slice of length `n` and more fuel than rounds left: it ends
without panic, is quiet, and has overwritten the entries from `i` on with the
elements of the array. -/
theorem shaders_loop_spec {σ : Type} (h : Host σ) (a : Nat) (m : Machine σ) (n : Nat)
    (hlen : h.length m.world a = (n : Int)) :
    ∀ (fuel i : Nat) (shaders : List js.Value), i ≤ n → n - i < fuel → shaders.length = n →
      ∃ out, Context.GetAttachedShaders.loop h (.object a) fuel i shaders m = (.ok out, m) ∧
        out.length = n ∧
        ∀ j, j < n → out[j]? = if i ≤ j then some (h.index m.world a j) else shaders[j]? := by
  intro fuel
  induction fuel with
  | zero => intro i shaders _ hfuel; omega
  | succ k ih =>
    intro i shaders hi hfuel hsl
    unfold Context.GetAttachedShaders.loop
    simp only [JS.bind_apply, js.Value.Length, hlen, Nat.cast_lt]
    by_cases hin : i < n
    · have hset : i < shaders.length := by omega
      simp only [hin, if_true, js.Value.Index, setIndex, hset, JS.pure]
      obtain ⟨out, hrun, hol, hout⟩ :=
        ih (i + 1) (shaders.set i (h.index m.world a i)) (by omega) (by omega)
          (by simp [hsl])
      refine ⟨out, hrun, hol, fun j hj => ?_⟩
      rw [hout j hj, List.getElem?_set]
      by_cases hij : i = j
      · subst hij
        simp [hset]
      · have h1 : (i + 1 ≤ j) = (i ≤ j) := by
          apply propext
          constructor <;> intro hh <;> omega
        simp only [hij, if_false, h1]
    · have hie : i = n := by omega
      simp only [hin, if_false, JS.pure]
      refine ⟨shaders, rfl, hsl, fun j hj => ?_⟩
      have : ¬ i ≤ j := by omega
      simp [this]

/-- The loop of `GetSupportedExtensions`, as `shaders_loop_spec`: the entries
from `i` on are the `String()` of the elements of the array. -/
theorem extensions_loop_spec {σ : Type} (h : Host σ) (a : Nat) (m : Machine σ) (n : Nat)
    (hlen : h.length m.world a = (n : Int)) :
    ∀ (fuel i : Nat) (extensions : List String), i ≤ n → n - i < fuel →
      extensions.length = n →
      ∃ out, Context.GetSupportedExtensions.loop h (.object a) fuel i extensions m =
          (.ok out, m) ∧
        out.length = n ∧
        ∀ j, j < n → out[j]? =
          if i ≤ j then some ((h.index m.world a j).String h) else extensions[j]? := by
  intro fuel
  induction fuel with
  | zero => intro i extensions _ hfuel; omega
  | succ k ih =>
    intro i extensions hi hfuel hsl
    unfold Context.GetSupportedExtensions.loop
    simp only [JS.bind_apply, js.Value.Length, hlen, Nat.cast_lt]
    by_cases hin : i < n
    · have hset : i < extensions.length := by omega
      simp only [hin, if_true, js.Value.Index, setIndex, hset, JS.pure]
      obtain ⟨out, hrun, hol, hout⟩ :=
        ih (i + 1) (extensions.set i ((h.index m.world a i).String h)) (by omega) (by omega)
          (by simp [hsl])
      refine ⟨out, hrun, hol, fun j hj => ?_⟩
      rw [hout j hj, List.getElem?_set]
      by_cases hij : i = j
      · subst hij
        simp [hset]
      · have h1 : (i + 1 ≤ j) = (i ≤ j) := by
          apply propext
          constructor <;> intro hh <;> omega
        simp only [hij, if_false, h1]
    · have hie : i = n := by omega
      simp only [hin, if_false, JS.pure]
      refine ⟨extensions, rfl, hsl, fun j hj => ?_⟩
      have : ¬ i ≤ j := by omega
      simp [this]

/-- C8: when `getSupportedExtensions` answers with an array-like object of length
`n`, `GetSupportedExtensions` returns a list of length `n` whose entry at every
index `i` below `n` is the `String()` of the element `i` of the array, which for
a string element is the string itself. -/
theorem GetSupportedExtensions_elements {σ : Type} (h : Host σ) (p r : Nat) (m : Machine σ)
    (ctx : Context) (a n : Nat)
    (hp : m.heap[p]? = some ctx) (hv : ctx.Value = .object r)
    (hcall : (h.call m.world r "getSupportedExtensions" []).1 = some (.object a))
    (hlen : h.length (h.call m.world r "getSupportedExtensions" []).2 a = (n : Int)) :
    ∃ extensions, (Context.GetSupportedExtensions h (some p) m).1 = .ok extensions ∧
      extensions.length = n ∧
      (∀ i, i < n → extensions[i]? =
        some ((h.index (h.call m.world r "getSupportedExtensions" []).2 a i).String h)) ∧
      ∀ i t, i < n →
        h.index (h.call m.world r "getSupportedExtensions" []).2 a i = .string t →
        extensions[i]? = some t := by
  unfold Context.GetSupportedExtensions
  rw [JS.bind_apply, Context_Call_object h p r m ctx hp hv "getSupportedExtensions" [] [] rfl]
  simp only [hcall, JS.bind_apply, js.Value.Length, hlen, makeSlice, Int.toNat_ofNat]
  have hneg : ¬ ((n : Int) < 0) := by omega
  simp only [hneg, if_false, JS.pure]
  obtain ⟨out, hrun, hol, hout⟩ :=
    extensions_loop_spec h a
      { world := (h.call m.world r "getSupportedExtensions" []).2,
        calls := m.calls ++ [⟨.object r, "getSupportedExtensions", [], some (.object a)⟩],
        heap := m.heap } n hlen (n + 1) 0 (List.replicate n "") (by omega) (by omega)
      (by simp)
  rw [hrun]
  have hall : ∀ i, i < n → out[i]? =
      some ((h.index (h.call m.world r "getSupportedExtensions" []).2 a i).String h) := by
    intro i hi
    rw [hout i hi]
    simp
  refine ⟨out, rfl, hol, hall, fun i t hi ht => ?_⟩
  rw [hall i hi, ht]
  rfl

theorem GetSupportedExtensions_elements_witness :
    (Context.GetSupportedExtensions (demoHost true (.object 1) .null) (some 0)
      demoMachine).1 = .ok ["OES_texture_float", "WEBGL_lose_context"] := by
  obtain ⟨ctx, hp, hv⟩ := demoMachine_cell
  obtain ⟨extensions, hrun, hlen, _, hstr⟩ :=
    GetSupportedExtensions_elements (demoHost true (.object 1) .null) 0 1 demoMachine ctx 3 2
      hp hv (by rfl) (by rfl)
  have h0 := hstr 0 "OES_texture_float" (by omega) (by rfl)
  have h1 := hstr 1 "WEBGL_lose_context" (by omega) (by rfl)
  rw [hrun]
  match extensions, hlen, h0, h1 with
  | [x, y], _, h0, h1 =>
    simp only [List.getElem?_cons_zero, List.getElem?_cons_succ, Option.some.injEq] at h0 h1
    rw [h0, h1]

/-- C9: when `getAttachedShaders(program)` answers with an array-like object of
length `n`, `GetAttachedShaders(program)` returns, as one finished list, the `n`
elements of the array in the order of their indices. -/
theorem GetAttachedShaders_elements {σ : Type} (h : Host σ) (p r : Nat) (m : Machine σ)
    (ctx : Context) (program : js.Value) (a n : Nat)
    (hp : m.heap[p]? = some ctx) (hv : ctx.Value = .object r)
    (hcall : (h.call m.world r "getAttachedShaders" [program]).1 = some (.object a))
    (hlen : h.length (h.call m.world r "getAttachedShaders" [program]).2 a = (n : Int)) :
    ∃ shaders, (Context.GetAttachedShaders h (some p) program m).1 = .ok shaders ∧
      shaders.length = n ∧
      ∀ i, i < n → shaders[i]? =
        some (h.index (h.call m.world r "getAttachedShaders" [program]).2 a i) := by
  unfold Context.GetAttachedShaders
  rw [JS.bind_apply, Context_Call_object h p r m ctx hp hv "getAttachedShaders"
    [GoValue.jsValue program] [program] rfl]
  simp only [hcall, JS.bind_apply, js.Value.Length, hlen, makeSlice, Int.toNat_ofNat]
  have hneg : ¬ ((n : Int) < 0) := by omega
  simp only [hneg, if_false, JS.pure]
  obtain ⟨out, hrun, hol, hout⟩ :=
    shaders_loop_spec h a
      { world := (h.call m.world r "getAttachedShaders" [program]).2,
        calls := m.calls ++ [⟨.object r, "getAttachedShaders", [program], some (.object a)⟩],
        heap := m.heap } n hlen (n + 1) 0 (List.replicate n .undefined) (by omega) (by omega)
      (by simp)
  rw [hrun]
  refine ⟨out, rfl, hol, fun i hi => ?_⟩
  rw [hout i hi]
  simp

theorem GetAttachedShaders_elements_witness :
    (Context.GetAttachedShaders (demoHost true (.object 1) .null) (some 0) (.object 5)
      demoMachine).1 = .ok [.object 20, .object 21] := by
  obtain ⟨ctx, hp, hv⟩ := demoMachine_cell
  obtain ⟨shaders, hrun, hlen, hidx⟩ :=
    GetAttachedShaders_elements (demoHost true (.object 1) .null) 0 1 demoMachine ctx
      (.object 5) 4 2 hp hv (by rfl) (by rfl)
  have h0 := hidx 0 (by omega)
  have h1 := hidx 1 (by omega)
  rw [hrun]
  match shaders, hlen, h0, h1 with
  | [x, y], _, h0, h1 =>
    simp only [List.getElem?_cons_zero, List.getElem?_cons_succ, Option.some.injEq] at h0 h1
    rw [h0, h1]
    rfl

/-! ## Construction, continued -/

/-- When the canvas answers null to "webgl" and an object to "experimental-webgl",
`NewContext` makes those two calls and returns the pointer to a new cell wrapping
the object. -/
theorem NewContext_fallback_object {σ : Type} (h : Host σ) (cr r : Nat) (m : Machine σ)
    (hsup : h.global m.world "WebGLRenderingContext" ≠ .undefined)
    (h1 : (h.call m.world cr "getContext" [.string "webgl"]).1 = some .null)
    (h2 : (h.call (h.call m.world cr "getContext" [.string "webgl"]).2 cr "getContext"
      [.string "experimental-webgl"]).1 = some (.object r)) :
    NewContext h (.object cr) m =
      (.ok (some m.heap.length, none),
        { world := (h.call (h.call m.world cr "getContext" [.string "webgl"]).2 cr
            "getContext" [.string "experimental-webgl"]).2,
          calls := m.calls ++ [⟨.object cr, "getContext", [.string "webgl"], some .null⟩] ++
            [⟨.object cr, "getContext", [.string "experimental-webgl"], some (.object r)⟩],
          heap := m.heap ++
            [⟨filledSlots h (h.call (h.call m.world cr "getContext" [.string "webgl"]).2 cr
                "getContext" [.string "experimental-webgl"]).2 r
              contextFields 0 (Context.zero.slots.set 0 (.object r))⟩] }) := by
  rw [NewContext_supported h (.object cr) m hsup,
    Call_object h cr "getContext" [.string "webgl"] [.string "webgl"] rfl m]
  simp only [h1, js.Value.IsNull, if_true]
  rw [Call_object h cr "getContext" [.string "experimental-webgl"]
    [.string "experimental-webgl"] rfl]
  simp only [h2, js.Value.IsNull, Bool.false_eq_true, if_false]
  rw [wrap_object]

/-- C11: on a supported host whose canvas hands out an object `r` as the context
(at the first request, or at the second after a null), `NewContext` succeeds with
a nil error whatever the properties of `r` are.  A tagged field whose property is
absent, so that `Get` reports undefined, holds undefined, and every tagged field
holds the value the context reports for its own tag. -/
theorem NewContext_absent_constant {σ : Type} (h : Host σ) (cr r : Nat) (m : Machine σ)
    (w : σ) (i0 : Nat) (field0 : StructField) (tag0 : String)
    (hsup : h.global m.world "WebGLRenderingContext" ≠ .undefined)
    (hgl : ((getContextRequest h cr m.world "webgl").1 = some (.object r) ∧
          w = (getContextRequest h cr m.world "webgl").2) ∨
        ((getContextRequest h cr m.world "webgl").1 = some .null ∧
          (getContextRequest h cr (getContextRequest h cr m.world "webgl").2
            "experimental-webgl").1 = some (.object r) ∧
          w = (getContextRequest h cr (getContextRequest h cr m.world "webgl").2
            "experimental-webgl").2))
    (hi0 : contextFields[i0]? = some field0) (ht0 : field0.Tag = some tag0)
    (habsent : h.get w r tag0 = .undefined) :
    ∃ p ctx, (NewContext h (.object cr) m).1 = .ok (some p, none) ∧
      (NewContext h (.object cr) m).2.heap[p]? = some ctx ∧
      (NewContext h (.object cr) m).2.world = w ∧
      ctx.Value = .object r ∧
      ctx.slots[i0]? = some .undefined ∧
      ∀ (i : Nat) (field : StructField) (tag : String),
        contextFields[i]? = some field → field.Tag = some tag →
        ctx.slots[i]? = some (h.get w r tag) := by
  have hcell := wrapped_cell h w r
  unfold getContextRequest at hgl
  rcases hgl with ⟨h1, hw⟩ | ⟨h1, h2, hw⟩
  · rw [NewContext_primary_object h cr r m hsup h1, ← hw]
    generalize filledSlots h w r contextFields 0
      (Context.zero.slots.set 0 (.object r)) = slots at hcell ⊢
    refine ⟨m.heap.length, ⟨slots⟩, rfl, List.getElem?_concat_length _ _, rfl, hcell.1, ?_,
      hcell.2⟩
    rw [hcell.2 i0 field0 tag0 hi0 ht0, habsent]
  · rw [NewContext_fallback_object h cr r m hsup h1 h2, ← hw]
    generalize filledSlots h w r contextFields 0
      (Context.zero.slots.set 0 (.object r)) = slots at hcell ⊢
    refine ⟨m.heap.length, ⟨slots⟩, rfl, List.getElem?_concat_length _ _, rfl, hcell.1, ?_,
      hcell.2⟩
    rw [hcell.2 i0 field0 tag0 hi0 ht0, habsent]

theorem NewContext_absent_constant_witness :
    ∃ p ctx, (NewContext sparseHost (.object 0) Machine.start).1 = .ok (some p, none) ∧
      (NewContext sparseHost (.object 0) Machine.start).2.heap[p]? = some ctx ∧
      (NewContext sparseHost (.object 0) Machine.start).2.world = 1 ∧
      ctx.Value = .object 1 ∧
      ctx.slots[270]? = some .undefined ∧
      ∀ (i : Nat) (field : StructField) (tag : String),
        contextFields[i]? = some field → field.Tag = some tag →
        ctx.slots[i]? = some (sparseHost.get 1 1 tag) :=
  NewContext_absent_constant sparseHost 0 1 Machine.start 1 270
    ⟨"UNPACK_COLORSPACE_CONVERSION_WEBGL", some "UNPACK_COLORSPACE_CONVERSION_WEBGL"⟩
    "UNPACK_COLORSPACE_CONVERSION_WEBGL" (by decide) (Or.inl ⟨by decide, by decide⟩)
    (by rfl) rfl (by decide)

/-- On a value that is not an object, `Value.Call` panics without reaching the
host. -/
theorem Call_not_object {σ : Type} (h : Host σ) (v : js.Value) (hv : ∀ r, v ≠ .object r)
    (name : String) (args : List GoValue) (vals : List js.Value)
    (hargs : js.makeArgs args = some vals) (m : Machine σ) :
    js.Value.Call h v name args m = (.error (.valueError "Value.Call"), m) := by
  cases v with
  | object r => exact absurd rfl (hv r)
  | _ => simp only [js.Value.Call, hargs]

/-- The calls of `NewContext`: none, the request for "webgl", or that request
followed by the request for "experimental-webgl". -/
theorem NewContext_calls {σ : Type} (h : Host σ) (canvas : js.Value) (m : Machine σ) :
    (NewContext h canvas m).2.calls = m.calls ∨
      (∃ res1, (NewContext h canvas m).2.calls =
        m.calls ++ [⟨canvas, "getContext", [.string "webgl"], res1⟩]) ∨
      ∃ res1 res2, (NewContext h canvas m).2.calls =
        m.calls ++ [⟨canvas, "getContext", [.string "webgl"], res1⟩] ++
          [⟨canvas, "getContext", [.string "experimental-webgl"], res2⟩] := by
  by_cases hun : h.global m.world "WebGLRenderingContext" = .undefined
  · rw [NewContext_returns_unsupported h canvas m hun]
    exact Or.inl rfl
  · have hN := NewContext_supported h canvas m hun
    by_cases hobj : ∃ cr, canvas = .object cr
    · obtain ⟨cr, rfl⟩ := hobj
      rw [Call_object h cr "getContext" [.string "webgl"] [.string "webgl"] rfl m] at hN
      cases h1 : (h.call m.world cr "getContext" [.string "webgl"]).1 with
      | none =>
        rw [h1] at hN
        simp only at hN
        rw [hN]
        exact Or.inr (Or.inl ⟨none, rfl⟩)
      | some gl1 =>
        rw [h1] at hN
        simp only at hN
        by_cases hn1 : gl1.IsNull = true
        · simp only [hn1, if_true] at hN
          rw [Call_object h cr "getContext" [.string "experimental-webgl"]
            [.string "experimental-webgl"] rfl] at hN
          cases h2 : (h.call (h.call m.world cr "getContext" [.string "webgl"]).2 cr
            "getContext" [.string "experimental-webgl"]).1 with
          | none =>
            rw [h2] at hN
            simp only at hN
            rw [hN]
            exact Or.inr (Or.inr ⟨some gl1, none, rfl⟩)
          | some gl2 =>
            rw [h2] at hN
            simp only at hN
            by_cases hn2 : gl2.IsNull = true
            · simp only [hn2, if_true] at hN
              rw [hN]
              exact Or.inr (Or.inr ⟨some gl1, some gl2, rfl⟩)
            · simp only [hn2, Bool.false_eq_true, if_false] at hN
              rw [hN, wrap_calls]
              exact Or.inr (Or.inr ⟨some gl1, some gl2, rfl⟩)
        · simp only [hn1, Bool.false_eq_true, if_false] at hN
          rw [hN, wrap_calls]
          exact Or.inr (Or.inl ⟨some gl1, rfl⟩)
    · rw [Call_not_object h canvas (fun r hr => hobj ⟨r, hr⟩) "getContext" [.string "webgl"]
        [.string "webgl"] rfl m] at hN
      simp only at hN
      rw [hN]
      exact Or.inl rfl

/-- C12, the code: every call `NewContext` makes is a `getContext` request whose
only argument is the context type, "webgl" or "experimental-webgl".  No request
carries an attributes argument, so neither caller-supplied attributes nor the
record of `DefaultAttributes` ever reach the canvas. -/
theorem getContext_requests_carry_no_attributes {σ : Type} (h : Host σ) (canvas : js.Value)
    (m : Machine σ) :
    ∀ ev ∈ (NewContext h canvas m).2.calls, ev ∈ m.calls ∨
      (ev.receiver = canvas ∧ ev.method = "getContext" ∧
        (ev.args = [.string "webgl"] ∨ ev.args = [.string "experimental-webgl"])) := by
  intro ev hev
  rcases NewContext_calls h canvas m with hc | ⟨res1, hc⟩ | ⟨res1, res2, hc⟩
  · rw [hc] at hev
    exact Or.inl hev
  · rw [hc] at hev
    rcases List.mem_append.mp hev with hm | hm
    · exact Or.inl hm
    · rw [List.mem_singleton] at hm
      subst hm
      exact Or.inr ⟨rfl, rfl, Or.inl rfl⟩
  · rw [hc] at hev
    rcases List.mem_append.mp hev with hm | hm
    · rcases List.mem_append.mp hm with hm | hm
      · exact Or.inl hm
      · rw [List.mem_singleton] at hm
        subst hm
        exact Or.inr ⟨rfl, rfl, Or.inl rfl⟩
    · rw [List.mem_singleton] at hm
      subst hm
      exact Or.inr ⟨rfl, rfl, Or.inr rfl⟩

theorem getContext_requests_carry_no_attributes_witness :
    (⟨.object 0, "getContext", [.string "webgl"], some (.object 1)⟩ : CallEvent) ∈
        Machine.start.calls ∨
      ((⟨.object 0, "getContext", [.string "webgl"], some (.object 1)⟩ : CallEvent).receiver =
          .object 0 ∧
        (⟨.object 0, "getContext", [.string "webgl"], some (.object 1)⟩ : CallEvent).method =
          "getContext" ∧
        ((⟨.object 0, "getContext", [.string "webgl"], some (.object 1)⟩ : CallEvent).args =
            [.string "webgl"] ∨
          (⟨.object 0, "getContext", [.string "webgl"], some (.object 1)⟩ : CallEvent).args =
            [.string "experimental-webgl"])) :=
  getContext_requests_carry_no_attributes (demoHost true (.object 1) .null) (.object 0)
    Machine.start ⟨.object 0, "getContext", [.string "webgl"], some (.object 1)⟩
    (by rw [demo_NewContext]; exact List.mem_singleton.mpr rfl)

/-! ## The static tables -/

set_option maxHeartbeats 4000000 in
/-- The tags of `Context`, read as numbers, are pairwise different. -/
theorem tagKeys_nodup : ((contextFields.filterMap StructField.Tag).map tagKey).Nodup := by
  decide

/-- C13: in the field table of `Context` every tagged field is named exactly like
its tag, and no tag occurs twice. -/
theorem contextFields_named_by_tag :
    (∀ f ∈ contextFields, ∀ tag, f.Tag = some tag → f.Name = tag) ∧
      (contextFields.filterMap StructField.Tag).Nodup :=
  ⟨by decide, List.Nodup.of_map tagKey tagKeys_nodup⟩

/-- C15, as stated, fails: no method of `Context` forwards to `stencilFunc`. -/
theorem stencilFunc_has_no_method : ¬ ∃ inv : Invocation, inv.operation = "stencilFunc" := by
  rintro ⟨inv, hinv⟩
  cases inv <;> simp only [Invocation.operation] at hinv <;> exact absurd hinv (by decide)

/-- C15, as amended: the operations that `Context` forwards to include none of the
stencil configuration operations, the vector uniforms, the `vertexAttrib`
setters, `hint` and `sampleCoverage`. -/
theorem absent_operations_have_no_method (inv : Invocation) :
    inv.operation ∉ absentOperations := by
  cases inv <;> simp only [Invocation.operation] <;> decide

/-! ## Single methods -/

/-- The promoted `c.Call` in terms of `afterCall`. -/
theorem Context_Call_afterCall {σ : Type} (h : Host σ) (p r : Nat) (m : Machine σ)
    (ctx : Context) (hp : m.heap[p]? = some ctx) (hv : ctx.Value = .object r) (name : String)
    (args : List GoValue) (vals : List js.Value) (hargs : js.makeArgs args = some vals) :
    Context.Call h (some p) name args m =
      ((match (h.call m.world r name vals).1 with
        | some res => .ok res
        | none => .error .jsError), afterCall h m r name vals) :=
  Context_Call_object h p r m ctx hp hv name args vals hargs

/-- With an argument that `js.ValueOf` rejects, the promoted `c.Call` panics
before anything reaches the host. -/
theorem Context_Call_invalid {σ : Type} (h : Host σ) (c : Option Nat) (name : String)
    (args : List GoValue) (hargs : js.makeArgs args = none) (m : Machine σ) :
    (Context.Call h c name args m = (.error .invalidValue, m) ∨
        Context.Call h c name args m = (.error .nilDereference, m)) ∧
      ∀ (p : Nat) (ctx : Context), c = some p → m.heap[p]? = some ctx →
        Context.Call h c name args m = (.error .invalidValue, m) := by
  have hcall : ∀ v : js.Value, js.Value.Call h v name args m = (.error .invalidValue, m) := by
    intro v
    simp only [js.Value.Call, hargs]
  constructor
  · cases c with
    | none => exact Or.inr rfl
    | some p =>
      simp only [Context.Call, JS.bind_apply, load]
      cases m.heap[p]? with
      | none => exact Or.inr rfl
      | some ctx => exact Or.inl (hcall ctx.Value)
  · intro p ctx hc hp
    subst hc
    simp only [Context.Call, JS.bind_apply, load, hp]
    exact hcall ctx.Value

/-- A panic of the first computation is the panic of the sequence. -/
theorem bind_of_error {σ α β : Type} (x : JS σ α) (k : α → JS σ β) (m m1 : Machine σ)
    (e : Panic) (hx : x m = (.error e, m1)) : JS.bind x k m = (.error e, m1) := by
  rw [JS.bind_apply, hx]

/-- C14, the code: `UniformMatrix2fv`, `UniformMatrix3fv` and `UniformMatrix4fv`
hand the `[]float32` to `Call`, whose conversion `js.ValueOf` rejects it.  For
every location, flag and slice the method panics and the machine is left as it
was, so no call reaches the wrapped context; on a pointer that leads to a cell
the panic is `ValueOf: invalid value`. -/
theorem UniformMatrix_slice_rejected {σ : Type} (h : Host σ) (c : Option Nat)
    (location : js.Value) (transpose : Bool) (value : List Rat) (m : Machine σ) :
    ((Context.UniformMatrix2fv h c location transpose value m).2 = m ∧
        (Context.UniformMatrix3fv h c location transpose value m).2 = m ∧
        (Context.UniformMatrix4fv h c location transpose value m).2 = m) ∧
      ((∃ e, (Context.UniformMatrix2fv h c location transpose value m).1 = .error e) ∧
        (∃ e, (Context.UniformMatrix3fv h c location transpose value m).1 = .error e) ∧
        (∃ e, (Context.UniformMatrix4fv h c location transpose value m).1 = .error e)) ∧
      ∀ (p : Nat) (ctx : Context), c = some p → m.heap[p]? = some ctx →
        (Context.UniformMatrix2fv h c location transpose value m).1 = .error .invalidValue ∧
        (Context.UniformMatrix3fv h c location transpose value m).1 = .error .invalidValue ∧
        (Context.UniformMatrix4fv h c location transpose value m).1 = .error .invalidValue := by
  have hargs : js.makeArgs [.jsValue location, .bool transpose, .float32Slice value] = none :=
    rfl
  have h2 := Context_Call_invalid h c "uniformMatrix2fv" _ hargs m
  have h3 := Context_Call_invalid h c "uniformMatrix3fv" _ hargs m
  have h4 := Context_Call_invalid h c "uniformMatrix4fv" _ hargs m
  unfold Context.UniformMatrix2fv Context.UniformMatrix3fv Context.UniformMatrix4fv
  refine ⟨⟨?_, ?_, ?_⟩, ⟨?_, ?_, ?_⟩, fun p ctx hc hp => ⟨?_, ?_, ?_⟩⟩
  · rcases h2.1 with hx | hx <;> rw [bind_of_error _ _ _ _ _ hx]
  · rcases h3.1 with hx | hx <;> rw [bind_of_error _ _ _ _ _ hx]
  · rcases h4.1 with hx | hx <;> rw [bind_of_error _ _ _ _ _ hx]
  · rcases h2.1 with hx | hx <;> rw [bind_of_error _ _ _ _ _ hx] <;> exact ⟨_, rfl⟩
  · rcases h3.1 with hx | hx <;> rw [bind_of_error _ _ _ _ _ hx] <;> exact ⟨_, rfl⟩
  · rcases h4.1 with hx | hx <;> rw [bind_of_error _ _ _ _ _ hx] <;> exact ⟨_, rfl⟩
  · rw [bind_of_error _ _ _ _ _ (h2.2 p ctx hc hp)]
  · rw [bind_of_error _ _ _ _ _ (h3.2 p ctx hc hp)]
  · rw [bind_of_error _ _ _ _ _ (h4.2 p ctx hc hp)]

/-- C17, the code: `FrameBufferRenderBuffer` makes its one call, with the four
arguments in order, to the operation "framebufferRenderBuffer", which is not the
WebGL operation "framebufferRenderbuffer". -/
theorem FrameBufferRenderBuffer_operation {σ : Type} (h : Host σ) (p r : Nat)
    (m : Machine σ) (ctx : Context) (target attachment renderbufferTarget : Int)
    (renderbuffer : js.Value) (hp : m.heap[p]? = some ctx) (hv : ctx.Value = .object r) :
    (Context.FrameBufferRenderBuffer h (some p) target attachment renderbufferTarget
        renderbuffer m).2 =
      afterCall h m r "framebufferRenderBuffer"
        [.number target, .number attachment, .number renderbufferTarget, renderbuffer] ∧
      "framebufferRenderBuffer" ≠ "framebufferRenderbuffer" := by
  refine ⟨?_, by decide⟩
  unfold Context.FrameBufferRenderBuffer
  rw [snd_bind_quiet _ _ (fun _ => Quiet_pure _) m,
    Context_Call_afterCall h p r m ctx hp hv "framebufferRenderBuffer"
      [.int target, .int attachment, .int renderbufferTarget, .jsValue renderbuffer]
      [.number target, .number attachment, .number renderbufferTarget, renderbuffer] rfl]

theorem FrameBufferRenderBuffer_operation_witness :
    (Context.FrameBufferRenderBuffer (demoHost true (.object 1) .null) (some 0) 36160 36096
        36161 (.object 7) demoMachine).2.calls =
      demoMachine.calls ++
        [⟨.object 1, "framebufferRenderBuffer",
          [.number 36160, .number 36096, .number 36161, .object 7], none⟩] := by
  obtain ⟨ctx, hp, hv⟩ := demoMachine_cell
  rw [(FrameBufferRenderBuffer_operation (demoHost true (.object 1) .null) 0 1 demoMachine ctx
    36160 36096 36161 (.object 7) hp hv).1]
  rfl

/-- C18: `GetProgramParameteri` and `GetProgramParameterb` each make the one call
`getProgramParameter(program, pname)` and leave the same machine behind; what
they return is `Int()`, respectively `Bool()`, of the answer to that call. -/
theorem GetProgramParameter_coercions {σ : Type} (h : Host σ) (p r : Nat) (m : Machine σ)
    (ctx : Context) (program : js.Value) (pname : Int)
    (hp : m.heap[p]? = some ctx) (hv : ctx.Value = .object r) :
    (Context.GetProgramParameteri h (some p) program pname m).2 =
        afterCall h m r "getProgramParameter" [program, .number pname] ∧
      (Context.GetProgramParameterb h (some p) program pname m).2 =
        afterCall h m r "getProgramParameter" [program, .number pname] ∧
      ∀ res, (h.call m.world r "getProgramParameter" [program, .number pname]).1 = some res →
        (Context.GetProgramParameteri h (some p) program pname m).1 =
            (res.Int (afterCall h m r "getProgramParameter" [program, .number pname])).1 ∧
          (Context.GetProgramParameterb h (some p) program pname m).1 =
            (res.Bool (afterCall h m r "getProgramParameter" [program, .number pname])).1 := by
  have hcall := Context_Call_afterCall h p r m ctx hp hv "getProgramParameter"
    [.jsValue program, .int pname] [program, .number pname] rfl
  unfold Context.GetProgramParameteri Context.GetProgramParameterb
  refine ⟨?_, ?_, fun res hres => ⟨?_, ?_⟩⟩
  · rw [snd_bind_quiet _ _ (fun _ => Quiet_Int _) m, hcall]
  · rw [snd_bind_quiet _ _ (fun _ => Quiet_Bool _) m, hcall]
  · rw [JS.bind_apply, hcall, hres]
  · rw [JS.bind_apply, hcall, hres]

theorem GetProgramParameter_coercions_witness :
    (Context.GetProgramParameteri (demoHost true (.object 1) .null) (some 0) (.object 5) 35717
        demoMachine).2.calls =
      demoMachine.calls ++
        [⟨.object 1, "getProgramParameter", [.object 5, .number 35717], some (.number 2)⟩] := by
  obtain ⟨ctx, hp, hv⟩ := demoMachine_cell
  rw [(GetProgramParameter_coercions (demoHost true (.object 1) .null) 0 1 demoMachine ctx
    (.object 5) 35717 hp hv).1]
  rfl

/-- C16: `GetBufferParameter(target, pname)` returns the answer of the wrapped
context to `getBufferParameter(target, pname)` as it is.  In particular, when a
buffer has been created, bound and filled through the binding, the value then
reported is the answer of the host in the world these three calls have led to. -/
theorem GetBufferParameter_unaltered {σ : Type} (h : Host σ) (p r : Nat) (m : Machine σ)
    (ctx : Context) (target pname : Int)
    (hp : m.heap[p]? = some ctx) (hv : ctx.Value = .object r) :
    (∀ v, (h.call m.world r "getBufferParameter" [.number target, .number pname]).1 = some v →
        Context.GetBufferParameter h (some p) target pname m =
          (.ok v, afterCall h m r "getBufferParameter" [.number target, .number pname])) ∧
      ∀ (data : GoValue) (usage : Int) (v : js.Value),
        (bufferRoundTrip h (some p) target data usage pname m).1 = .ok v →
        ∃ (buffer dataValue : js.Value) (m3 : Machine σ),
          js.ValueOf data = some dataValue ∧
          m3 = afterCall h
            (afterCall h (afterCall h m r "createBuffer" []) r "bindBuffer"
              [.number target, buffer])
            r "bufferData" [.number target, dataValue, .number usage] ∧
          (h.call m3.world r "getBufferParameter" [.number target, .number pname]).1 =
            some v ∧
          (bufferRoundTrip h (some p) target data usage pname m).2 =
            afterCall h m3 r "getBufferParameter" [.number target, .number pname] := by
  constructor
  · intro v hv1
    unfold Context.GetBufferParameter
    rw [Context_Call_afterCall h p r m ctx hp hv "getBufferParameter"
      [.int target, .int pname] [.number target, .number pname] rfl, hv1]
  · intro data usage v hok
    unfold bufferRoundTrip Context.CreateBuffer Context.BindBuffer Context.BufferData
      Context.GetBufferParameter at hok ⊢
    rw [JS.bind_apply, Context_Call_afterCall h p r m ctx hp hv "createBuffer" [] [] rfl]
      at hok ⊢
    cases hb : (h.call m.world r "createBuffer" []).1 with
    | none =>
      rw [hb] at hok
      simp at hok
    | some buffer =>
      rw [hb] at hok
      simp only at hok ⊢
      rw [JS.bind_apply, JS.bind_apply,
        Context_Call_afterCall h p r (afterCall h m r "createBuffer" []) ctx hp hv
          "bindBuffer" [.int target, .jsValue buffer] [.number target, buffer] rfl] at hok ⊢
      cases hbind : (h.call (afterCall h m r "createBuffer" []).world r "bindBuffer"
        [.number target, buffer]).1 with
      | none =>
        rw [hbind] at hok
        simp at hok
      | some bound =>
        rw [hbind] at hok
        simp only [JS.pure] at hok ⊢
        cases hd : js.ValueOf data with
        | none =>
          have hargs : js.makeArgs [.int target, data, .int usage] = none := by
            simp only [js.makeArgs, hd]
            rfl
          rw [JS.bind_apply, JS.bind_apply,
            (Context_Call_invalid h (some p) "bufferData" _ hargs
              (afterCall h (afterCall h m r "createBuffer" []) r "bindBuffer"
                [.number target, buffer])).2 p ctx rfl hp] at hok
          simp at hok
        | some dataValue =>
          have hargs : js.makeArgs [.int target, data, .int usage] =
              some [.number target, dataValue, .number usage] := by
            simp only [js.makeArgs, hd]
            rfl
          rw [JS.bind_apply, JS.bind_apply,
            Context_Call_afterCall h p r
              (afterCall h (afterCall h m r "createBuffer" []) r "bindBuffer"
                [.number target, buffer])
              ctx hp hv "bufferData" _ _ hargs] at hok ⊢
          cases hup : (h.call (afterCall h (afterCall h m r "createBuffer" []) r "bindBuffer"
            [.number target, buffer]).world r "bufferData"
            [.number target, dataValue, .number usage]).1 with
          | none =>
            rw [hup] at hok
            simp at hok
          | some uploaded =>
            rw [hup] at hok
            simp only [JS.pure] at hok ⊢
            rw [Context_Call_afterCall h p r
              (afterCall h (afterCall h (afterCall h m r "createBuffer" []) r "bindBuffer"
                [.number target, buffer]) r "bufferData"
                [.number target, dataValue, .number usage])
              ctx hp hv "getBufferParameter"
              [.int target, .int pname] [.number target, .number pname] rfl] at hok ⊢
            refine ⟨buffer, dataValue, _, rfl, rfl, ?_, rfl⟩
            simp only at hok
            revert hok
            cases (h.call (afterCall h (afterCall h (afterCall h m r "createBuffer" []) r
              "bindBuffer" [.number target, buffer]) r "bufferData"
              [.number target, dataValue, .number usage]).world r "getBufferParameter"
              [.number target, .number pname]).1 with
            | none => intro hok; simp at hok
            | some v1 =>
              intro hok
              simp only [Except.ok.injEq] at hok
              rw [hok]

theorem GetBufferParameter_unaltered_witness :
    Context.GetBufferParameter bufferHost (some 0) 34962 34660 demoMachine =
      (.ok (.number 64),
        afterCall bufferHost demoMachine 1 "getBufferParameter"
          [.number 34962, .number 34660]) := by
  obtain ⟨ctx, hp, hv⟩ := demoMachine_cell
  exact (GetBufferParameter_unaltered bufferHost 0 1 demoMachine ctx 34962 34660 hp hv).1
    (.number 64) (by rfl)

/-! ## Errors and panics -/

/-- What `NewContext.wrap` returns: a panic, or a pointer with a nil error. -/
theorem wrap_result {σ : Type} (h : Host σ) (gl : js.Value) (m : Machine σ) :
    (∃ e, (NewContext.wrap h gl m).1 = .error e) ∨
      ∃ p, (NewContext.wrap h gl m).1 = .ok (some p, none) := by
  by_cases hobj : ∃ r, gl = .object r
  · obtain ⟨r, rfl⟩ := hobj
    rw [wrap_object]
    exact Or.inr ⟨_, rfl⟩
  · rw [wrap_not_object h gl (fun r hr => hobj ⟨r, hr⟩) m]
    exact Or.inl ⟨_, rfl⟩

/-- What `NewContext` returns: a panic, nil with one of the two errors, or a
pointer with a nil error. -/
theorem NewContext_result {σ : Type} (h : Host σ) (canvas : js.Value) (m : Machine σ) :
    (∃ e, (NewContext h canvas m).1 = .error e) ∨
      (NewContext h canvas m).1 =
        .ok (none, some "Your browser doesn't appear to support webgl.") ∨
      (NewContext h canvas m).1 = .ok (none, some "Creating a webgl context has failed.") ∨
      ∃ p, (NewContext h canvas m).1 = .ok (some p, none) := by
  by_cases hun : h.global m.world "WebGLRenderingContext" = .undefined
  · rw [NewContext_returns_unsupported h canvas m hun]
    exact Or.inr (Or.inl rfl)
  · rw [NewContext_supported h canvas m hun]
    cases js.Value.Call h canvas "getContext" [.string "webgl"] m with
    | mk out1 m1 =>
      cases out1 with
      | error e => exact Or.inl ⟨e, rfl⟩
      | ok gl1 =>
        simp only
        by_cases hn1 : gl1.IsNull = true
        · rw [if_pos hn1]
          cases js.Value.Call h canvas "getContext" [.string "experimental-webgl"] m1 with
          | mk out2 m2 =>
            cases out2 with
            | error e => exact Or.inl ⟨e, rfl⟩
            | ok gl2 =>
              simp only
              by_cases hn2 : gl2.IsNull = true
              · rw [if_pos hn2]
                exact Or.inr (Or.inr (Or.inl rfl))
              · rw [if_neg hn2]
                rcases wrap_result h gl2 m2 with hw | hw
                · exact Or.inl hw
                · exact Or.inr (Or.inr (Or.inr hw))
        · rw [if_neg hn1]
          rcases wrap_result h gl1 m1 with hw | hw
          · exact Or.inl hw
          · exact Or.inr (Or.inr (Or.inr hw))

theorem FailsWithin_pure {σ α : Type} (S : List Panic) (a : α) :
    JS.FailsWithin S (JS.pure a : JS σ α) := by
  intro m e he
  simp [JS.pure] at he

theorem FailsWithin_bind {σ α β : Type} (S : List Panic) (x : JS σ α) (k : α → JS σ β)
    (hx : JS.FailsWithin S x) (hk : ∀ a, JS.FailsWithin S (k a)) :
    JS.FailsWithin S (JS.bind x k) := by
  intro m e he
  rw [JS.bind_apply] at he
  have hx1 := hx m
  revert he hx1
  cases x m with
  | mk out m1 =>
    cases out with
    | ok a => intro he _; exact hk a m1 e he
    | error e1 =>
      intro he hx1
      simp only at he
      injection he with he1
      subst he1
      exact hx1 e1 rfl

theorem FailsWithin_Int {σ : Type} (v : js.Value) :
    JS.FailsWithin accessorPanics (v.Int : JS σ Int) := by
  intro m e he
  cases v <;> simp [js.Value.Int, JS.pure, JS.panic] at he <;> subst he <;> decide

theorem FailsWithin_Bool {σ : Type} (v : js.Value) :
    JS.FailsWithin accessorPanics (v.Bool : JS σ Bool) := by
  intro m e he
  cases v <;> simp [js.Value.Bool, JS.pure, JS.panic] at he <;> subst he <;> decide

theorem FailsWithin_Get {σ : Type} (h : Host σ) (v : js.Value) (p : String) :
    JS.FailsWithin accessorPanics (v.Get h p) := by
  intro m e he
  cases v <;> simp [js.Value.Get] at he <;> subst he <;> decide

theorem FailsWithin_Length {σ : Type} (h : Host σ) (v : js.Value) :
    JS.FailsWithin accessorPanics (v.Length h) := by
  intro m e he
  cases v <;> simp [js.Value.Length] at he <;> subst he <;> decide

theorem FailsWithin_Index {σ : Type} (h : Host σ) (v : js.Value) (i : Nat) :
    JS.FailsWithin accessorPanics (v.Index h i) := by
  intro m e he
  cases v <;> simp [js.Value.Index] at he <;> subst he <;> decide

theorem FailsWithin_makeSlice {σ α : Type} (zero : α) (n : Int) :
    JS.FailsWithin accessorPanics (makeSlice zero n : JS σ (List α)) := by
  intro m e he
  unfold makeSlice at he
  split at he
  · simp [JS.panic] at he
    subst he
    decide
  · simp [JS.pure] at he

theorem FailsWithin_setIndex {σ α : Type} (xs : List α) (i : Nat) (x : α) :
    JS.FailsWithin accessorPanics (setIndex xs i x : JS σ (List α)) := by
  intro m e he
  unfold setIndex at he
  split at he
  · simp [JS.pure] at he
  · simp [JS.panic] at he
    subst he
    decide

theorem FailsWithin_shaders_loop {σ : Type} (h : Host σ) (objs : js.Value) (fuel : Nat) :
    ∀ (i : Nat) (shaders : List js.Value),
      JS.FailsWithin accessorPanics (Context.GetAttachedShaders.loop h objs fuel i shaders) := by
  induction fuel with
  | zero => intro i shaders; exact FailsWithin_pure _ _
  | succ n ih =>
    intro i shaders
    unfold Context.GetAttachedShaders.loop
    refine FailsWithin_bind _ _ _ (FailsWithin_Length h objs) (fun len => ?_)
    split
    · exact FailsWithin_bind _ _ _ (FailsWithin_Index h objs i) (fun v =>
        FailsWithin_bind _ _ _ (FailsWithin_setIndex _ _ _) (fun s1 => ih (i + 1) s1))
    · exact FailsWithin_pure _ _

theorem FailsWithin_extensions_loop {σ : Type} (h : Host σ) (ext : js.Value) (fuel : Nat) :
    ∀ (i : Nat) (extensions : List String),
      JS.FailsWithin accessorPanics
        (Context.GetSupportedExtensions.loop h ext fuel i extensions) := by
  induction fuel with
  | zero => intro i extensions; exact FailsWithin_pure _ _
  | succ n ih =>
    intro i extensions
    unfold Context.GetSupportedExtensions.loop
    refine FailsWithin_bind _ _ _ (FailsWithin_Length h ext) (fun len => ?_)
    split
    · exact FailsWithin_bind _ _ _ (FailsWithin_Index h ext i) (fun v =>
        FailsWithin_bind _ _ _ (FailsWithin_setIndex _ _ _) (fun s1 => ih (i + 1) s1))
    · exact FailsWithin_pure _ _

/-- What follows `c.Call` in `GetContextAttributes` fails only with the panics of
`Get` and `Bool`. -/
theorem FailsWithin_attributes_tail {σ : Type} (h : Host σ) (ca : js.Value) :
    JS.FailsWithin accessorPanics
      (JS.bind (ca.Get h "alpha") fun v1 => JS.bind v1.Bool fun alpha =>
        JS.bind (ca.Get h "depth") fun v2 => JS.bind v2.Bool fun depth =>
        JS.bind (ca.Get h "stencil") fun v3 => JS.bind v3.Bool fun stencil =>
        JS.bind (ca.Get h "antialias") fun v4 => JS.bind v4.Bool fun antialias =>
        JS.bind (ca.Get h "premultipliedAlpha") fun v5 => JS.bind v5.Bool
          fun premultipliedAlpha =>
        JS.bind (ca.Get h "preservedDrawingBuffer") fun v6 => JS.bind v6.Bool fun preserved =>
        (JS.pure ⟨alpha, depth, stencil, antialias, premultipliedAlpha, preserved⟩ :
          JS σ ContextAttributes)) := by
  refine FailsWithin_bind _ _ _ (FailsWithin_Get _ _ _) fun _ =>
    FailsWithin_bind _ _ _ (FailsWithin_Bool _) fun _ => ?_
  refine FailsWithin_bind _ _ _ (FailsWithin_Get _ _ _) fun _ =>
    FailsWithin_bind _ _ _ (FailsWithin_Bool _) fun _ => ?_
  refine FailsWithin_bind _ _ _ (FailsWithin_Get _ _ _) fun _ =>
    FailsWithin_bind _ _ _ (FailsWithin_Bool _) fun _ => ?_
  refine FailsWithin_bind _ _ _ (FailsWithin_Get _ _ _) fun _ =>
    FailsWithin_bind _ _ _ (FailsWithin_Bool _) fun _ => ?_
  refine FailsWithin_bind _ _ _ (FailsWithin_Get _ _ _) fun _ =>
    FailsWithin_bind _ _ _ (FailsWithin_Bool _) fun _ => ?_
  refine FailsWithin_bind _ _ _ (FailsWithin_Get _ _ _) fun _ =>
    FailsWithin_bind _ _ _ (FailsWithin_Bool _) fun _ => ?_
  exact FailsWithin_pure _ _

/-- A panic of a sequence is the panic of its first computation, or one of those
its continuation can raise. -/
theorem error_of_bind {σ α β : Type} (S : List Panic) (x : JS σ α) (k : α → JS σ β)
    (hk : ∀ a, JS.FailsWithin S (k a)) (m : Machine σ) (e : Panic)
    (he : (JS.bind x k m).1 = .error e) : (x m).1 = .error e ∨ e ∈ S := by
  rw [JS.bind_apply] at he
  revert he
  cases x m with
  | mk out m1 =>
    cases out with
    | ok a => intro he; exact Or.inr (hk a m1 e he)
    | error e1 =>
      intro he
      simp only at he
      injection he with he1
      subst he1
      exact Or.inl rfl

/-- A method of `Context` panics only where its `c.Call` panics or where an
accessor panics on the answer. -/
theorem invoke_error {σ : Type} (h : Host σ) (c : Option Nat) (inv : Invocation)
    (m : Machine σ) (e : Panic) (he : (Context.invoke h c inv m).1 = .error e) :
    (Context.Call h c inv.operation inv.args m).1 = .error e ∨ e ∈ accessorPanics := by
  cases inv <;>
    simp only [Context.invoke, Invocation.operation, Invocation.args,
    Context.GetContextAttributes, Context.ActiveTexture, Context.AttachShader,
    Context.BindAttribLocation, Context.BindBuffer, Context.BindFramebuffer,
    Context.BindRenderbuffer, Context.BindTexture, Context.BlendColor, Context.BlendEquation,
    Context.BlendEquationSeparate, Context.BlendFunc, Context.BlendFuncSeparate,
    Context.BufferData, Context.BufferSubData, Context.CheckFramebufferStatus, Context.Clear,
    Context.ClearColor, Context.ClearDepth, Context.ClearStencil, Context.ColorMask,
    Context.CompileShader, Context.CopyTexImage2D, Context.CopyTexSubImage2D,
    Context.CreateBuffer, Context.CreateFramebuffer, Context.CreateProgram,
    Context.CreateRenderbuffer, Context.CreateShader, Context.CreateTexture, Context.CullFace,
    Context.DeleteBuffer, Context.DeleteFramebuffer, Context.DeleteProgram,
    Context.DeleteRenderbuffer, Context.DeleteShader, Context.DeleteTexture, Context.DepthFunc,
    Context.DepthMask, Context.DepthRange, Context.DetachShader, Context.Disable,
    Context.DisableVertexAttribArray, Context.DrawArrays, Context.DrawElements, Context.Enable,
    Context.EnableVertexAttribArray, Context.Finish, Context.Flush,
    Context.FrameBufferRenderBuffer, Context.FramebufferTexture2D, Context.FrontFace,
    Context.GenerateMipmap, Context.GetActiveAttrib, Context.GetActiveUniform,
    Context.GetAttachedShaders, Context.GetAttribLocation, Context.GetBufferParameter,
    Context.GetParameter, Context.GetError, Context.GetExtension,
    Context.GetFramebufferAttachmentParameter, Context.GetProgramParameteri,
    Context.GetProgramParameterb, Context.GetProgramInfoLog, Context.GetRenderbufferParameter,
    Context.GetShaderParameter, Context.GetShaderParameterb, Context.GetShaderInfoLog,
    Context.GetShaderSource, Context.GetSupportedExtensions, Context.GetTexParameter,
    Context.GetUniform, Context.GetUniformLocation, Context.GetVertexAttrib,
    Context.GetVertexAttribOffset, Context.IsBuffer, Context.IsContextLost,
    Context.IsFramebuffer, Context.IsProgram, Context.IsRenderbuffer, Context.IsShader,
    Context.IsTexture, Context.IsEnabled, Context.LineWidth, Context.LinkProgram,
    Context.PixelStorei, Context.PolygonOffset, Context.ReadPixels, Context.RenderbufferStorage,
    Context.Scissor, Context.ShaderSource, Context.TexImage2D, Context.TexParameteri,
    Context.TexSubImage2D, Context.Uniform1f, Context.Uniform1i, Context.Uniform2f,
    Context.Uniform2i, Context.Uniform3f, Context.Uniform3i, Context.Uniform4f,
    Context.Uniform4i, Context.UniformMatrix2fv, Context.UniformMatrix3fv,
    Context.UniformMatrix4fv, Context.UseProgram, Context.ValidateProgram,
    Context.VertexAttribPointer, Context.Viewport] at he ⊢
      <;>
    first
    | exact error_of_bind _ _ _ (fun _ => FailsWithin_pure _ _) m e he
    | (rcases error_of_bind accessorPanics _ _ (fun _ => FailsWithin_pure _ _) m e he
         with h1 | h1
       · first
         | exact error_of_bind _ _ _ (fun _ => FailsWithin_pure _ _) m e h1
         | exact error_of_bind _ _ _ (fun _ => FailsWithin_Int _) m e h1
         | exact error_of_bind _ _ _ (fun _ => FailsWithin_Bool _) m e h1
         | exact error_of_bind _ _ _ (fun r => FailsWithin_attributes_tail h r) m e h1
         | exact error_of_bind _ _ _ (fun objs =>
             FailsWithin_bind _ _ _ (FailsWithin_Length h objs) fun n =>
             FailsWithin_bind _ _ _ (FailsWithin_makeSlice _ n) fun s0 =>
             FailsWithin_shaders_loop h objs _ 0 s0) m e h1
         | exact error_of_bind _ _ _ (fun ext =>
             FailsWithin_bind _ _ _ (FailsWithin_Length h ext) fun n =>
             FailsWithin_bind _ _ _ (FailsWithin_makeSlice _ n) fun s0 =>
             FailsWithin_extensions_loop h ext _ 0 s0) m e h1
       · exact Or.inr h1)

/-- C19: an error returned by `NewContext` carries one of two texts, which are
different.  A method of `Context` returns a value without an error part; when it
fails it panics, and the panic is the one of its `c.Call` (a nil receiver, an
argument without JavaScript counterpart, a handle that is no object, or the
exception of the host) or the one of an accessor applied to the answer. -/
theorem errors_only_at_construction {σ : Type} (h : Host σ) :
    (∀ (canvas : js.Value) (m : Machine σ) (p : Option Nat) (msg : String),
        (NewContext h canvas m).1 = .ok (p, some msg) →
        msg = "Your browser doesn't appear to support webgl." ∨
          msg = "Creating a webgl context has failed.") ∧
      "Your browser doesn't appear to support webgl." ≠
        "Creating a webgl context has failed." ∧
      ∀ (c : Option Nat) (inv : Invocation) (m : Machine σ) (e : Panic),
        (Context.invoke h c inv m).1 = .error e →
        (Context.Call h c inv.operation inv.args m).1 = .error e ∨ e ∈ accessorPanics := by
  refine ⟨fun canvas m p msg hmsg => ?_, by decide, fun c inv m e he =>
    invoke_error h c inv m e he⟩
  rcases NewContext_result h canvas m with ⟨e, hr⟩ | hr | hr | ⟨q, hr⟩
  · rw [hr] at hmsg
    simp at hmsg
  · rw [hr] at hmsg
    simp only [Except.ok.injEq, Prod.mk.injEq, Option.some.injEq] at hmsg
    exact Or.inl hmsg.2.symm
  · rw [hr] at hmsg
    simp only [Except.ok.injEq, Prod.mk.injEq, Option.some.injEq] at hmsg
    exact Or.inr hmsg.2.symm
  · rw [hr] at hmsg
    simp at hmsg

/-- The accessor `Int` in terms of `intCoercion`. -/
theorem Int_intCoercion {σ : Type} (v : js.Value) (m : Machine σ) :
    ((v.Int : JS σ Int) m).1 = intCoercion v := by
  cases v <;> rfl

/-- A getter that applies `Int` to the answer of its call returns `intCoercion`
of that answer. -/
theorem Int_after_Call {σ : Type} (h : Host σ) (p r : Nat) (m : Machine σ) (ctx : Context)
    (hp : m.heap[p]? = some ctx) (hv : ctx.Value = .object r) (name : String)
    (args : List GoValue) (vals : List js.Value) (hargs : js.makeArgs args = some vals)
    (res : js.Value) (hres : (h.call m.world r name vals).1 = some res) :
    (JS.bind (Context.Call h (some p) name args) (fun v => (v.Int : JS σ Int)) m).1 =
      intCoercion res := by
  rw [JS.bind_apply, Context_Call_afterCall h p r m ctx hp hv name args vals hargs, hres]
  exact Int_intCoercion res _

/-- C20, as stated, fails: asked for LINK_STATUS, the demonstration browser
answers the boolean `true`, and `GetProgramParameteri` panics in `Int`. -/
theorem GetProgramParameteri_boolean_panics :
    ((demoHost true (.object 1) .null).call demoMachine.world 1 "getProgramParameter"
        [.object 5, .number 35714]).1 = some (.boolean true) ∧
      (Context.GetProgramParameteri (demoHost true (.object 1) .null) (some 0) (.object 5)
        35714 demoMachine).1 = .error (.valueError "Value.Int") := by
  obtain ⟨ctx, hp, hv⟩ := demoMachine_cell
  refine ⟨by rfl, ?_⟩
  unfold Context.GetProgramParameteri
  rw [Int_after_Call (demoHost true (.object 1) .null) 0 1 demoMachine ctx hp hv
    "getProgramParameter" [.jsValue (.object 5), .int 35714] [.object 5, .number 35714] rfl
    (.boolean true) (by rfl)]
  rfl

/-- C20, as amended: on a context whose handle is an object, `GetProgramParameteri`,
`GetError`, `GetAttribLocation`, `CheckFramebufferStatus` and
`GetVertexAttribOffset` return `Int()` of the answer of their call.  That is the
number truncated toward zero when the answer is a number, and the panic of `Int`
when it is a value of another type, such as a boolean. -/
theorem int_getters_follow_Int {σ : Type} (h : Host σ) (p r : Nat) (m : Machine σ)
    (ctx : Context) (hp : m.heap[p]? = some ctx) (hv : ctx.Value = .object r) :
    (∀ (program : js.Value) (pname : Int) (res : js.Value),
        (h.call m.world r "getProgramParameter" [program, .number pname]).1 = some res →
        (Context.GetProgramParameteri h (some p) program pname m).1 = intCoercion res) ∧
      (∀ res : js.Value, (h.call m.world r "getError" []).1 = some res →
        (Context.GetError h (some p) m).1 = intCoercion res) ∧
      (∀ (program : js.Value) (name : String) (res : js.Value),
        (h.call m.world r "getAttribLocation" [program, .string name]).1 = some res →
        (Context.GetAttribLocation h (some p) program name m).1 = intCoercion res) ∧
      (∀ (target : Int) (res : js.Value),
        (h.call m.world r "checkFramebufferStatus" [.number target]).1 = some res →
        (Context.CheckFramebufferStatus h (some p) target m).1 = intCoercion res) ∧
      (∀ (index pname : Int) (res : js.Value),
        (h.call m.world r "getVertexAttribOffset" [.number index, .number pname]).1 =
          some res →
        (Context.GetVertexAttribOffset h (some p) index pname m).1 = intCoercion res) ∧
      (∀ x : Rat, intCoercion (.number x) = .ok (Int.tdiv x.num x.den)) ∧
      (∀ b : Bool, intCoercion (.boolean b) = .error (.valueError "Value.Int")) ∧
      intCoercion .undefined = .error (.valueError "Value.Int") ∧
      intCoercion .null = .error (.valueError "Value.Int") := by
  refine ⟨fun program pname res hres => ?_, fun res hres => ?_,
    fun program name res hres => ?_, fun target res hres => ?_,
    fun index pname res hres => ?_, fun _ => rfl, fun _ => rfl, rfl, rfl⟩
  · unfold Context.GetProgramParameteri
    exact Int_after_Call h p r m ctx hp hv "getProgramParameter"
      [.jsValue program, .int pname] [program, .number pname] rfl res hres
  · unfold Context.GetError
    exact Int_after_Call h p r m ctx hp hv "getError" [] [] rfl res hres
  · unfold Context.GetAttribLocation
    exact Int_after_Call h p r m ctx hp hv "getAttribLocation"
      [.jsValue program, .string name] [program, .string name] rfl res hres
  · unfold Context.CheckFramebufferStatus
    exact Int_after_Call h p r m ctx hp hv "checkFramebufferStatus"
      [.int target] [.number target] rfl res hres
  · unfold Context.GetVertexAttribOffset
    exact Int_after_Call h p r m ctx hp hv "getVertexAttribOffset"
      [.int index, .int pname] [.number index, .number pname] rfl res hres

theorem int_getters_follow_Int_witness :
    (Context.GetProgramParameteri (demoHost true (.object 1) .null) (some 0) (.object 5)
        35717 demoMachine).1 = .ok 2 ∧
      (Context.GetError (demoHost true (.object 1) .null) (some 0) demoMachine).1 = .ok 0 := by
  obtain ⟨ctx, hp, hv⟩ := demoMachine_cell
  have hall := int_getters_follow_Int (demoHost true (.object 1) .null) 0 1 demoMachine ctx
    hp hv
  constructor
  · rw [hall.1 (.object 5) 35717 (.number 2) (by rfl)]
    rfl
  · rw [hall.2.1 (.number 0) (by rfl)]
    rfl

/-! ## The last claims on the table and on construction -/

/-- C21, the code: the field table of `Context` has a field, tagged with its own
name, for each of NEVER, LESS, EQUAL, LEQUAL, GREATER, NOTEQUAL, GEQUAL and for
each of TEXTURE0 to TEXTURE31, but no field is named or tagged ALWAYS. -/
theorem ALWAYS_has_no_field :
    (∀ f ∈ contextFields, f.Name ≠ "ALWAYS" ∧ f.Tag ≠ some "ALWAYS") ∧
      (∀ n ∈ comparisonFunctions, StructField.mk n (some n) ∈ contextFields) ∧
      ∀ n ∈ textureUnits, StructField.mk n (some n) ∈ contextFields :=
  ⟨by decide, by decide, by decide⟩

/-- A successful `NewContext` returns a pointer to a cell whose handle is an
object. -/
theorem NewContext_ok_handle {σ : Type} (h : Host σ) (canvas : js.Value) (m : Machine σ)
    (q : Nat) (hok : (NewContext h canvas m).1 = .ok (some q, none)) :
    ∃ ctx r, (NewContext h canvas m).2.heap[q]? = some ctx ∧ ctx.Value = .object r := by
  obtain ⟨gl, m1, heq, _, _⟩ := NewContext_ok_wrap h canvas m (some q) hok
  rw [heq] at hok ⊢
  by_cases hobj : ∃ r, gl = .object r
  · obtain ⟨r, rfl⟩ := hobj
    obtain ⟨ctx, hctx, hval⟩ := wrap_ok_value h (.object r) m1 q hok
    exact ⟨ctx, r, hctx, hval⟩
  · rw [wrap_not_object h gl (fun r hr => hobj ⟨r, hr⟩) m1] at hok
    simp at hok

/-- On a supported host `NewContext` returns only when the canvas is an object
that answers the first request with an object, or with null and then the second
request with null or with an object: in every other case the bridge panics. -/
theorem NewContext_returns_only_if {σ : Type} (h : Host σ) (canvas : js.Value)
    (m : Machine σ) (hsup : h.global m.world "WebGLRenderingContext" ≠ .undefined)
    (hret : ∃ p err, (NewContext h canvas m).1 = .ok (p, err)) :
    ∃ cr, canvas = .object cr ∧
      ((∃ r, (h.call m.world cr "getContext" [.string "webgl"]).1 = some (.object r)) ∨
        ((h.call m.world cr "getContext" [.string "webgl"]).1 = some .null ∧
          ((h.call (h.call m.world cr "getContext" [.string "webgl"]).2 cr "getContext"
              [.string "experimental-webgl"]).1 = some .null ∨
            ∃ r, (h.call (h.call m.world cr "getContext" [.string "webgl"]).2 cr
              "getContext" [.string "experimental-webgl"]).1 = some (.object r)))) := by
  obtain ⟨p, err, hret⟩ := hret
  have hN := NewContext_supported h canvas m hsup
  by_cases hobj : ∃ cr, canvas = .object cr
  · obtain ⟨cr, rfl⟩ := hobj
    refine ⟨cr, rfl, ?_⟩
    rw [Call_object h cr "getContext" [.string "webgl"] [.string "webgl"] rfl m] at hN
    cases h1 : (h.call m.world cr "getContext" [.string "webgl"]).1 with
    | none =>
      rw [h1] at hN
      simp only at hN
      rw [hN] at hret
      simp at hret
    | some gl1 =>
      rw [h1] at hN
      simp only at hN
      by_cases hn1 : gl1 = .null
      · subst hn1
        simp only [js.Value.IsNull, if_true] at hN
        rw [Call_object h cr "getContext" [.string "experimental-webgl"]
          [.string "experimental-webgl"] rfl] at hN
        refine Or.inr ⟨rfl, ?_⟩
        cases h2 : (h.call (h.call m.world cr "getContext" [.string "webgl"]).2 cr
          "getContext" [.string "experimental-webgl"]).1 with
        | none =>
          rw [h2] at hN
          simp only at hN
          rw [hN] at hret
          simp at hret
        | some gl2 =>
          rw [h2] at hN
          simp only at hN
          by_cases hn2 : gl2 = .null
          · exact Or.inl (by rw [hn2])
          · have hnn2 : ¬ gl2.IsNull = true := fun hc => hn2 ((IsNull_iff gl2).mp hc)
            simp only [hnn2, Bool.false_eq_true, if_false] at hN
            by_cases hobj2 : ∃ r, gl2 = .object r
            · obtain ⟨r, rfl⟩ := hobj2
              exact Or.inr ⟨r, rfl⟩
            · rw [hN, wrap_not_object h gl2 (fun r hr => hobj2 ⟨r, hr⟩)] at hret
              simp at hret
      · have hnn1 : ¬ gl1.IsNull = true := fun hc => hn1 ((IsNull_iff gl1).mp hc)
        simp only [hnn1, Bool.false_eq_true, if_false] at hN
        by_cases hobj1 : ∃ r, gl1 = .object r
        · obtain ⟨r, rfl⟩ := hobj1
          exact Or.inl ⟨r, rfl⟩
        · rw [hN, wrap_not_object h gl1 (fun r hr => hobj1 ⟨r, hr⟩)] at hret
          simp at hret
  · rw [Call_not_object h canvas (fun r hr => hobj ⟨r, hr⟩) "getContext" [.string "webgl"]
      [.string "webgl"] rfl m] at hN
    simp only at hN
    rw [hN] at hret
    simp at hret

/-- C22, as stated, fails: on a supported host with a null canvas `NewContext`
panics in `Call`, so it returns neither a binding nor an error. -/
theorem null_canvas_returns_nothing :
    (NewContext (demoHost true (.object 1) .null) .null Machine.start).1 =
        .error (.valueError "Value.Call") ∧
      ¬ ∃ p err, (NewContext (demoHost true (.object 1) .null) .null Machine.start).1 =
        .ok (p, err) := by
  have hN := NewContext_supported (demoHost true (.object 1) .null) .null Machine.start
    (by decide)
  rw [Call_not_object (demoHost true (.object 1) .null) .null (fun r hr => by cases hr)
    "getContext" [.string "webgl"] [.string "webgl"] rfl Machine.start] at hN
  simp only at hN
  rw [hN]
  exact ⟨rfl, fun ⟨p, err, hret⟩ => by simp at hret⟩

/-- C22, as amended: whenever `NewContext` returns, the `*Context` is nil exactly
when the error is not nil, and a `*Context` that is not nil points to a cell
wrapping an object.  `NewContext` returns exactly on an unsupported host and on
a canvas that is an object and answers the request for "webgl" with an object, or
with null and then the request for "experimental-webgl" with null or with an
object; in every other case it panics and returns nothing. -/
theorem NewContext_binding_or_error {σ : Type} (h : Host σ) :
    (∀ (canvas : js.Value) (m : Machine σ) (p : Option Nat) (err : Option String),
        (NewContext h canvas m).1 = .ok (p, err) →
        (p = none ↔ err ≠ none) ∧
          ∀ q, p = some q →
            ∃ ctx r, (NewContext h canvas m).2.heap[q]? = some ctx ∧ ctx.Value = .object r) ∧
      ∀ (canvas : js.Value) (m : Machine σ),
        (∃ p err, (NewContext h canvas m).1 = .ok (p, err)) ↔
        (h.global m.world "WebGLRenderingContext" = .undefined ∨
          ∃ cr, canvas = .object cr ∧
            ((∃ r, (getContextRequest h cr m.world "webgl").1 = some (.object r)) ∨
              ((getContextRequest h cr m.world "webgl").1 = some .null ∧
                ((getContextRequest h cr (getContextRequest h cr m.world "webgl").2
                    "experimental-webgl").1 = some .null ∨
                  ∃ r, (getContextRequest h cr (getContextRequest h cr m.world "webgl").2
                    "experimental-webgl").1 = some (.object r))))) := by
  constructor
  · intro canvas m p err hret
    rcases NewContext_result h canvas m with ⟨e, hr⟩ | hr | hr | ⟨q, hr⟩
    · rw [hr] at hret
      simp at hret
    · rw [hr] at hret
      simp only [Except.ok.injEq, Prod.mk.injEq] at hret
      obtain ⟨hp, he⟩ := hret
      subst hp
      subst he
      exact ⟨by simp, fun q hq => by simp at hq⟩
    · rw [hr] at hret
      simp only [Except.ok.injEq, Prod.mk.injEq] at hret
      obtain ⟨hp, he⟩ := hret
      subst hp
      subst he
      exact ⟨by simp, fun q hq => by simp at hq⟩
    · have hq := NewContext_ok_handle h canvas m q hr
      rw [hr] at hret
      simp only [Except.ok.injEq, Prod.mk.injEq] at hret
      obtain ⟨hp, he⟩ := hret
      subst hp
      subst he
      refine ⟨by simp, fun q1 hq1 => ?_⟩
      simp only [Option.some.injEq] at hq1
      subst hq1
      exact hq
  · intro canvas m
    unfold getContextRequest
    constructor
    · intro hret
      by_cases hun : h.global m.world "WebGLRenderingContext" = .undefined
      · exact Or.inl hun
      · exact Or.inr (NewContext_returns_only_if h canvas m hun hret)
    · intro hcond
      by_cases hsup : h.global m.world "WebGLRenderingContext" = .undefined
      · rw [NewContext_returns_unsupported h canvas m hsup]
        exact ⟨_, _, rfl⟩
      · rcases hcond with hun | ⟨cr, rfl, ⟨r, h1⟩ | ⟨h1, h2 | ⟨r, h2⟩⟩⟩
        · exact absurd hun hsup
        · rw [NewContext_primary_object h cr r m hsup h1]
          exact ⟨_, _, rfl⟩
        · have hfail := NewContext_supported h (.object cr) m hsup
          rw [Call_object h cr "getContext" [.string "webgl"] [.string "webgl"] rfl m]
            at hfail
          simp only [h1, js.Value.IsNull, if_true] at hfail
          rw [Call_object h cr "getContext" [.string "experimental-webgl"]
            [.string "experimental-webgl"] rfl] at hfail
          simp only [h2, js.Value.IsNull, if_true] at hfail
          rw [hfail]
          exact ⟨_, _, rfl⟩
        · rw [NewContext_fallback_object h cr r m hsup h1 h2]
          exact ⟨_, _, rfl⟩

/-- C23: when the global `WebGLRenderingContext` is undefined, `NewContext` leaves
the machine as it found it: the trace has no new call, so the canvas is never
asked for a context. -/
theorem unsupported_host_gets_no_request {σ : Type} (h : Host σ) (canvas : js.Value)
    (m : Machine σ) (hun : h.global m.world "WebGLRenderingContext" = .undefined) :
    (NewContext h canvas m).2 = m ∧ (NewContext h canvas m).2.calls = m.calls := by
  rw [NewContext_returns_unsupported h canvas m hun]
  exact ⟨rfl, rfl⟩

theorem unsupported_host_gets_no_request_witness :
    (NewContext (demoHost false (.object 1) .null) (.object 0) Machine.start).2 =
        Machine.start ∧
      (NewContext (demoHost false (.object 1) .null) (.object 0) Machine.start).2.calls = [] :=
  unsupported_host_gets_no_request (demoHost false (.object 1) .null) (.object 0)
    Machine.start (by rfl)

/-- When the canvas answers the request for "webgl" with a value that is not
null, `NewContext` makes that one call and goes on to wrap the value. -/
theorem NewContext_primary_not_null {σ : Type} (h : Host σ) (cr : Nat) (m : Machine σ)
    (gl : js.Value) (hsup : h.global m.world "WebGLRenderingContext" ≠ .undefined)
    (h1 : (h.call m.world cr "getContext" [.string "webgl"]).1 = some gl)
    (hnn : gl ≠ .null) :
    NewContext h (.object cr) m =
      NewContext.wrap h gl
        { world := (h.call m.world cr "getContext" [.string "webgl"]).2,
          calls := m.calls ++ [⟨.object cr, "getContext", [.string "webgl"], some gl⟩],
          heap := m.heap } := by
  have hnull : ¬ gl.IsNull = true := fun hc => hnn ((IsNull_iff gl).mp hc)
  rw [NewContext_supported h (.object cr) m hsup,
    Call_object h cr "getContext" [.string "webgl"] [.string "webgl"] rfl m]
  simp only [h1, hnull, Bool.false_eq_true, if_false]

/-- C24, as stated, fails: when the canvas answers the request for "webgl" with
undefined, `NewContext` does not return a nil error; it panics in `Get`. -/
theorem undefined_context_panics :
    ((demoHost true .undefined .null).call Machine.start.world 0 "getContext"
        [.string "webgl"]).1 = some .undefined ∧
      (NewContext (demoHost true .undefined .null) (.object 0) Machine.start).1 =
        .error (.valueError "Value.Get") := by
  refine ⟨by decide, ?_⟩
  rw [NewContext_primary_not_null (demoHost true .undefined .null) 0 Machine.start .undefined
    (by decide) (by decide) (by decide),
    wrap_not_object _ .undefined (fun r hr => by cases hr)]

/-- C24, as amended: on a supported host, when the canvas answers the request for
"webgl" with a value that is not null, that request is the only call `NewContext`
makes.  When the value is an object, `NewContext` returns a nil error and a
pointer to a cell wrapping it; when it is anything else, such as undefined,
`NewContext` panics in `Get` and returns nothing. -/
theorem first_answer_not_null {σ : Type} (h : Host σ) (cr : Nat) (m : Machine σ)
    (gl : js.Value) (hsup : h.global m.world "WebGLRenderingContext" ≠ .undefined)
    (h1 : (getContextRequest h cr m.world "webgl").1 = some gl) (hnn : gl ≠ .null) :
    (NewContext h (.object cr) m).2.calls =
        m.calls ++ [getContextEvent h cr m.world "webgl"] ∧
      (∀ r, gl = .object r →
        ∃ p ctx, (NewContext h (.object cr) m).1 = .ok (some p, none) ∧
          (NewContext h (.object cr) m).2.heap[p]? = some ctx ∧ ctx.Value = gl) ∧
      ((∀ r, gl ≠ .object r) →
        (NewContext h (.object cr) m).1 = .error (.valueError "Value.Get")) := by
  unfold getContextRequest at h1
  have hev : getContextEvent h cr m.world "webgl" =
      ⟨.object cr, "getContext", [.string "webgl"], some gl⟩ := by
    unfold getContextEvent getContextRequest
    rw [h1]
  rw [NewContext_primary_not_null h cr m gl hsup h1 hnn, hev]
  refine ⟨wrap_calls h gl _, fun r hr => ?_, fun hno => ?_⟩
  · subst hr
    have hw := wrap_object h r
      { world := (h.call m.world cr "getContext" [.string "webgl"]).2,
        calls := m.calls ++ [⟨.object cr, "getContext", [.string "webgl"], some (.object r)⟩],
        heap := m.heap }
    obtain ⟨ctx, hctx, hval⟩ := wrap_ok_value h (.object r) _ m.heap.length
      (by rw [hw])
    exact ⟨m.heap.length, ctx, by rw [hw], hctx, hval⟩
  · rw [wrap_not_object h gl hno]

theorem first_answer_not_null_witness :
    (NewContext (demoHost true .undefined .null) (.object 0) Machine.start).2.calls =
      [⟨.object 0, "getContext", [.string "webgl"], some .undefined⟩] :=
  (first_answer_not_null (demoHost true .undefined .null) 0 Machine.start .undefined
    (by decide) (by decide) (by decide)).1

end webgl
